import Mathlib

/-!
Verification of the cloud-top-height estimation library (cth.py,
cth_6th_deg_approx.py, VisualWeather/ccl_cth.py) against its
natural-language specification.

The three Python modules share an identical thermodynamic chain
(constants, ISA pressure-to-height conversion, Bolton saturation vapour
pressure / mixing ratio / equivalent potential temperature, Davies-Jones
wet-bulb potential temperature); that common text is embedded once below.
The modules differ only in the moist-adiabat coefficient tables
(5th-degree table in cth.py and ccl_cth.py, 6th-degree table in
cth_6th_deg_approx.py) and in the plugin entry points of ccl_cth.py.
Python/numpy floating-point arithmetic is embedded as real arithmetic;
decimal literals denote the exact rationals written in the source.
-/

namespace CTH

noncomputable section

/-- Constant block common to all three modules (cth.py lines 64-81). -/
def ZERO_C_K : ℝ := 273.15

/-- Dry-air gas constant used in the tropopause branch (cth.py line 67). -/
def Rd : ℝ := 287

/-- kappa = Rd/Cpd (cth.py line 69); the double-precision value of 2/7
written in the source, not the rounded 0.285714. -/
def Rd_Cpd : ℝ := 0.28571428571428564

/-- Molecular weight ratio (cth.py line 71). -/
def epsilon : ℝ := 0.6219569100577033

def R1 : ℝ := 8.31432

def M : ℝ := 0.0289644

def R : ℝ := R1 / M

def g : ℝ := 9.80665

def gamma : ℝ := 0.65 / 100

def t_sfc : ℝ := 15.0 + 273.15

def p_sfc : ℝ := 1013.25

/-- Exponent K = R * gamma / g of the troposphere power law (cth.py line 80;
named Ka in ccl_cth.py line 93). -/
def K : ℝ := R * gamma / g

def ftm : ℝ := 3.28084

/-- Pressure [hPa] to ICAO standard-atmosphere height [m]
(cth.py lines 84-94, identical in the other two modules). -/
def p_to_h (p : ℝ) : ℝ :=
  if p ≤ 226.32 then 11000 - Rd * (ZERO_C_K - 56.5) / g * Real.log (p / 226.32)
  else t_sfc / gamma * (1 - (p / p_sfc) ^ K)

/-- Pressure to flight level [hft] (ccl_cth.py lines 113-123).  The source
rounds with Python `round` (half-to-even); `round` below is Mathlib's
half-up rounding — the two agree off exact half-integers, and every claim
about this function is settled at a provably non-half value. -/
def p_to_fl (pressure : ℝ) : ℤ := round (p_to_h pressure * ftm / 100)

/-- Potential temperature [degC] from pressure [hPa] and temperature [degC]
(cth.py lines 100-110). -/
def potential_temperature (press temp : ℝ) : ℝ :=
  (temp + ZERO_C_K) * (1000 / press) ^ Rd_Cpd - ZERO_C_K

/-- Mixing ratio from vapour pressure and total pressure [Pa]
(cth.py lines 113-118). -/
def mixing_ratio (v_p t_p : ℝ) : ℝ := epsilon * v_p / (t_p - v_p)

/-- Bolton saturation vapour pressure [Pa] from dewpoint [degC]
(cth.py lines 121-130). -/
def e_sat (t_dew : ℝ) : ℝ := 611.2 * Real.exp (17.67 * t_dew / (t_dew + 243.5))

/-- Saturation mixing ratio from pressure [hPa] and dewpoint [degC]
(cth.py lines 133-145). -/
def saturation_mixing_ratio (p td : ℝ) : ℝ := mixing_ratio (e_sat td) (p * 100)

/-- Bolton equivalent potential temperature [K] (cth.py lines 148-169). -/
def theta_e (t td p : ℝ) : ℝ :=
  let r_s := saturation_mixing_ratio p td
  let e := e_sat td
  let theta := potential_temperature (p - e / 100) t
  let tK := t + ZERO_C_K
  let tdK := td + ZERO_C_K
  let thetaK := theta + ZERO_C_K
  let t_l := 56 + 1 / (1 / (tdK - 56) + Real.log (tK / tdK) / 800)
  let th_l := thetaK * (tK / t_l) ^ (0.28 * r_s)
  th_l * Real.exp (r_s * (1 + 0.448 * r_s) * (3036 / t_l - 1.78))

/-- Davies-Jones 2008 wet-bulb potential temperature from equivalent
potential temperature (cth_6th_deg_approx.py lines 170-186; the same text
is inlined in cth.py lines 172-192 and duplicated in ccl_cth.py).
np.where evaluates both branches and selects; over the reals this is the
conditional below. -/
def theta_w_from_theta_e (th_e : ℝ) : ℝ :=
  let x := th_e / 273.15
  let x2 := x * x
  let x3 := x2 * x
  let x4 := x3 * x
  let a := 7.101574 - 20.68208 * x + 16.11182 * x2 + 2.574631 * x3 - 5.205688 * x4
  let b := 1 - 3.552497 * x + 3.781782 * x2 - 0.6899655 * x3 - 0.5929340 * x4
  let th_w := th_e - Real.exp (a / b)
  if th_e ≤ 173.15 then th_e else th_w

/-- Wet-bulb potential temperature from (t, td, p)
(cth_6th_deg_approx.py lines 189-201, cth.py lines 172-192). -/
def theta_w (t td p : ℝ) : ℝ := theta_w_from_theta_e (theta_e t td p)

/-! ### 6th-degree moist-adiabat coefficient table (cth_6th_deg_approx.py)

Each coefficient mac[i] of the 6th-degree polynomial in brightness
temperature is a fixed quartic in tw = theta_w - 273.15
(cth_6th_deg_approx.py lines 222-229, duplicated at lines 254-261). -/

def mac6_0 (tw : ℝ) : ℝ :=
  let tw2 := tw * tw
  let tw3 := tw2 * tw
  let tw4 := tw3 * tw
  1.34598934e-15 * tw4 - 6.95711517e-14 * tw3 + 7.06772534e-13 * tw2 + 3.27562146e-13 * tw + 2.14085111e-10

def mac6_1 (tw : ℝ) : ℝ :=
  let tw2 := tw * tw
  let tw3 := tw2 * tw
  let tw4 := tw3 * tw
  1.46826594e-13 * tw4 - 3.28095045e-12 * tw3 - 1.90355508e-10 * tw2 + 2.99865474e-09 * tw + 1.17192247e-07

def mac6_2 (tw : ℝ) : ℝ :=
  let tw2 := tw * tw
  let tw3 := tw2 * tw
  let tw4 := tw3 * tw
  (-4.03819245e-12 * tw4 + 1.04339580e-09 * tw3 - 5.57183537e-08 * tw2 + 5.66654023e-07 * tw + 2.72099202e-05)

def mac6_3 (tw : ℝ) : ℝ :=
  let tw2 := tw * tw
  let tw3 := tw2 * tw
  let tw4 := tw3 * tw
  (-1.04764419e-09 * tw4 + 1.09514749e-07 * tw3 - 4.37757525e-06 * tw2 + 3.47578633e-05 * tw + 3.40521208e-03)

def mac6_4 (tw : ℝ) : ℝ :=
  let tw2 := tw * tw
  let tw3 := tw2 * tw
  let tw4 := tw3 * tw
  (-4.13270841e-08 * tw4 + 3.51397283e-06 * tw3 - 1.36808612e-04 * tw2 - 2.81625246e-04 * tw + 2.74722979e-01)

def mac6_5 (tw : ℝ) : ℝ :=
  let tw2 := tw * tw
  let tw3 := tw2 * tw
  let tw4 := tw3 * tw
  4.86347926e-08 * tw4 + 1.76182949e-05 * tw3 - 1.78557297e-03 * tw2 - 2.44625335e-01 * tw + 1.92406642e+01

def mac6_6 (tw : ℝ) : ℝ :=
  let tw2 := tw * tw
  let tw3 := tw2 * tw
  let tw4 := tw3 * tw
  5.64716869e-05 * tw4 - 1.62042578e-03 * tw3 - 2.23587882e-02 * tw2 - 1.92635339e+01 * tw + 9.99811121e+02

/-- np.polyval of the 6th-degree coefficient vector at t (Horner, descending
powers), as in cth_6th_deg_approx.py line 231 / 263. -/
def adiabat6 (tw t : ℝ) : ℝ :=
  (((((mac6_0 tw * t + mac6_1 tw) * t + mac6_2 tw) * t + mac6_3 tw) * t + mac6_4 tw) * t + mac6_5 tw) * t + mac6_6 tw

/-- Cloud top pressure from theta_e [K] and brightness temperature [degC]
(cth_6th_deg_approx.py lines 204-231). No bias correction is applied to bt
inside this function. -/
def ctp_from_theta_e (theta_e_max bt : ℝ) : ℝ :=
  adiabat6 (theta_w_from_theta_e theta_e_max - ZERO_C_K) bt

/-- Cloud top pressure from (t, td, p) and brightness temperature [degC]
(cth_6th_deg_approx.py lines 237-263; the source duplicates the coefficient
text of ctp_from_theta_e). No bias correction is applied to bt inside this
function. -/
def ctp (t0 td0 p0 bt : ℝ) : ℝ :=
  adiabat6 (theta_w t0 td0 p0 - ZERO_C_K) bt

/-! ### 5th-degree moist-adiabat coefficient table
(cth.py lines 212-218, duplicated in ccl_cth.py lines 256-262 and 287-293). -/

def mac5_0 (tw : ℝ) : ℝ :=
  let tw2 := tw * tw
  let tw3 := tw2 * tw
  let tw4 := tw3 * tw
  1.34900172e-13 * tw4 - 9.43979160e-12 * tw3 + 1.87653668e-10 * tw2 - 7.65322959e-11 * tw + 2.92814658e-08

def mac5_1 (tw : ℝ) : ℝ :=
  let tw2 := tw * tw
  let tw3 := tw2 * tw
  let tw4 := tw3 * tw
  1.83574985e-11 * tw4 - 1.34431358e-09 * tw3 + 1.98697357e-08 * tw2 + 2.98476410e-07 * tw + 1.27504708e-05

def mac5_2 (tw : ℝ) : ℝ :=
  let tw2 := tw * tw
  let tw3 := tw2 * tw
  let tw4 := tw3 * tw
  9.71770820e-10 * tw4 - 6.82962603e-08 * tw3 - 2.29995000e-07 * tw2 + 5.36097021e-05 * tw + 2.28596093e-03

def mac5_3 (tw : ℝ) : ℝ :=
  let tw2 := tw * tw
  let tw3 := tw2 * tw
  let tw4 := tw3 * tw
  1.53207987e-08 * tw4 - 1.92972790e-07 * tw3 - 1.22319198e-04 * tw2 + 2.46185591e-03 * tw + 2.34738009e-01

def mac5_4 (tw : ℝ) : ℝ :=
  let tw2 := tw * tw
  let tw3 := tw2 * tw
  let tw4 := tw3 * tw
  (-1.69715923e-07 * tw4 + 7.78264909e-05 * tw3 - 5.65297782e-03 * tw2 - 1.58431571e-01 * tw + 1.86846195e+01)

def mac5_5 (tw : ℝ) : ℝ :=
  let tw2 := tw * tw
  let tw3 := tw2 * tw
  let tw4 := tw3 * tw
  4.15209383e-05 * tw4 - 1.28889861e-04 * tw3 - 7.22894532e-02 * tw2 - 1.86535189e+01 * tw + 9.98111805e+02

/-- np.polyval of the 5th-degree coefficient vector at t (cth.py line 220). -/
def adiabat5 (tw t : ℝ) : ℝ :=
  ((((mac5_0 tw * t + mac5_1 tw) * t + mac5_2 tw) * t + mac5_3 tw) * t + mac5_4 tw) * t + mac5_5 tw

/-- ctp of cth.py (lines 195-220) and of ccl_cth.py (lines 270-295):
5th-degree tier, no bias correction applied to bt inside. -/
def ctp5 (t0 td0 p0 bt : ℝ) : ℝ :=
  adiabat5 (theta_w t0 td0 p0 - ZERO_C_K) bt

/-- ctp_from_theta_e of ccl_cth.py (lines 238-264): 5th-degree tier,
no bias correction applied to bt inside. -/
def ctp_from_theta_e5 (theta_e_max bt : ℝ) : ℝ :=
  adiabat5 (theta_w_from_theta_e theta_e_max - ZERO_C_K) bt

/-- Kernel plugin entry point ccl_cth (ccl_cth.py lines 302-314): unwraps
unit-tagged values (modelled as plain reals), applies the -5 degC empirical
bias correction to the brightness temperature, and converts the resulting
pressure to a flight level. -/
def ccl_cth (t0 td0 p0 bt_raw : ℝ) : ℤ := p_to_fl (ctp5 t0 td0 p0 (bt_raw - 5))

/-- Kernel plugin entry point ccl_cth_theta_e (ccl_cth.py lines 318-328). -/
def ccl_cth_theta_e (th_e_K bt_raw : ℝ) : ℤ :=
  p_to_fl (ctp_from_theta_e5 th_e_K (bt_raw - 5))

end

/-! ## Claim C2: cross-consistency of the two 6th-degree solver entry points -/

/-- C2 (confirmed): for every input, ctp_from_theta_e applied to
theta_e(t, td, p) agrees exactly with ctp(t, td, p, bt): both compute
theta_w from the same theta_e and evaluate the same 6th-degree coefficient
table and polynomial. -/
theorem c2_cross_consistency (t td p bt : ℝ) :
    ctp_from_theta_e (theta_e t td p) bt = ctp t td p bt := rfl

/-! ## Claim C7: identity of the Davies-Jones conversion at or below the floor -/

/-- C7 (confirmed): for theta_e at or below 173.15 K the Davies-Jones
conversion returns its argument unchanged. -/
theorem c7_floor_identity (x : ℝ) (h : x ≤ 173.15) :
    theta_w_from_theta_e x = x := by
  simp only [theta_w_from_theta_e]
  rw [if_pos h]

/-- Witness for C7 at x = 100. -/
theorem c7_floor_identity_witness :
    (100 : ℝ) ≤ 173.15 ∧ theta_w_from_theta_e 100 = 100 :=
  ⟨by norm_num, c7_floor_identity 100 (by norm_num)⟩

/-! ## Claim C6: theta_w never exceeds theta_e -/

/-- C6 (confirmed): for every parcel with td ≤ t, the wet-bulb potential
temperature is at most the equivalent potential temperature (above the
173.15 K floor theta_w = theta_e - exp(a/b) with exp positive; at or below
the floor the two are equal). -/
theorem c6_thetaW_le_thetaE (t td p : ℝ) (h : td ≤ t) :
    theta_w t td p ≤ theta_e t td p ∧
      (theta_e t td p ≤ 173.15 → theta_w t td p = theta_e t td p) := by
  clear h
  unfold theta_w theta_w_from_theta_e
  constructor
  · split
    · exact le_refl _
    · exact sub_le_self _ (Real.exp_pos _).le
  · intro hle
    rw [if_pos hle]

/-- Witness for C6 at the parcel (0, -10, 1000). -/
theorem c6_thetaW_le_thetaE_witness :
    (-10 : ℝ) ≤ 0 ∧
      (theta_w 0 (-10) 1000 ≤ theta_e 0 (-10) 1000 ∧
        (theta_e 0 (-10) 1000 ≤ 173.15 →
          theta_w 0 (-10) 1000 = theta_e 0 (-10) 1000)) :=
  ⟨by norm_num, c6_thetaW_le_thetaE 0 (-10) 1000 (by norm_num)⟩

/-! ## Claim C10: the division in mixing_ratio is unguarded -/

/-- C10 (confirmed): at p = 50 hPa, Td = 40 degC — inside the documented
50-1050 hPa envelope — the saturation vapour pressure exceeds p*100 Pa, so
the denominator of the saturation mixing ratio is negative and the function
returns a negative value rather than a well-defined non-negative mixing
ratio; no guard in the code prevents this. -/
theorem c10_mixing_ratio_unguarded :
    50 * 100 - e_sat 40 < 0 ∧ saturation_mixing_ratio 50 40 < 0 := by
  have h5000 : (5000 : ℝ) < e_sat 40 := by
    have harg : 17.67 * (40 : ℝ) / (40 + 243.5) = 16 * (2356 / 15120) := by norm_num
    have hexp : Real.exp (16 * (2356 / 15120)) = Real.exp (2356 / 15120) ^ 16 :=
      Real.exp_nat_mul _ 16
    have hlb : ((2356 : ℝ) / 15120 + 1) ^ 16 ≤ Real.exp (2356 / 15120) ^ 16 :=
      pow_le_pow_left₀ (by positivity) (Real.add_one_le_exp _) 16
    have hnum : (5000 : ℝ) < 611.2 * ((2356 : ℝ) / 15120 + 1) ^ 16 := by norm_num
    calc (5000 : ℝ) < 611.2 * ((2356 : ℝ) / 15120 + 1) ^ 16 := hnum
    _ ≤ 611.2 * Real.exp (2356 / 15120) ^ 16 := by nlinarith [hlb]
    _ = 611.2 * Real.exp (16 * (2356 / 15120)) := by rw [hexp]
    _ = e_sat 40 := by rw [e_sat, harg]
  refine ⟨by linarith, ?_⟩
  unfold saturation_mixing_ratio mixing_ratio
  apply div_neg_of_pos_of_neg
  · have : (0 : ℝ) < e_sat 40 := by unfold e_sat; positivity
    unfold epsilon
    nlinarith [this]
  · norm_num
    linarith

/-! ## Claim C4: exponent of potential_temperature -/

/-- C4 counterexample: at p = 500 hPa, T = 0 degC the code's value differs
from the claimed formula with exponent 0.285714, because the source exponent
is the double-precision constant 0.28571428571428564 and the rpow base 2
separates the two exponents. -/
theorem c4_counterexample :
    potential_temperature 500 0 ≠ (0 + 273.15) * (1000 / 500) ^ (0.285714 : ℝ) - 273.15 := by
  unfold potential_temperature Rd_Cpd ZERO_C_K
  intro h
  have h2 : ((1000 : ℝ) / 500) = 2 := by norm_num
  rw [h2] at h
  have hlt : (2 : ℝ) ^ (0.285714 : ℝ) < (2 : ℝ) ^ (0.28571428571428564 : ℝ) :=
    Real.rpow_lt_rpow_of_exponent_lt (by norm_num) (by norm_num)
  nlinarith [hlt]

/-- C4 (corrected): potential_temperature implements the spec formula with
the exponent Rd_Cpd = 0.28571428571428564 (the double-precision value of
2/7 written in the source), not the rounded 0.285714. -/
theorem c4_potential_temperature_formula (p T : ℝ) (h : 0 < p) :
    potential_temperature p T =
      (T + 273.15) * (1000 / p) ^ (0.28571428571428564 : ℝ) - 273.15 := by
  clear h
  rfl

/-- Witness for C4's amended theorem at p = 1000, T = 0. -/
theorem c4_potential_temperature_formula_witness :
    (0 : ℝ) < 1000 ∧
      potential_temperature 1000 0 =
        (0 + 273.15) * (1000 / 1000) ^ (0.28571428571428564 : ℝ) - 273.15 :=
  ⟨by norm_num, c4_potential_temperature_formula 1000 0 (by norm_num)⟩

/-! ## Claim C1: location of the -5 degC brightness-temperature bias -/

/-- C1 counterexample: the solver entry point ctp_from_theta_e of
cth_6th_deg_approx.py does not evaluate the moist-adiabat polynomial at
bt - 5: at theta_e = 173.15 K (so tw = -100 exactly) and bt = 0 its value
is the polynomial at 0, which differs from the polynomial at 0 - 5. -/
theorem c1_counterexample :
    ctp_from_theta_e 173.15 0 ≠
      adiabat6 (theta_w_from_theta_e 173.15 - ZERO_C_K) (0 - 5) := by
  unfold ctp_from_theta_e
  have hfl : theta_w_from_theta_e 173.15 = 173.15 := by
    simp only [theta_w_from_theta_e]
    rw [if_pos (le_refl _)]
  rw [hfl]
  unfold adiabat6 mac6_0 mac6_1 mac6_2 mac6_3 mac6_4 mac6_5 mac6_6 ZERO_C_K
  norm_num

/-- C1 (corrected): the -5 degC bias correction is applied exactly once, by
the plugin entry points ccl_cth and ccl_cth_theta_e of ccl_cth.py, before
the solver functions are called; the pressure-returning solver entry points
ctp and ctp_from_theta_e evaluate the moist-adiabat polynomial at their bt
argument unchanged. -/
theorem c1_bias_location :
    (∀ th bt : ℝ, ctp_from_theta_e th bt =
        adiabat6 (theta_w_from_theta_e th - ZERO_C_K) bt) ∧
    (∀ t td p bt : ℝ, ctp t td p bt =
        adiabat6 (theta_w_from_theta_e (theta_e t td p) - ZERO_C_K) bt) ∧
    (∀ t td p bt : ℝ, ccl_cth t td p bt = p_to_fl (ctp5 t td p (bt - 5))) ∧
    (∀ th bt : ℝ, ccl_cth_theta_e th bt = p_to_fl (ctp_from_theta_e5 th (bt - 5))) :=
  ⟨fun _ _ => rfl, fun _ _ _ _ => rfl, fun _ _ _ _ => rfl, fun _ _ => rfl⟩

/-! ## Taylor bounds for the real exponential

Auxiliary machinery for the numeric claims: two-sided bounds on exp at
rational points via the degree-11 Taylor polynomial and Mathlib's
remainder estimate. -/

noncomputable section

/-- Degree-11 Taylor polynomial of exp at 0. -/
def expP (x : ℝ) : ℝ :=
  1 + x + x^2/2 + x^3/6 + x^4/24 + x^5/120 + x^6/720 + x^7/5040 + x^8/40320 +
    x^9/362880 + x^10/3628800 + x^11/39916800

end

lemma sum_eq_expP (x : ℝ) :
    (∑ i ∈ Finset.range 12, x ^ i / (Nat.factorial i : ℝ)) = expP x := by
  simp [Finset.sum_range_succ, Nat.factorial, expP]

lemma one_le_expP (y : ℝ) (h0 : 0 ≤ y) : 1 ≤ expP y := by
  unfold expP
  have h2 := pow_nonneg h0 2
  have h3 := pow_nonneg h0 3
  have h4 := pow_nonneg h0 4
  have h5 := pow_nonneg h0 5
  have h6 := pow_nonneg h0 6
  have h7 := pow_nonneg h0 7
  have h8 := pow_nonneg h0 8
  have h9 := pow_nonneg h0 9
  have h10 := pow_nonneg h0 10
  have h11 := pow_nonneg h0 11
  linarith

lemma expP_le_exp (x : ℝ) (hx : 0 ≤ x) : expP x ≤ Real.exp x := by
  have h := Real.sum_le_exp_of_nonneg hx 12
  rwa [sum_eq_expP] at h

lemma exp_le_expP_tail (x : ℝ) (h0 : 0 ≤ x) (h1 : x ≤ 1) :
    Real.exp x ≤ expP x + x ^ 12 * 13 / 5748019200 := by
  have h := Real.exp_bound' h0 h1 (n := 12) (by norm_num)
  rw [sum_eq_expP] at h
  calc Real.exp x ≤ expP x + x ^ 12 * (12 + 1) / (Nat.factorial 12 * 12) := h
  _ = expP x + x ^ 12 * 13 / 5748019200 := by norm_num [Nat.factorial]

lemma exp_neg_le_inv_expP (y : ℝ) (h0 : 0 ≤ y) : Real.exp (-y) ≤ 1 / expP y := by
  have hp : (0 : ℝ) < expP y := lt_of_lt_of_le one_pos (one_le_expP y h0)
  rw [Real.exp_neg, ← one_div]
  exact one_div_le_one_div_of_le hp (expP_le_exp y h0)

lemma inv_le_exp_neg (y : ℝ) (h0 : 0 ≤ y) (h1 : y ≤ 1) :
    1 / (expP y + y ^ 12 * 13 / 5748019200) ≤ Real.exp (-y) := by
  have hp : (0 : ℝ) < Real.exp y := Real.exp_pos y
  rw [Real.exp_neg, ← one_div]
  exact one_div_le_one_div_of_le hp (exp_le_expP_tail y h0 h1)

/-- Two-sided rational bounds on the constant K = R * gamma / g. -/
lemma K_bounds : (0.1902632365 : ℝ) ≤ K ∧ K ≤ 0.1902632366 := by
  unfold K R R1 M gamma g
  constructor <;> norm_num

/-! ## Claim C9: flight level at 500 hPa -/

/-- C9 (confirmed): p_to_fl 500 is round(p_to_h 500 * 3.28084 / 100), this
integer is 183, and it lies in the 180..183 range the spec allows. -/
theorem c9_flight_level_500 :
    p_to_fl 500 = round (p_to_h 500 * 3.28084 / 100) ∧
      180 ≤ p_to_fl 500 ∧ p_to_fl 500 ≤ 183 := by
  have hq : (0:ℝ) < 500 / p_sfc := by unfold p_sfc; norm_num
  have hL1 : (-0.70632 : ℝ) ≤ Real.log (500 / p_sfc) := by
    rw [Real.le_log_iff_exp_le hq]
    calc Real.exp (-0.70632) ≤ 1 / expP 0.70632 :=
          exp_neg_le_inv_expP _ (by norm_num)
    _ ≤ 500 / p_sfc := by unfold expP p_sfc; norm_num
  have hL2 : Real.log (500 / p_sfc) ≤ -0.70630 := by
    rw [Real.log_le_iff_le_exp hq]
    calc (500:ℝ) / p_sfc
        ≤ 1 / (expP 0.70630 + 0.70630 ^ 12 * 13 / 5748019200) := by
          unfold expP p_sfc; norm_num
    _ ≤ Real.exp (-0.70630) := inv_le_exp_neg _ (by norm_num) (by norm_num)
  obtain ⟨hK1, hK2⟩ := K_bounds
  have hx1 : (-0.134388 : ℝ) ≤ K * Real.log (500 / p_sfc) := by
    nlinarith [hK1, hK2, hL1, hL2]
  have hx2 : K * Real.log (500 / p_sfc) ≤ -0.134379 := by
    nlinarith [hK1, hK2, hL1, hL2]
  have hrpow : ((500 : ℝ) / p_sfc) ^ K = Real.exp (Real.log (500 / p_sfc) * K) :=
    Real.rpow_def_of_pos hq K
  have he1 : (0.874250 : ℝ) ≤ ((500 : ℝ) / p_sfc) ^ K := by
    rw [hrpow]
    calc (0.874250:ℝ)
        ≤ 1 / (expP 0.134388 + 0.134388 ^ 12 * 13 / 5748019200) := by
          unfold expP; norm_num
    _ ≤ Real.exp (-0.134388) := inv_le_exp_neg _ (by norm_num) (by norm_num)
    _ ≤ Real.exp (Real.log (500 / p_sfc) * K) := by
          apply Real.exp_le_exp.mpr; linarith [hx1]
  have he2 : ((500 : ℝ) / p_sfc) ^ K ≤ 0.874270 := by
    rw [hrpow]
    calc Real.exp (Real.log (500 / p_sfc) * K)
        ≤ Real.exp (-0.134379) := by
          apply Real.exp_le_exp.mpr; linarith [hx2]
    _ ≤ 1 / expP 0.134379 := exp_neg_le_inv_expP _ (by norm_num)
    _ ≤ 0.874270 := by unfold expP; norm_num
  have hp2h : p_to_h 500 = t_sfc / gamma * (1 - ((500 : ℝ) / p_sfc) ^ K) := by
    unfold p_to_h
    rw [if_neg]
    norm_num
  have hv1 : (182.5:ℝ) < p_to_h 500 * 3.28084 / 100 := by
    rw [hp2h]; unfold t_sfc gamma; nlinarith [he2]
  have hv2 : p_to_h 500 * 3.28084 / 100 < 183.5 := by
    rw [hp2h]; unfold t_sfc gamma; nlinarith [he1]
  have hval : p_to_fl 500 = 183 := by
    unfold p_to_fl ftm
    rw [round_eq, Int.floor_eq_iff]
    constructor
    · push_cast; linarith [hv1]
    · push_cast; linarith [hv2]
  exact ⟨rfl, by rw [hval]; norm_num, by rw [hval]⟩

/-! ## Claim C3: continuity of p_to_h at the tropopause boundary -/

/-- C3 counterexample: the tropopause branch of p_to_h gives exactly 11000 m
at p = 226.32 hPa, but the troposphere power-law branch evaluated there
differs from 11000 by more than 1e-6 m (the gap is about 0.018 m, because
226.32 is itself a rounded constant). -/
theorem c3_counterexample :
    p_to_h 226.32 = 11000 ∧
      ¬ |11000 - t_sfc / gamma * (1 - ((226.32 : ℝ) / p_sfc) ^ K)| ≤ 1e-6 := by
  have hq : (0:ℝ) < 226.32 / p_sfc := by unfold p_sfc; norm_num
  have hL1 : (-1.49896835 : ℝ) ≤ Real.log (226.32 / p_sfc) := by
    rw [Real.le_log_iff_exp_le hq]
    have hsplit : Real.exp (-1.49896835 : ℝ) = Real.exp (-0.749484175) ^ 2 := by
      rw [← Real.exp_nat_mul]; norm_num
    rw [hsplit]
    calc Real.exp (-0.749484175 : ℝ) ^ 2
        ≤ (1 / expP 0.749484175) ^ 2 :=
          pow_le_pow_left₀ (Real.exp_pos _).le
            (exp_neg_le_inv_expP _ (by norm_num)) 2
    _ ≤ 226.32 / p_sfc := by unfold expP p_sfc; norm_num
  have hL2 : Real.log (226.32 / p_sfc) ≤ -1.49896832 := by
    rw [Real.log_le_iff_le_exp hq]
    have hsplit : Real.exp (-1.49896832 : ℝ) = Real.exp (-0.74948416) ^ 2 := by
      rw [← Real.exp_nat_mul]; norm_num
    rw [hsplit]
    calc (226.32:ℝ) / p_sfc
        ≤ (1 / (expP 0.74948416 + 0.74948416 ^ 12 * 13 / 5748019200)) ^ 2 := by
          unfold expP p_sfc; norm_num
    _ ≤ Real.exp (-0.74948416 : ℝ) ^ 2 :=
          pow_le_pow_left₀ (by unfold expP; positivity)
            (inv_le_exp_neg _ (by norm_num) (by norm_num)) 2
  obtain ⟨hK1, hK2⟩ := K_bounds
  have hx1 : (-0.28519858 : ℝ) ≤ K * Real.log (226.32 / p_sfc) := by
    nlinarith [hK1, hK2, hL1, hL2]
  have hx2 : K * Real.log (226.32 / p_sfc) ≤ -0.28519855 := by
    nlinarith [hK1, hK2, hL1, hL2]
  have hrpow : ((226.32 : ℝ) / p_sfc) ^ K = Real.exp (Real.log (226.32 / p_sfc) * K) :=
    Real.rpow_def_of_pos hq K
  have he1 : (0.751864933 : ℝ) ≤ ((226.32 : ℝ) / p_sfc) ^ K := by
    rw [hrpow]
    calc (0.751864933:ℝ)
        ≤ 1 / (expP 0.28519858 + 0.28519858 ^ 12 * 13 / 5748019200) := by
          unfold expP; norm_num
    _ ≤ Real.exp (-0.28519858) := inv_le_exp_neg _ (by norm_num) (by norm_num)
    _ ≤ Real.exp (Real.log (226.32 / p_sfc) * K) := by
          apply Real.exp_le_exp.mpr; linarith [hx1]
  have he2 : ((226.32 : ℝ) / p_sfc) ^ K ≤ 0.751864958 := by
    rw [hrpow]
    calc Real.exp (Real.log (226.32 / p_sfc) * K)
        ≤ Real.exp (-0.28519855) := by
          apply Real.exp_le_exp.mpr; linarith [hx2]
    _ ≤ 1 / expP 0.28519855 := exp_neg_le_inv_expP _ (by norm_num)
    _ ≤ 0.751864958 := by unfold expP; norm_num
  have hg1 : (11000.0172 : ℝ) ≤ t_sfc / gamma * (1 - ((226.32 : ℝ) / p_sfc) ^ K) := by
    unfold t_sfc gamma; nlinarith [he2]
  have hg2 : t_sfc / gamma * (1 - ((226.32 : ℝ) / p_sfc) ^ K) ≤ 11000.0184 := by
    unfold t_sfc gamma; nlinarith [he1]
  constructor
  · unfold p_to_h
    rw [if_pos (le_refl _)]
    have : (226.32 : ℝ) / 226.32 = 1 := by norm_num
    rw [this, Real.log_one]
    ring
  · rw [abs_le]
    push_neg
    intro h
    linarith [hg1]

/-- C3 (corrected): the two branch formulas of p_to_h agree at the
boundary p = 226.32 hPa within 0.02 m — but not within the claimed 1e-6 m,
since 226.32 is a rounded tropopause pressure. -/
theorem c3_branch_gap :
    |p_to_h 226.32 - t_sfc / gamma * (1 - ((226.32 : ℝ) / p_sfc) ^ K)| ≤ 0.02 := by
  have hq : (0:ℝ) < 226.32 / p_sfc := by unfold p_sfc; norm_num
  have hL1 : (-1.49896835 : ℝ) ≤ Real.log (226.32 / p_sfc) := by
    rw [Real.le_log_iff_exp_le hq]
    have hsplit : Real.exp (-1.49896835 : ℝ) = Real.exp (-0.749484175) ^ 2 := by
      rw [← Real.exp_nat_mul]; norm_num
    rw [hsplit]
    calc Real.exp (-0.749484175 : ℝ) ^ 2
        ≤ (1 / expP 0.749484175) ^ 2 :=
          pow_le_pow_left₀ (Real.exp_pos _).le
            (exp_neg_le_inv_expP _ (by norm_num)) 2
    _ ≤ 226.32 / p_sfc := by unfold expP p_sfc; norm_num
  have hL2 : Real.log (226.32 / p_sfc) ≤ -1.49896832 := by
    rw [Real.log_le_iff_le_exp hq]
    have hsplit : Real.exp (-1.49896832 : ℝ) = Real.exp (-0.74948416) ^ 2 := by
      rw [← Real.exp_nat_mul]; norm_num
    rw [hsplit]
    calc (226.32:ℝ) / p_sfc
        ≤ (1 / (expP 0.74948416 + 0.74948416 ^ 12 * 13 / 5748019200)) ^ 2 := by
          unfold expP p_sfc; norm_num
    _ ≤ Real.exp (-0.74948416 : ℝ) ^ 2 :=
          pow_le_pow_left₀ (by unfold expP; positivity)
            (inv_le_exp_neg _ (by norm_num) (by norm_num)) 2
  obtain ⟨hK1, hK2⟩ := K_bounds
  have hx1 : (-0.28519858 : ℝ) ≤ K * Real.log (226.32 / p_sfc) := by
    nlinarith [hK1, hK2, hL1, hL2]
  have hx2 : K * Real.log (226.32 / p_sfc) ≤ -0.28519855 := by
    nlinarith [hK1, hK2, hL1, hL2]
  have hrpow : ((226.32 : ℝ) / p_sfc) ^ K = Real.exp (Real.log (226.32 / p_sfc) * K) :=
    Real.rpow_def_of_pos hq K
  have he1 : (0.751864933 : ℝ) ≤ ((226.32 : ℝ) / p_sfc) ^ K := by
    rw [hrpow]
    calc (0.751864933:ℝ)
        ≤ 1 / (expP 0.28519858 + 0.28519858 ^ 12 * 13 / 5748019200) := by
          unfold expP; norm_num
    _ ≤ Real.exp (-0.28519858) := inv_le_exp_neg _ (by norm_num) (by norm_num)
    _ ≤ Real.exp (Real.log (226.32 / p_sfc) * K) := by
          apply Real.exp_le_exp.mpr; linarith [hx1]
  have he2 : ((226.32 : ℝ) / p_sfc) ^ K ≤ 0.751864958 := by
    rw [hrpow]
    calc Real.exp (Real.log (226.32 / p_sfc) * K)
        ≤ Real.exp (-0.28519855) := by
          apply Real.exp_le_exp.mpr; linarith [hx2]
    _ ≤ 1 / expP 0.28519855 := exp_neg_le_inv_expP _ (by norm_num)
    _ ≤ 0.751864958 := by unfold expP; norm_num
  have hph : p_to_h 226.32 = (11000 : ℝ) := by
    unfold p_to_h
    rw [if_pos (le_refl _)]
    have : (226.32 : ℝ) / 226.32 = 1 := by norm_num
    rw [this, Real.log_one]
    ring
  rw [hph, abs_le]
  constructor
  · unfold t_sfc gamma at *
    nlinarith [he1]
  · unfold t_sfc gamma at *
    nlinarith [he2]


/-! ## Checked (Option-valued) embedding for the error-handling claim

numpy evaluates the thermodynamic chain in IEEE doubles, where a domain
error (log of a non-positive number, fractional power of a negative
number) yields NaN and a division by zero yields an infinity, and any of
these contaminates every later arithmetic step.  The embedding below
models a value that is either a finite real (`some`) or such an invalid
result (`none`): log of a non-positive argument, a fractional power of a
negative base and division by zero give `none`, and `none` propagates
through every operation.  Pure arithmetic on finite reals is exact
(IEEE overflow to infinity is not modelled; it is unreachable under the
hypotheses of the claim settled here). -/

noncomputable section

def nadd : Option ℝ → Option ℝ → Option ℝ
  | some a, some b => some (a + b)
  | _, _ => none

def nsub : Option ℝ → Option ℝ → Option ℝ
  | some a, some b => some (a - b)
  | _, _ => none

def nmul : Option ℝ → Option ℝ → Option ℝ
  | some a, some b => some (a * b)
  | _, _ => none

def ndiv : Option ℝ → Option ℝ → Option ℝ
  | some a, some b => if b = 0 then none else some (a / b)
  | _, _ => none

def nlog : Option ℝ → Option ℝ
  | some a => if a ≤ 0 then none else some (Real.log a)
  | none => none

def nexp : Option ℝ → Option ℝ
  | some a => some (Real.exp a)
  | none => none

def nrpow : Option ℝ → Option ℝ → Option ℝ
  | some a, some b => if a < 0 then none else some (a ^ b)
  | _, _ => none

/-- Checked potential_temperature (cth.py lines 100-110). -/
def potential_temperatureChk (press temp : Option ℝ) : Option ℝ :=
  nsub (nmul (nadd temp (some ZERO_C_K)) (nrpow (ndiv (some 1000) press) (some Rd_Cpd))) (some ZERO_C_K)

/-- Checked mixing_ratio (cth.py lines 113-118). -/
def mixing_ratioChk (v_p t_p : Option ℝ) : Option ℝ :=
  ndiv (nmul (some epsilon) v_p) (nsub t_p v_p)

/-- Checked e_sat (cth.py lines 121-130). -/
def e_satChk (t_dew : ℝ) : Option ℝ :=
  nmul (some 611.2) (nexp (ndiv (some (17.67 * t_dew)) (some (t_dew + 243.5))))

/-- Checked saturation_mixing_ratio (cth.py lines 133-145). -/
def saturation_mixing_ratioChk (p td : ℝ) : Option ℝ :=
  mixing_ratioChk (e_satChk td) (some (p * 100))

/-- Checked theta_e (cth.py lines 148-169). -/
def theta_eChk (t td p : ℝ) : Option ℝ :=
  let r_s := saturation_mixing_ratioChk p td
  let e := e_satChk td
  let theta := potential_temperatureChk (nsub (some p) (ndiv e (some 100))) (some t)
  let tK : ℝ := t + ZERO_C_K
  let tdK : ℝ := td + ZERO_C_K
  let thetaK := nadd theta (some ZERO_C_K)
  let t_l := nadd (some 56)
    (ndiv (some 1) (nadd (ndiv (some 1) (some (tdK - 56)))
      (ndiv (nlog (ndiv (some tK) (some tdK))) (some 800))))
  let th_l := nmul thetaK (nrpow (ndiv (some tK) t_l) (nmul (some 0.28) r_s))
  nmul th_l (nexp (nmul (nmul r_s (nadd (some 1) (nmul (some 0.448) r_s)))
    (nsub (ndiv (some 3036) t_l) (some 1.78))))

/-- Checked theta_w (cth.py lines 172-192): an invalid theta_e contaminates
x, a, b and th_w, and numpy's where-select of NaN against the 173.15 floor
is NaN either way, so the invalid value propagates. -/
def theta_wChk (t td p : ℝ) : Option ℝ :=
  match theta_eChk t td p with
  | none => none
  | some v =>
      let x := v / 273.15
      let x2 := x * x
      let x3 := x2 * x
      let x4 := x3 * x
      let a := 7.101574 - 20.68208 * x + 16.11182 * x2 + 2.574631 * x3 - 5.205688 * x4
      let b := 1 - 3.552497 * x + 3.781782 * x2 - 0.6899655 * x3 - 0.5929340 * x4
      if v ≤ 173.15 then some v
      else nsub (some v) (nexp (ndiv (some a) (some b)))

/-- Checked ctp (cth.py lines 195-220): the coefficient quartics and the
polynomial are pure arithmetic in tw and bt, so an invalid theta_w
contaminates the cloud-top pressure. -/
def ctpChk (t0 td0 p0 bt : ℝ) : Option ℝ :=
  match theta_wChk t0 td0 p0 with
  | none => none
  | some thw => some (adiabat5 (thw - ZERO_C_K) bt)

end

/-! ## Claim C8: domain errors surface as invalid results -/

/-- C8 (confirmed): for dewpoints at or below absolute zero (so the argument
of ln(T/Td) is non-positive while T stays above 0 K), theta_e evaluates to
an invalid result, and the invalid result propagates through theta_w and
ctp to the cloud-top pressure instead of being replaced by a clamped
numeric value. -/
theorem c8_domain_error_propagation (t td p bt : ℝ)
    (h1 : td ≤ -273.15) (h2 : 0 < t + 273.15) :
    theta_eChk t td p = none ∧ theta_wChk t td p = none ∧
      ctpChk t td p bt = none := by
  have htd : td + ZERO_C_K ≤ 0 := by unfold ZERO_C_K; linarith
  have htK : 0 < t + ZERO_C_K := by unfold ZERO_C_K; linarith
  have hkey : nlog (ndiv (some (t + ZERO_C_K)) (some (td + ZERO_C_K))) = none := by
    rcases lt_or_eq_of_le htd with hlt | heq
    · have hne : td + ZERO_C_K ≠ 0 := ne_of_lt hlt
      have hneg : (t + ZERO_C_K) / (td + ZERO_C_K) ≤ 0 :=
        le_of_lt (div_neg_of_pos_of_neg htK hlt)
      simp only [ndiv, if_neg hne, nlog, if_pos hneg]
    · simp only [ndiv, if_pos heq, nlog]
  have hte : theta_eChk t td p = none := by
    simp only [theta_eChk]
    rw [hkey]
    simp [nadd, nsub, nmul, ndiv, nrpow, nexp, nlog]
  refine ⟨hte, ?_, ?_⟩
  · unfold theta_wChk
    rw [hte]
  · unfold ctpChk theta_wChk
    rw [hte]

/-- Witness for C8 at (t, td, p, bt) = (0, -300, 1000, -50). -/
theorem c8_domain_error_propagation_witness :
    ((-300 : ℝ) ≤ -273.15) ∧ ((0 : ℝ) < 0 + 273.15) ∧
      (theta_eChk 0 (-300) 1000 = none ∧ theta_wChk 0 (-300) 1000 = none ∧
        ctpChk 0 (-300) 1000 (-50) = none) :=
  ⟨by norm_num, by norm_num,
    c8_domain_error_propagation 0 (-300) 1000 (-50) (by norm_num) (by norm_num)⟩


/-! ## Monotonicity analysis of the 6th-degree solver in brightness temperature -/

noncomputable section

/-- Derivative in bt of the 6th-degree moist-adiabat polynomial
(a verification artifact, not source code). -/
def dctp6 (tw t : ℝ) : ℝ :=
  6 * mac6_0 tw * t^5 + 5 * mac6_1 tw * t^4 + 4 * mac6_2 tw * t^3 +
    3 * mac6_3 tw * t^2 + 2 * mac6_4 tw * t + mac6_5 tw

end

/-! ### Positivity of the bt-derivative of the 6th-degree polynomial
on the box tw in [-30, 30], bt in [-75, -15]: interval-arithmetic cells,
each settled by a linear certificate over shifted monomials. -/


lemma d6cell_0 (tw t : ℝ) (ha : (-30) ≤ tw) (hb : tw ≤ (-26.25))
    (hc : (-75) ≤ t) (hd : t ≤ (-71.25)) : 0 < dctp6 tw t := by
  have u0 : (0:ℝ) ≤ tw - (-30) := by linarith
  have uw : tw - (-30) ≤ 3.75 := by linarith
  have s0 : (0:ℝ) ≤ t - (-75) := by linarith
  have sw : t - (-75) ≤ 3.75 := by linarith
  have hm02 : (tw - (-30))^0 * (t - (-75))^2 ≤ 3.75^0 * 3.75^2 :=
    mul_le_mul (pow_le_pow_left₀ u0 uw 0) (pow_le_pow_left₀ s0 sw 2)
      (pow_nonneg s0 2) (pow_nonneg (by norm_num : (0:ℝ) ≤ 3.75) 0)
  have hm04 : (tw - (-30))^0 * (t - (-75))^4 ≤ 3.75^0 * 3.75^4 :=
    mul_le_mul (pow_le_pow_left₀ u0 uw 0) (pow_le_pow_left₀ s0 sw 4)
      (pow_nonneg s0 4) (pow_nonneg (by norm_num : (0:ℝ) ≤ 3.75) 0)
  have hm11 : (tw - (-30))^1 * (t - (-75))^1 ≤ 3.75^1 * 3.75^1 :=
    mul_le_mul (pow_le_pow_left₀ u0 uw 1) (pow_le_pow_left₀ s0 sw 1)
      (pow_nonneg s0 1) (pow_nonneg (by norm_num : (0:ℝ) ≤ 3.75) 1)
  have hm13 : (tw - (-30))^1 * (t - (-75))^3 ≤ 3.75^1 * 3.75^3 :=
    mul_le_mul (pow_le_pow_left₀ u0 uw 1) (pow_le_pow_left₀ s0 sw 3)
      (pow_nonneg s0 3) (pow_nonneg (by norm_num : (0:ℝ) ≤ 3.75) 1)
  have hm15 : (tw - (-30))^1 * (t - (-75))^5 ≤ 3.75^1 * 3.75^5 :=
    mul_le_mul (pow_le_pow_left₀ u0 uw 1) (pow_le_pow_left₀ s0 sw 5)
      (pow_nonneg s0 5) (pow_nonneg (by norm_num : (0:ℝ) ≤ 3.75) 1)
  have hm20 : (tw - (-30))^2 * (t - (-75))^0 ≤ 3.75^2 * 3.75^0 :=
    mul_le_mul (pow_le_pow_left₀ u0 uw 2) (pow_le_pow_left₀ s0 sw 0)
      (pow_nonneg s0 0) (pow_nonneg (by norm_num : (0:ℝ) ≤ 3.75) 2)
  have hm22 : (tw - (-30))^2 * (t - (-75))^2 ≤ 3.75^2 * 3.75^2 :=
    mul_le_mul (pow_le_pow_left₀ u0 uw 2) (pow_le_pow_left₀ s0 sw 2)
      (pow_nonneg s0 2) (pow_nonneg (by norm_num : (0:ℝ) ≤ 3.75) 2)
  have hm24 : (tw - (-30))^2 * (t - (-75))^4 ≤ 3.75^2 * 3.75^4 :=
    mul_le_mul (pow_le_pow_left₀ u0 uw 2) (pow_le_pow_left₀ s0 sw 4)
      (pow_nonneg s0 4) (pow_nonneg (by norm_num : (0:ℝ) ≤ 3.75) 2)
  have hm31 : (tw - (-30))^3 * (t - (-75))^1 ≤ 3.75^3 * 3.75^1 :=
    mul_le_mul (pow_le_pow_left₀ u0 uw 3) (pow_le_pow_left₀ s0 sw 1)
      (pow_nonneg s0 1) (pow_nonneg (by norm_num : (0:ℝ) ≤ 3.75) 3)
  have hm33 : (tw - (-30))^3 * (t - (-75))^3 ≤ 3.75^3 * 3.75^3 :=
    mul_le_mul (pow_le_pow_left₀ u0 uw 3) (pow_le_pow_left₀ s0 sw 3)
      (pow_nonneg s0 3) (pow_nonneg (by norm_num : (0:ℝ) ≤ 3.75) 3)
  have hm35 : (tw - (-30))^3 * (t - (-75))^5 ≤ 3.75^3 * 3.75^5 :=
    mul_le_mul (pow_le_pow_left₀ u0 uw 3) (pow_le_pow_left₀ s0 sw 5)
      (pow_nonneg s0 5) (pow_nonneg (by norm_num : (0:ℝ) ≤ 3.75) 3)
  have hm40 : (tw - (-30))^4 * (t - (-75))^0 ≤ 3.75^4 * 3.75^0 :=
    mul_le_mul (pow_le_pow_left₀ u0 uw 4) (pow_le_pow_left₀ s0 sw 0)
      (pow_nonneg s0 0) (pow_nonneg (by norm_num : (0:ℝ) ≤ 3.75) 4)
  have hm42 : (tw - (-30))^4 * (t - (-75))^2 ≤ 3.75^4 * 3.75^2 :=
    mul_le_mul (pow_le_pow_left₀ u0 uw 4) (pow_le_pow_left₀ s0 sw 2)
      (pow_nonneg s0 2) (pow_nonneg (by norm_num : (0:ℝ) ≤ 3.75) 4)
  have hm44 : (tw - (-30))^4 * (t - (-75))^4 ≤ 3.75^4 * 3.75^4 :=
    mul_le_mul (pow_le_pow_left₀ u0 uw 4) (pow_le_pow_left₀ s0 sw 4)
      (pow_nonneg s0 4) (pow_nonneg (by norm_num : (0:ℝ) ≤ 3.75) 4)
  have hp01 : (0:ℝ) ≤ (tw - (-30))^0 * (t - (-75))^1 :=
    mul_nonneg (pow_nonneg u0 0) (pow_nonneg s0 1)
  have hp03 : (0:ℝ) ≤ (tw - (-30))^0 * (t - (-75))^3 :=
    mul_nonneg (pow_nonneg u0 0) (pow_nonneg s0 3)
  have hp05 : (0:ℝ) ≤ (tw - (-30))^0 * (t - (-75))^5 :=
    mul_nonneg (pow_nonneg u0 0) (pow_nonneg s0 5)
  have hp10 : (0:ℝ) ≤ (tw - (-30))^1 * (t - (-75))^0 :=
    mul_nonneg (pow_nonneg u0 1) (pow_nonneg s0 0)
  have hp12 : (0:ℝ) ≤ (tw - (-30))^1 * (t - (-75))^2 :=
    mul_nonneg (pow_nonneg u0 1) (pow_nonneg s0 2)
  have hp14 : (0:ℝ) ≤ (tw - (-30))^1 * (t - (-75))^4 :=
    mul_nonneg (pow_nonneg u0 1) (pow_nonneg s0 4)
  have hp21 : (0:ℝ) ≤ (tw - (-30))^2 * (t - (-75))^1 :=
    mul_nonneg (pow_nonneg u0 2) (pow_nonneg s0 1)
  have hp23 : (0:ℝ) ≤ (tw - (-30))^2 * (t - (-75))^3 :=
    mul_nonneg (pow_nonneg u0 2) (pow_nonneg s0 3)
  have hp25 : (0:ℝ) ≤ (tw - (-30))^2 * (t - (-75))^5 :=
    mul_nonneg (pow_nonneg u0 2) (pow_nonneg s0 5)
  have hp30 : (0:ℝ) ≤ (tw - (-30))^3 * (t - (-75))^0 :=
    mul_nonneg (pow_nonneg u0 3) (pow_nonneg s0 0)
  have hp32 : (0:ℝ) ≤ (tw - (-30))^3 * (t - (-75))^2 :=
    mul_nonneg (pow_nonneg u0 3) (pow_nonneg s0 2)
  have hp34 : (0:ℝ) ≤ (tw - (-30))^3 * (t - (-75))^4 :=
    mul_nonneg (pow_nonneg u0 3) (pow_nonneg s0 4)
  have hp41 : (0:ℝ) ≤ (tw - (-30))^4 * (t - (-75))^1 :=
    mul_nonneg (pow_nonneg u0 4) (pow_nonneg s0 1)
  have hp43 : (0:ℝ) ≤ (tw - (-30))^4 * (t - (-75))^3 :=
    mul_nonneg (pow_nonneg u0 4) (pow_nonneg s0 3)
  have hp45 : (0:ℝ) ≤ (tw - (-30))^4 * (t - (-75))^5 :=
    mul_nonneg (pow_nonneg u0 4) (pow_nonneg s0 5)
  simp only [dctp6, mac6_0, mac6_1, mac6_2, mac6_3, mac6_4, mac6_5]
  linarith [hm02, hm04, hm11, hm13, hm15, hm20, hm22, hm24, hm31, hm33, hm35, hm40, hm42, hm44, hp01, hp03, hp05, hp10, hp12, hp14, hp21, hp23, hp25, hp30, hp32, hp34, hp41, hp43, hp45]


lemma d6cell_1 (tw t : ℝ) (ha : (-30) ≤ tw) (hb : tw ≤ (-26.25))
    (hc : (-71.25) ≤ t) (hd : t ≤ (-67.5)) : 0 < dctp6 tw t := by
  have u0 : (0:ℝ) ≤ tw - (-30) := by linarith
  have uw : tw - (-30) ≤ 3.75 := by linarith
  have s0 : (0:ℝ) ≤ t - (-71.25) := by linarith
  have sw : t - (-71.25) ≤ 3.75 := by linarith
  have hm02 : (tw - (-30))^0 * (t - (-71.25))^2 ≤ 3.75^0 * 3.75^2 :=
    mul_le_mul (pow_le_pow_left₀ u0 uw 0) (pow_le_pow_left₀ s0 sw 2)
      (pow_nonneg s0 2) (pow_nonneg (by norm_num : (0:ℝ) ≤ 3.75) 0)
  have hm04 : (tw - (-30))^0 * (t - (-71.25))^4 ≤ 3.75^0 * 3.75^4 :=
    mul_le_mul (pow_le_pow_left₀ u0 uw 0) (pow_le_pow_left₀ s0 sw 4)
      (pow_nonneg s0 4) (pow_nonneg (by norm_num : (0:ℝ) ≤ 3.75) 0)
  have hm10 : (tw - (-30))^1 * (t - (-71.25))^0 ≤ 3.75^1 * 3.75^0 :=
    mul_le_mul (pow_le_pow_left₀ u0 uw 1) (pow_le_pow_left₀ s0 sw 0)
      (pow_nonneg s0 0) (pow_nonneg (by norm_num : (0:ℝ) ≤ 3.75) 1)
  have hm11 : (tw - (-30))^1 * (t - (-71.25))^1 ≤ 3.75^1 * 3.75^1 :=
    mul_le_mul (pow_le_pow_left₀ u0 uw 1) (pow_le_pow_left₀ s0 sw 1)
      (pow_nonneg s0 1) (pow_nonneg (by norm_num : (0:ℝ) ≤ 3.75) 1)
  have hm13 : (tw - (-30))^1 * (t - (-71.25))^3 ≤ 3.75^1 * 3.75^3 :=
    mul_le_mul (pow_le_pow_left₀ u0 uw 1) (pow_le_pow_left₀ s0 sw 3)
      (pow_nonneg s0 3) (pow_nonneg (by norm_num : (0:ℝ) ≤ 3.75) 1)
  have hm15 : (tw - (-30))^1 * (t - (-71.25))^5 ≤ 3.75^1 * 3.75^5 :=
    mul_le_mul (pow_le_pow_left₀ u0 uw 1) (pow_le_pow_left₀ s0 sw 5)
      (pow_nonneg s0 5) (pow_nonneg (by norm_num : (0:ℝ) ≤ 3.75) 1)
  have hm20 : (tw - (-30))^2 * (t - (-71.25))^0 ≤ 3.75^2 * 3.75^0 :=
    mul_le_mul (pow_le_pow_left₀ u0 uw 2) (pow_le_pow_left₀ s0 sw 0)
      (pow_nonneg s0 0) (pow_nonneg (by norm_num : (0:ℝ) ≤ 3.75) 2)
  have hm22 : (tw - (-30))^2 * (t - (-71.25))^2 ≤ 3.75^2 * 3.75^2 :=
    mul_le_mul (pow_le_pow_left₀ u0 uw 2) (pow_le_pow_left₀ s0 sw 2)
      (pow_nonneg s0 2) (pow_nonneg (by norm_num : (0:ℝ) ≤ 3.75) 2)
  have hm24 : (tw - (-30))^2 * (t - (-71.25))^4 ≤ 3.75^2 * 3.75^4 :=
    mul_le_mul (pow_le_pow_left₀ u0 uw 2) (pow_le_pow_left₀ s0 sw 4)
      (pow_nonneg s0 4) (pow_nonneg (by norm_num : (0:ℝ) ≤ 3.75) 2)
  have hm31 : (tw - (-30))^3 * (t - (-71.25))^1 ≤ 3.75^3 * 3.75^1 :=
    mul_le_mul (pow_le_pow_left₀ u0 uw 3) (pow_le_pow_left₀ s0 sw 1)
      (pow_nonneg s0 1) (pow_nonneg (by norm_num : (0:ℝ) ≤ 3.75) 3)
  have hm33 : (tw - (-30))^3 * (t - (-71.25))^3 ≤ 3.75^3 * 3.75^3 :=
    mul_le_mul (pow_le_pow_left₀ u0 uw 3) (pow_le_pow_left₀ s0 sw 3)
      (pow_nonneg s0 3) (pow_nonneg (by norm_num : (0:ℝ) ≤ 3.75) 3)
  have hm35 : (tw - (-30))^3 * (t - (-71.25))^5 ≤ 3.75^3 * 3.75^5 :=
    mul_le_mul (pow_le_pow_left₀ u0 uw 3) (pow_le_pow_left₀ s0 sw 5)
      (pow_nonneg s0 5) (pow_nonneg (by norm_num : (0:ℝ) ≤ 3.75) 3)
  have hm40 : (tw - (-30))^4 * (t - (-71.25))^0 ≤ 3.75^4 * 3.75^0 :=
    mul_le_mul (pow_le_pow_left₀ u0 uw 4) (pow_le_pow_left₀ s0 sw 0)
      (pow_nonneg s0 0) (pow_nonneg (by norm_num : (0:ℝ) ≤ 3.75) 4)
  have hm42 : (tw - (-30))^4 * (t - (-71.25))^2 ≤ 3.75^4 * 3.75^2 :=
    mul_le_mul (pow_le_pow_left₀ u0 uw 4) (pow_le_pow_left₀ s0 sw 2)
      (pow_nonneg s0 2) (pow_nonneg (by norm_num : (0:ℝ) ≤ 3.75) 4)
  have hm44 : (tw - (-30))^4 * (t - (-71.25))^4 ≤ 3.75^4 * 3.75^4 :=
    mul_le_mul (pow_le_pow_left₀ u0 uw 4) (pow_le_pow_left₀ s0 sw 4)
      (pow_nonneg s0 4) (pow_nonneg (by norm_num : (0:ℝ) ≤ 3.75) 4)
  have hp01 : (0:ℝ) ≤ (tw - (-30))^0 * (t - (-71.25))^1 :=
    mul_nonneg (pow_nonneg u0 0) (pow_nonneg s0 1)
  have hp03 : (0:ℝ) ≤ (tw - (-30))^0 * (t - (-71.25))^3 :=
    mul_nonneg (pow_nonneg u0 0) (pow_nonneg s0 3)
  have hp05 : (0:ℝ) ≤ (tw - (-30))^0 * (t - (-71.25))^5 :=
    mul_nonneg (pow_nonneg u0 0) (pow_nonneg s0 5)
  have hp12 : (0:ℝ) ≤ (tw - (-30))^1 * (t - (-71.25))^2 :=
    mul_nonneg (pow_nonneg u0 1) (pow_nonneg s0 2)
  have hp14 : (0:ℝ) ≤ (tw - (-30))^1 * (t - (-71.25))^4 :=
    mul_nonneg (pow_nonneg u0 1) (pow_nonneg s0 4)
  have hp21 : (0:ℝ) ≤ (tw - (-30))^2 * (t - (-71.25))^1 :=
    mul_nonneg (pow_nonneg u0 2) (pow_nonneg s0 1)
  have hp23 : (0:ℝ) ≤ (tw - (-30))^2 * (t - (-71.25))^3 :=
    mul_nonneg (pow_nonneg u0 2) (pow_nonneg s0 3)
  have hp25 : (0:ℝ) ≤ (tw - (-30))^2 * (t - (-71.25))^5 :=
    mul_nonneg (pow_nonneg u0 2) (pow_nonneg s0 5)
  have hp30 : (0:ℝ) ≤ (tw - (-30))^3 * (t - (-71.25))^0 :=
    mul_nonneg (pow_nonneg u0 3) (pow_nonneg s0 0)
  have hp32 : (0:ℝ) ≤ (tw - (-30))^3 * (t - (-71.25))^2 :=
    mul_nonneg (pow_nonneg u0 3) (pow_nonneg s0 2)
  have hp34 : (0:ℝ) ≤ (tw - (-30))^3 * (t - (-71.25))^4 :=
    mul_nonneg (pow_nonneg u0 3) (pow_nonneg s0 4)
  have hp41 : (0:ℝ) ≤ (tw - (-30))^4 * (t - (-71.25))^1 :=
    mul_nonneg (pow_nonneg u0 4) (pow_nonneg s0 1)
  have hp43 : (0:ℝ) ≤ (tw - (-30))^4 * (t - (-71.25))^3 :=
    mul_nonneg (pow_nonneg u0 4) (pow_nonneg s0 3)
  have hp45 : (0:ℝ) ≤ (tw - (-30))^4 * (t - (-71.25))^5 :=
    mul_nonneg (pow_nonneg u0 4) (pow_nonneg s0 5)
  simp only [dctp6, mac6_0, mac6_1, mac6_2, mac6_3, mac6_4, mac6_5]
  linarith [hm02, hm04, hm10, hm11, hm13, hm15, hm20, hm22, hm24, hm31, hm33, hm35, hm40, hm42, hm44, hp01, hp03, hp05, hp12, hp14, hp21, hp23, hp25, hp30, hp32, hp34, hp41, hp43, hp45]


lemma d6cell_2 (tw t : ℝ) (ha : (-26.25) ≤ tw) (hb : tw ≤ (-22.5))
    (hc : (-75) ≤ t) (hd : t ≤ (-71.25)) : 0 < dctp6 tw t := by
  have u0 : (0:ℝ) ≤ tw - (-26.25) := by linarith
  have uw : tw - (-26.25) ≤ 3.75 := by linarith
  have s0 : (0:ℝ) ≤ t - (-75) := by linarith
  have sw : t - (-75) ≤ 3.75 := by linarith
  have hm02 : (tw - (-26.25))^0 * (t - (-75))^2 ≤ 3.75^0 * 3.75^2 :=
    mul_le_mul (pow_le_pow_left₀ u0 uw 0) (pow_le_pow_left₀ s0 sw 2)
      (pow_nonneg s0 2) (pow_nonneg (by norm_num : (0:ℝ) ≤ 3.75) 0)
  have hm04 : (tw - (-26.25))^0 * (t - (-75))^4 ≤ 3.75^0 * 3.75^4 :=
    mul_le_mul (pow_le_pow_left₀ u0 uw 0) (pow_le_pow_left₀ s0 sw 4)
      (pow_nonneg s0 4) (pow_nonneg (by norm_num : (0:ℝ) ≤ 3.75) 0)
  have hm11 : (tw - (-26.25))^1 * (t - (-75))^1 ≤ 3.75^1 * 3.75^1 :=
    mul_le_mul (pow_le_pow_left₀ u0 uw 1) (pow_le_pow_left₀ s0 sw 1)
      (pow_nonneg s0 1) (pow_nonneg (by norm_num : (0:ℝ) ≤ 3.75) 1)
  have hm13 : (tw - (-26.25))^1 * (t - (-75))^3 ≤ 3.75^1 * 3.75^3 :=
    mul_le_mul (pow_le_pow_left₀ u0 uw 1) (pow_le_pow_left₀ s0 sw 3)
      (pow_nonneg s0 3) (pow_nonneg (by norm_num : (0:ℝ) ≤ 3.75) 1)
  have hm15 : (tw - (-26.25))^1 * (t - (-75))^5 ≤ 3.75^1 * 3.75^5 :=
    mul_le_mul (pow_le_pow_left₀ u0 uw 1) (pow_le_pow_left₀ s0 sw 5)
      (pow_nonneg s0 5) (pow_nonneg (by norm_num : (0:ℝ) ≤ 3.75) 1)
  have hm20 : (tw - (-26.25))^2 * (t - (-75))^0 ≤ 3.75^2 * 3.75^0 :=
    mul_le_mul (pow_le_pow_left₀ u0 uw 2) (pow_le_pow_left₀ s0 sw 0)
      (pow_nonneg s0 0) (pow_nonneg (by norm_num : (0:ℝ) ≤ 3.75) 2)
  have hm22 : (tw - (-26.25))^2 * (t - (-75))^2 ≤ 3.75^2 * 3.75^2 :=
    mul_le_mul (pow_le_pow_left₀ u0 uw 2) (pow_le_pow_left₀ s0 sw 2)
      (pow_nonneg s0 2) (pow_nonneg (by norm_num : (0:ℝ) ≤ 3.75) 2)
  have hm24 : (tw - (-26.25))^2 * (t - (-75))^4 ≤ 3.75^2 * 3.75^4 :=
    mul_le_mul (pow_le_pow_left₀ u0 uw 2) (pow_le_pow_left₀ s0 sw 4)
      (pow_nonneg s0 4) (pow_nonneg (by norm_num : (0:ℝ) ≤ 3.75) 2)
  have hm31 : (tw - (-26.25))^3 * (t - (-75))^1 ≤ 3.75^3 * 3.75^1 :=
    mul_le_mul (pow_le_pow_left₀ u0 uw 3) (pow_le_pow_left₀ s0 sw 1)
      (pow_nonneg s0 1) (pow_nonneg (by norm_num : (0:ℝ) ≤ 3.75) 3)
  have hm33 : (tw - (-26.25))^3 * (t - (-75))^3 ≤ 3.75^3 * 3.75^3 :=
    mul_le_mul (pow_le_pow_left₀ u0 uw 3) (pow_le_pow_left₀ s0 sw 3)
      (pow_nonneg s0 3) (pow_nonneg (by norm_num : (0:ℝ) ≤ 3.75) 3)
  have hm35 : (tw - (-26.25))^3 * (t - (-75))^5 ≤ 3.75^3 * 3.75^5 :=
    mul_le_mul (pow_le_pow_left₀ u0 uw 3) (pow_le_pow_left₀ s0 sw 5)
      (pow_nonneg s0 5) (pow_nonneg (by norm_num : (0:ℝ) ≤ 3.75) 3)
  have hm40 : (tw - (-26.25))^4 * (t - (-75))^0 ≤ 3.75^4 * 3.75^0 :=
    mul_le_mul (pow_le_pow_left₀ u0 uw 4) (pow_le_pow_left₀ s0 sw 0)
      (pow_nonneg s0 0) (pow_nonneg (by norm_num : (0:ℝ) ≤ 3.75) 4)
  have hm42 : (tw - (-26.25))^4 * (t - (-75))^2 ≤ 3.75^4 * 3.75^2 :=
    mul_le_mul (pow_le_pow_left₀ u0 uw 4) (pow_le_pow_left₀ s0 sw 2)
      (pow_nonneg s0 2) (pow_nonneg (by norm_num : (0:ℝ) ≤ 3.75) 4)
  have hm44 : (tw - (-26.25))^4 * (t - (-75))^4 ≤ 3.75^4 * 3.75^4 :=
    mul_le_mul (pow_le_pow_left₀ u0 uw 4) (pow_le_pow_left₀ s0 sw 4)
      (pow_nonneg s0 4) (pow_nonneg (by norm_num : (0:ℝ) ≤ 3.75) 4)
  have hp01 : (0:ℝ) ≤ (tw - (-26.25))^0 * (t - (-75))^1 :=
    mul_nonneg (pow_nonneg u0 0) (pow_nonneg s0 1)
  have hp03 : (0:ℝ) ≤ (tw - (-26.25))^0 * (t - (-75))^3 :=
    mul_nonneg (pow_nonneg u0 0) (pow_nonneg s0 3)
  have hp05 : (0:ℝ) ≤ (tw - (-26.25))^0 * (t - (-75))^5 :=
    mul_nonneg (pow_nonneg u0 0) (pow_nonneg s0 5)
  have hp10 : (0:ℝ) ≤ (tw - (-26.25))^1 * (t - (-75))^0 :=
    mul_nonneg (pow_nonneg u0 1) (pow_nonneg s0 0)
  have hp12 : (0:ℝ) ≤ (tw - (-26.25))^1 * (t - (-75))^2 :=
    mul_nonneg (pow_nonneg u0 1) (pow_nonneg s0 2)
  have hp14 : (0:ℝ) ≤ (tw - (-26.25))^1 * (t - (-75))^4 :=
    mul_nonneg (pow_nonneg u0 1) (pow_nonneg s0 4)
  have hp21 : (0:ℝ) ≤ (tw - (-26.25))^2 * (t - (-75))^1 :=
    mul_nonneg (pow_nonneg u0 2) (pow_nonneg s0 1)
  have hp23 : (0:ℝ) ≤ (tw - (-26.25))^2 * (t - (-75))^3 :=
    mul_nonneg (pow_nonneg u0 2) (pow_nonneg s0 3)
  have hp25 : (0:ℝ) ≤ (tw - (-26.25))^2 * (t - (-75))^5 :=
    mul_nonneg (pow_nonneg u0 2) (pow_nonneg s0 5)
  have hp30 : (0:ℝ) ≤ (tw - (-26.25))^3 * (t - (-75))^0 :=
    mul_nonneg (pow_nonneg u0 3) (pow_nonneg s0 0)
  have hp32 : (0:ℝ) ≤ (tw - (-26.25))^3 * (t - (-75))^2 :=
    mul_nonneg (pow_nonneg u0 3) (pow_nonneg s0 2)
  have hp34 : (0:ℝ) ≤ (tw - (-26.25))^3 * (t - (-75))^4 :=
    mul_nonneg (pow_nonneg u0 3) (pow_nonneg s0 4)
  have hp41 : (0:ℝ) ≤ (tw - (-26.25))^4 * (t - (-75))^1 :=
    mul_nonneg (pow_nonneg u0 4) (pow_nonneg s0 1)
  have hp43 : (0:ℝ) ≤ (tw - (-26.25))^4 * (t - (-75))^3 :=
    mul_nonneg (pow_nonneg u0 4) (pow_nonneg s0 3)
  have hp45 : (0:ℝ) ≤ (tw - (-26.25))^4 * (t - (-75))^5 :=
    mul_nonneg (pow_nonneg u0 4) (pow_nonneg s0 5)
  simp only [dctp6, mac6_0, mac6_1, mac6_2, mac6_3, mac6_4, mac6_5]
  linarith [hm02, hm04, hm11, hm13, hm15, hm20, hm22, hm24, hm31, hm33, hm35, hm40, hm42, hm44, hp01, hp03, hp05, hp10, hp12, hp14, hp21, hp23, hp25, hp30, hp32, hp34, hp41, hp43, hp45]


lemma d6cell_3 (tw t : ℝ) (ha : (-26.25) ≤ tw) (hb : tw ≤ (-22.5))
    (hc : (-71.25) ≤ t) (hd : t ≤ (-67.5)) : 0 < dctp6 tw t := by
  have u0 : (0:ℝ) ≤ tw - (-26.25) := by linarith
  have uw : tw - (-26.25) ≤ 3.75 := by linarith
  have s0 : (0:ℝ) ≤ t - (-71.25) := by linarith
  have sw : t - (-71.25) ≤ 3.75 := by linarith
  have hm02 : (tw - (-26.25))^0 * (t - (-71.25))^2 ≤ 3.75^0 * 3.75^2 :=
    mul_le_mul (pow_le_pow_left₀ u0 uw 0) (pow_le_pow_left₀ s0 sw 2)
      (pow_nonneg s0 2) (pow_nonneg (by norm_num : (0:ℝ) ≤ 3.75) 0)
  have hm04 : (tw - (-26.25))^0 * (t - (-71.25))^4 ≤ 3.75^0 * 3.75^4 :=
    mul_le_mul (pow_le_pow_left₀ u0 uw 0) (pow_le_pow_left₀ s0 sw 4)
      (pow_nonneg s0 4) (pow_nonneg (by norm_num : (0:ℝ) ≤ 3.75) 0)
  have hm10 : (tw - (-26.25))^1 * (t - (-71.25))^0 ≤ 3.75^1 * 3.75^0 :=
    mul_le_mul (pow_le_pow_left₀ u0 uw 1) (pow_le_pow_left₀ s0 sw 0)
      (pow_nonneg s0 0) (pow_nonneg (by norm_num : (0:ℝ) ≤ 3.75) 1)
  have hm11 : (tw - (-26.25))^1 * (t - (-71.25))^1 ≤ 3.75^1 * 3.75^1 :=
    mul_le_mul (pow_le_pow_left₀ u0 uw 1) (pow_le_pow_left₀ s0 sw 1)
      (pow_nonneg s0 1) (pow_nonneg (by norm_num : (0:ℝ) ≤ 3.75) 1)
  have hm13 : (tw - (-26.25))^1 * (t - (-71.25))^3 ≤ 3.75^1 * 3.75^3 :=
    mul_le_mul (pow_le_pow_left₀ u0 uw 1) (pow_le_pow_left₀ s0 sw 3)
      (pow_nonneg s0 3) (pow_nonneg (by norm_num : (0:ℝ) ≤ 3.75) 1)
  have hm15 : (tw - (-26.25))^1 * (t - (-71.25))^5 ≤ 3.75^1 * 3.75^5 :=
    mul_le_mul (pow_le_pow_left₀ u0 uw 1) (pow_le_pow_left₀ s0 sw 5)
      (pow_nonneg s0 5) (pow_nonneg (by norm_num : (0:ℝ) ≤ 3.75) 1)
  have hm20 : (tw - (-26.25))^2 * (t - (-71.25))^0 ≤ 3.75^2 * 3.75^0 :=
    mul_le_mul (pow_le_pow_left₀ u0 uw 2) (pow_le_pow_left₀ s0 sw 0)
      (pow_nonneg s0 0) (pow_nonneg (by norm_num : (0:ℝ) ≤ 3.75) 2)
  have hm22 : (tw - (-26.25))^2 * (t - (-71.25))^2 ≤ 3.75^2 * 3.75^2 :=
    mul_le_mul (pow_le_pow_left₀ u0 uw 2) (pow_le_pow_left₀ s0 sw 2)
      (pow_nonneg s0 2) (pow_nonneg (by norm_num : (0:ℝ) ≤ 3.75) 2)
  have hm24 : (tw - (-26.25))^2 * (t - (-71.25))^4 ≤ 3.75^2 * 3.75^4 :=
    mul_le_mul (pow_le_pow_left₀ u0 uw 2) (pow_le_pow_left₀ s0 sw 4)
      (pow_nonneg s0 4) (pow_nonneg (by norm_num : (0:ℝ) ≤ 3.75) 2)
  have hm31 : (tw - (-26.25))^3 * (t - (-71.25))^1 ≤ 3.75^3 * 3.75^1 :=
    mul_le_mul (pow_le_pow_left₀ u0 uw 3) (pow_le_pow_left₀ s0 sw 1)
      (pow_nonneg s0 1) (pow_nonneg (by norm_num : (0:ℝ) ≤ 3.75) 3)
  have hm33 : (tw - (-26.25))^3 * (t - (-71.25))^3 ≤ 3.75^3 * 3.75^3 :=
    mul_le_mul (pow_le_pow_left₀ u0 uw 3) (pow_le_pow_left₀ s0 sw 3)
      (pow_nonneg s0 3) (pow_nonneg (by norm_num : (0:ℝ) ≤ 3.75) 3)
  have hm35 : (tw - (-26.25))^3 * (t - (-71.25))^5 ≤ 3.75^3 * 3.75^5 :=
    mul_le_mul (pow_le_pow_left₀ u0 uw 3) (pow_le_pow_left₀ s0 sw 5)
      (pow_nonneg s0 5) (pow_nonneg (by norm_num : (0:ℝ) ≤ 3.75) 3)
  have hm40 : (tw - (-26.25))^4 * (t - (-71.25))^0 ≤ 3.75^4 * 3.75^0 :=
    mul_le_mul (pow_le_pow_left₀ u0 uw 4) (pow_le_pow_left₀ s0 sw 0)
      (pow_nonneg s0 0) (pow_nonneg (by norm_num : (0:ℝ) ≤ 3.75) 4)
  have hm42 : (tw - (-26.25))^4 * (t - (-71.25))^2 ≤ 3.75^4 * 3.75^2 :=
    mul_le_mul (pow_le_pow_left₀ u0 uw 4) (pow_le_pow_left₀ s0 sw 2)
      (pow_nonneg s0 2) (pow_nonneg (by norm_num : (0:ℝ) ≤ 3.75) 4)
  have hm44 : (tw - (-26.25))^4 * (t - (-71.25))^4 ≤ 3.75^4 * 3.75^4 :=
    mul_le_mul (pow_le_pow_left₀ u0 uw 4) (pow_le_pow_left₀ s0 sw 4)
      (pow_nonneg s0 4) (pow_nonneg (by norm_num : (0:ℝ) ≤ 3.75) 4)
  have hp01 : (0:ℝ) ≤ (tw - (-26.25))^0 * (t - (-71.25))^1 :=
    mul_nonneg (pow_nonneg u0 0) (pow_nonneg s0 1)
  have hp03 : (0:ℝ) ≤ (tw - (-26.25))^0 * (t - (-71.25))^3 :=
    mul_nonneg (pow_nonneg u0 0) (pow_nonneg s0 3)
  have hp05 : (0:ℝ) ≤ (tw - (-26.25))^0 * (t - (-71.25))^5 :=
    mul_nonneg (pow_nonneg u0 0) (pow_nonneg s0 5)
  have hp12 : (0:ℝ) ≤ (tw - (-26.25))^1 * (t - (-71.25))^2 :=
    mul_nonneg (pow_nonneg u0 1) (pow_nonneg s0 2)
  have hp14 : (0:ℝ) ≤ (tw - (-26.25))^1 * (t - (-71.25))^4 :=
    mul_nonneg (pow_nonneg u0 1) (pow_nonneg s0 4)
  have hp21 : (0:ℝ) ≤ (tw - (-26.25))^2 * (t - (-71.25))^1 :=
    mul_nonneg (pow_nonneg u0 2) (pow_nonneg s0 1)
  have hp23 : (0:ℝ) ≤ (tw - (-26.25))^2 * (t - (-71.25))^3 :=
    mul_nonneg (pow_nonneg u0 2) (pow_nonneg s0 3)
  have hp25 : (0:ℝ) ≤ (tw - (-26.25))^2 * (t - (-71.25))^5 :=
    mul_nonneg (pow_nonneg u0 2) (pow_nonneg s0 5)
  have hp30 : (0:ℝ) ≤ (tw - (-26.25))^3 * (t - (-71.25))^0 :=
    mul_nonneg (pow_nonneg u0 3) (pow_nonneg s0 0)
  have hp32 : (0:ℝ) ≤ (tw - (-26.25))^3 * (t - (-71.25))^2 :=
    mul_nonneg (pow_nonneg u0 3) (pow_nonneg s0 2)
  have hp34 : (0:ℝ) ≤ (tw - (-26.25))^3 * (t - (-71.25))^4 :=
    mul_nonneg (pow_nonneg u0 3) (pow_nonneg s0 4)
  have hp41 : (0:ℝ) ≤ (tw - (-26.25))^4 * (t - (-71.25))^1 :=
    mul_nonneg (pow_nonneg u0 4) (pow_nonneg s0 1)
  have hp43 : (0:ℝ) ≤ (tw - (-26.25))^4 * (t - (-71.25))^3 :=
    mul_nonneg (pow_nonneg u0 4) (pow_nonneg s0 3)
  have hp45 : (0:ℝ) ≤ (tw - (-26.25))^4 * (t - (-71.25))^5 :=
    mul_nonneg (pow_nonneg u0 4) (pow_nonneg s0 5)
  simp only [dctp6, mac6_0, mac6_1, mac6_2, mac6_3, mac6_4, mac6_5]
  linarith [hm02, hm04, hm10, hm11, hm13, hm15, hm20, hm22, hm24, hm31, hm33, hm35, hm40, hm42, hm44, hp01, hp03, hp05, hp12, hp14, hp21, hp23, hp25, hp30, hp32, hp34, hp41, hp43, hp45]


lemma d6cell_4 (tw t : ℝ) (ha : (-30) ≤ tw) (hb : tw ≤ (-22.5))
    (hc : (-67.5) ≤ t) (hd : t ≤ (-60)) : 0 < dctp6 tw t := by
  have u0 : (0:ℝ) ≤ tw - (-30) := by linarith
  have uw : tw - (-30) ≤ 7.5 := by linarith
  have s0 : (0:ℝ) ≤ t - (-67.5) := by linarith
  have sw : t - (-67.5) ≤ 7.5 := by linarith
  have hm02 : (tw - (-30))^0 * (t - (-67.5))^2 ≤ 7.5^0 * 7.5^2 :=
    mul_le_mul (pow_le_pow_left₀ u0 uw 0) (pow_le_pow_left₀ s0 sw 2)
      (pow_nonneg s0 2) (pow_nonneg (by norm_num : (0:ℝ) ≤ 7.5) 0)
  have hm04 : (tw - (-30))^0 * (t - (-67.5))^4 ≤ 7.5^0 * 7.5^4 :=
    mul_le_mul (pow_le_pow_left₀ u0 uw 0) (pow_le_pow_left₀ s0 sw 4)
      (pow_nonneg s0 4) (pow_nonneg (by norm_num : (0:ℝ) ≤ 7.5) 0)
  have hm10 : (tw - (-30))^1 * (t - (-67.5))^0 ≤ 7.5^1 * 7.5^0 :=
    mul_le_mul (pow_le_pow_left₀ u0 uw 1) (pow_le_pow_left₀ s0 sw 0)
      (pow_nonneg s0 0) (pow_nonneg (by norm_num : (0:ℝ) ≤ 7.5) 1)
  have hm11 : (tw - (-30))^1 * (t - (-67.5))^1 ≤ 7.5^1 * 7.5^1 :=
    mul_le_mul (pow_le_pow_left₀ u0 uw 1) (pow_le_pow_left₀ s0 sw 1)
      (pow_nonneg s0 1) (pow_nonneg (by norm_num : (0:ℝ) ≤ 7.5) 1)
  have hm13 : (tw - (-30))^1 * (t - (-67.5))^3 ≤ 7.5^1 * 7.5^3 :=
    mul_le_mul (pow_le_pow_left₀ u0 uw 1) (pow_le_pow_left₀ s0 sw 3)
      (pow_nonneg s0 3) (pow_nonneg (by norm_num : (0:ℝ) ≤ 7.5) 1)
  have hm15 : (tw - (-30))^1 * (t - (-67.5))^5 ≤ 7.5^1 * 7.5^5 :=
    mul_le_mul (pow_le_pow_left₀ u0 uw 1) (pow_le_pow_left₀ s0 sw 5)
      (pow_nonneg s0 5) (pow_nonneg (by norm_num : (0:ℝ) ≤ 7.5) 1)
  have hm22 : (tw - (-30))^2 * (t - (-67.5))^2 ≤ 7.5^2 * 7.5^2 :=
    mul_le_mul (pow_le_pow_left₀ u0 uw 2) (pow_le_pow_left₀ s0 sw 2)
      (pow_nonneg s0 2) (pow_nonneg (by norm_num : (0:ℝ) ≤ 7.5) 2)
  have hm24 : (tw - (-30))^2 * (t - (-67.5))^4 ≤ 7.5^2 * 7.5^4 :=
    mul_le_mul (pow_le_pow_left₀ u0 uw 2) (pow_le_pow_left₀ s0 sw 4)
      (pow_nonneg s0 4) (pow_nonneg (by norm_num : (0:ℝ) ≤ 7.5) 2)
  have hm30 : (tw - (-30))^3 * (t - (-67.5))^0 ≤ 7.5^3 * 7.5^0 :=
    mul_le_mul (pow_le_pow_left₀ u0 uw 3) (pow_le_pow_left₀ s0 sw 0)
      (pow_nonneg s0 0) (pow_nonneg (by norm_num : (0:ℝ) ≤ 7.5) 3)
  have hm31 : (tw - (-30))^3 * (t - (-67.5))^1 ≤ 7.5^3 * 7.5^1 :=
    mul_le_mul (pow_le_pow_left₀ u0 uw 3) (pow_le_pow_left₀ s0 sw 1)
      (pow_nonneg s0 1) (pow_nonneg (by norm_num : (0:ℝ) ≤ 7.5) 3)
  have hm33 : (tw - (-30))^3 * (t - (-67.5))^3 ≤ 7.5^3 * 7.5^3 :=
    mul_le_mul (pow_le_pow_left₀ u0 uw 3) (pow_le_pow_left₀ s0 sw 3)
      (pow_nonneg s0 3) (pow_nonneg (by norm_num : (0:ℝ) ≤ 7.5) 3)
  have hm35 : (tw - (-30))^3 * (t - (-67.5))^5 ≤ 7.5^3 * 7.5^5 :=
    mul_le_mul (pow_le_pow_left₀ u0 uw 3) (pow_le_pow_left₀ s0 sw 5)
      (pow_nonneg s0 5) (pow_nonneg (by norm_num : (0:ℝ) ≤ 7.5) 3)
  have hm42 : (tw - (-30))^4 * (t - (-67.5))^2 ≤ 7.5^4 * 7.5^2 :=
    mul_le_mul (pow_le_pow_left₀ u0 uw 4) (pow_le_pow_left₀ s0 sw 2)
      (pow_nonneg s0 2) (pow_nonneg (by norm_num : (0:ℝ) ≤ 7.5) 4)
  have hm44 : (tw - (-30))^4 * (t - (-67.5))^4 ≤ 7.5^4 * 7.5^4 :=
    mul_le_mul (pow_le_pow_left₀ u0 uw 4) (pow_le_pow_left₀ s0 sw 4)
      (pow_nonneg s0 4) (pow_nonneg (by norm_num : (0:ℝ) ≤ 7.5) 4)
  have hp01 : (0:ℝ) ≤ (tw - (-30))^0 * (t - (-67.5))^1 :=
    mul_nonneg (pow_nonneg u0 0) (pow_nonneg s0 1)
  have hp03 : (0:ℝ) ≤ (tw - (-30))^0 * (t - (-67.5))^3 :=
    mul_nonneg (pow_nonneg u0 0) (pow_nonneg s0 3)
  have hp05 : (0:ℝ) ≤ (tw - (-30))^0 * (t - (-67.5))^5 :=
    mul_nonneg (pow_nonneg u0 0) (pow_nonneg s0 5)
  have hp12 : (0:ℝ) ≤ (tw - (-30))^1 * (t - (-67.5))^2 :=
    mul_nonneg (pow_nonneg u0 1) (pow_nonneg s0 2)
  have hp14 : (0:ℝ) ≤ (tw - (-30))^1 * (t - (-67.5))^4 :=
    mul_nonneg (pow_nonneg u0 1) (pow_nonneg s0 4)
  have hp20 : (0:ℝ) ≤ (tw - (-30))^2 * (t - (-67.5))^0 :=
    mul_nonneg (pow_nonneg u0 2) (pow_nonneg s0 0)
  have hp21 : (0:ℝ) ≤ (tw - (-30))^2 * (t - (-67.5))^1 :=
    mul_nonneg (pow_nonneg u0 2) (pow_nonneg s0 1)
  have hp23 : (0:ℝ) ≤ (tw - (-30))^2 * (t - (-67.5))^3 :=
    mul_nonneg (pow_nonneg u0 2) (pow_nonneg s0 3)
  have hp25 : (0:ℝ) ≤ (tw - (-30))^2 * (t - (-67.5))^5 :=
    mul_nonneg (pow_nonneg u0 2) (pow_nonneg s0 5)
  have hp32 : (0:ℝ) ≤ (tw - (-30))^3 * (t - (-67.5))^2 :=
    mul_nonneg (pow_nonneg u0 3) (pow_nonneg s0 2)
  have hp34 : (0:ℝ) ≤ (tw - (-30))^3 * (t - (-67.5))^4 :=
    mul_nonneg (pow_nonneg u0 3) (pow_nonneg s0 4)
  have hp40 : (0:ℝ) ≤ (tw - (-30))^4 * (t - (-67.5))^0 :=
    mul_nonneg (pow_nonneg u0 4) (pow_nonneg s0 0)
  have hp41 : (0:ℝ) ≤ (tw - (-30))^4 * (t - (-67.5))^1 :=
    mul_nonneg (pow_nonneg u0 4) (pow_nonneg s0 1)
  have hp43 : (0:ℝ) ≤ (tw - (-30))^4 * (t - (-67.5))^3 :=
    mul_nonneg (pow_nonneg u0 4) (pow_nonneg s0 3)
  have hp45 : (0:ℝ) ≤ (tw - (-30))^4 * (t - (-67.5))^5 :=
    mul_nonneg (pow_nonneg u0 4) (pow_nonneg s0 5)
  simp only [dctp6, mac6_0, mac6_1, mac6_2, mac6_3, mac6_4, mac6_5]
  linarith [hm02, hm04, hm10, hm11, hm13, hm15, hm22, hm24, hm30, hm31, hm33, hm35, hm42, hm44, hp01, hp03, hp05, hp12, hp14, hp20, hp21, hp23, hp25, hp32, hp34, hp40, hp41, hp43, hp45]


lemma d6cell_5 (tw t : ℝ) (ha : (-22.5) ≤ tw) (hb : tw ≤ (-15))
    (hc : (-75) ≤ t) (hd : t ≤ (-67.5)) : 0 < dctp6 tw t := by
  have u0 : (0:ℝ) ≤ tw - (-22.5) := by linarith
  have uw : tw - (-22.5) ≤ 7.5 := by linarith
  have s0 : (0:ℝ) ≤ t - (-75) := by linarith
  have sw : t - (-75) ≤ 7.5 := by linarith
  have hm02 : (tw - (-22.5))^0 * (t - (-75))^2 ≤ 7.5^0 * 7.5^2 :=
    mul_le_mul (pow_le_pow_left₀ u0 uw 0) (pow_le_pow_left₀ s0 sw 2)
      (pow_nonneg s0 2) (pow_nonneg (by norm_num : (0:ℝ) ≤ 7.5) 0)
  have hm04 : (tw - (-22.5))^0 * (t - (-75))^4 ≤ 7.5^0 * 7.5^4 :=
    mul_le_mul (pow_le_pow_left₀ u0 uw 0) (pow_le_pow_left₀ s0 sw 4)
      (pow_nonneg s0 4) (pow_nonneg (by norm_num : (0:ℝ) ≤ 7.5) 0)
  have hm11 : (tw - (-22.5))^1 * (t - (-75))^1 ≤ 7.5^1 * 7.5^1 :=
    mul_le_mul (pow_le_pow_left₀ u0 uw 1) (pow_le_pow_left₀ s0 sw 1)
      (pow_nonneg s0 1) (pow_nonneg (by norm_num : (0:ℝ) ≤ 7.5) 1)
  have hm13 : (tw - (-22.5))^1 * (t - (-75))^3 ≤ 7.5^1 * 7.5^3 :=
    mul_le_mul (pow_le_pow_left₀ u0 uw 1) (pow_le_pow_left₀ s0 sw 3)
      (pow_nonneg s0 3) (pow_nonneg (by norm_num : (0:ℝ) ≤ 7.5) 1)
  have hm15 : (tw - (-22.5))^1 * (t - (-75))^5 ≤ 7.5^1 * 7.5^5 :=
    mul_le_mul (pow_le_pow_left₀ u0 uw 1) (pow_le_pow_left₀ s0 sw 5)
      (pow_nonneg s0 5) (pow_nonneg (by norm_num : (0:ℝ) ≤ 7.5) 1)
  have hm20 : (tw - (-22.5))^2 * (t - (-75))^0 ≤ 7.5^2 * 7.5^0 :=
    mul_le_mul (pow_le_pow_left₀ u0 uw 2) (pow_le_pow_left₀ s0 sw 0)
      (pow_nonneg s0 0) (pow_nonneg (by norm_num : (0:ℝ) ≤ 7.5) 2)
  have hm22 : (tw - (-22.5))^2 * (t - (-75))^2 ≤ 7.5^2 * 7.5^2 :=
    mul_le_mul (pow_le_pow_left₀ u0 uw 2) (pow_le_pow_left₀ s0 sw 2)
      (pow_nonneg s0 2) (pow_nonneg (by norm_num : (0:ℝ) ≤ 7.5) 2)
  have hm24 : (tw - (-22.5))^2 * (t - (-75))^4 ≤ 7.5^2 * 7.5^4 :=
    mul_le_mul (pow_le_pow_left₀ u0 uw 2) (pow_le_pow_left₀ s0 sw 4)
      (pow_nonneg s0 4) (pow_nonneg (by norm_num : (0:ℝ) ≤ 7.5) 2)
  have hm31 : (tw - (-22.5))^3 * (t - (-75))^1 ≤ 7.5^3 * 7.5^1 :=
    mul_le_mul (pow_le_pow_left₀ u0 uw 3) (pow_le_pow_left₀ s0 sw 1)
      (pow_nonneg s0 1) (pow_nonneg (by norm_num : (0:ℝ) ≤ 7.5) 3)
  have hm33 : (tw - (-22.5))^3 * (t - (-75))^3 ≤ 7.5^3 * 7.5^3 :=
    mul_le_mul (pow_le_pow_left₀ u0 uw 3) (pow_le_pow_left₀ s0 sw 3)
      (pow_nonneg s0 3) (pow_nonneg (by norm_num : (0:ℝ) ≤ 7.5) 3)
  have hm35 : (tw - (-22.5))^3 * (t - (-75))^5 ≤ 7.5^3 * 7.5^5 :=
    mul_le_mul (pow_le_pow_left₀ u0 uw 3) (pow_le_pow_left₀ s0 sw 5)
      (pow_nonneg s0 5) (pow_nonneg (by norm_num : (0:ℝ) ≤ 7.5) 3)
  have hm40 : (tw - (-22.5))^4 * (t - (-75))^0 ≤ 7.5^4 * 7.5^0 :=
    mul_le_mul (pow_le_pow_left₀ u0 uw 4) (pow_le_pow_left₀ s0 sw 0)
      (pow_nonneg s0 0) (pow_nonneg (by norm_num : (0:ℝ) ≤ 7.5) 4)
  have hm42 : (tw - (-22.5))^4 * (t - (-75))^2 ≤ 7.5^4 * 7.5^2 :=
    mul_le_mul (pow_le_pow_left₀ u0 uw 4) (pow_le_pow_left₀ s0 sw 2)
      (pow_nonneg s0 2) (pow_nonneg (by norm_num : (0:ℝ) ≤ 7.5) 4)
  have hm44 : (tw - (-22.5))^4 * (t - (-75))^4 ≤ 7.5^4 * 7.5^4 :=
    mul_le_mul (pow_le_pow_left₀ u0 uw 4) (pow_le_pow_left₀ s0 sw 4)
      (pow_nonneg s0 4) (pow_nonneg (by norm_num : (0:ℝ) ≤ 7.5) 4)
  have hp01 : (0:ℝ) ≤ (tw - (-22.5))^0 * (t - (-75))^1 :=
    mul_nonneg (pow_nonneg u0 0) (pow_nonneg s0 1)
  have hp03 : (0:ℝ) ≤ (tw - (-22.5))^0 * (t - (-75))^3 :=
    mul_nonneg (pow_nonneg u0 0) (pow_nonneg s0 3)
  have hp05 : (0:ℝ) ≤ (tw - (-22.5))^0 * (t - (-75))^5 :=
    mul_nonneg (pow_nonneg u0 0) (pow_nonneg s0 5)
  have hp10 : (0:ℝ) ≤ (tw - (-22.5))^1 * (t - (-75))^0 :=
    mul_nonneg (pow_nonneg u0 1) (pow_nonneg s0 0)
  have hp12 : (0:ℝ) ≤ (tw - (-22.5))^1 * (t - (-75))^2 :=
    mul_nonneg (pow_nonneg u0 1) (pow_nonneg s0 2)
  have hp14 : (0:ℝ) ≤ (tw - (-22.5))^1 * (t - (-75))^4 :=
    mul_nonneg (pow_nonneg u0 1) (pow_nonneg s0 4)
  have hp21 : (0:ℝ) ≤ (tw - (-22.5))^2 * (t - (-75))^1 :=
    mul_nonneg (pow_nonneg u0 2) (pow_nonneg s0 1)
  have hp23 : (0:ℝ) ≤ (tw - (-22.5))^2 * (t - (-75))^3 :=
    mul_nonneg (pow_nonneg u0 2) (pow_nonneg s0 3)
  have hp25 : (0:ℝ) ≤ (tw - (-22.5))^2 * (t - (-75))^5 :=
    mul_nonneg (pow_nonneg u0 2) (pow_nonneg s0 5)
  have hp30 : (0:ℝ) ≤ (tw - (-22.5))^3 * (t - (-75))^0 :=
    mul_nonneg (pow_nonneg u0 3) (pow_nonneg s0 0)
  have hp32 : (0:ℝ) ≤ (tw - (-22.5))^3 * (t - (-75))^2 :=
    mul_nonneg (pow_nonneg u0 3) (pow_nonneg s0 2)
  have hp34 : (0:ℝ) ≤ (tw - (-22.5))^3 * (t - (-75))^4 :=
    mul_nonneg (pow_nonneg u0 3) (pow_nonneg s0 4)
  have hp41 : (0:ℝ) ≤ (tw - (-22.5))^4 * (t - (-75))^1 :=
    mul_nonneg (pow_nonneg u0 4) (pow_nonneg s0 1)
  have hp43 : (0:ℝ) ≤ (tw - (-22.5))^4 * (t - (-75))^3 :=
    mul_nonneg (pow_nonneg u0 4) (pow_nonneg s0 3)
  have hp45 : (0:ℝ) ≤ (tw - (-22.5))^4 * (t - (-75))^5 :=
    mul_nonneg (pow_nonneg u0 4) (pow_nonneg s0 5)
  simp only [dctp6, mac6_0, mac6_1, mac6_2, mac6_3, mac6_4, mac6_5]
  linarith [hm02, hm04, hm11, hm13, hm15, hm20, hm22, hm24, hm31, hm33, hm35, hm40, hm42, hm44, hp01, hp03, hp05, hp10, hp12, hp14, hp21, hp23, hp25, hp30, hp32, hp34, hp41, hp43, hp45]


lemma d6cell_6 (tw t : ℝ) (ha : (-22.5) ≤ tw) (hb : tw ≤ (-15))
    (hc : (-67.5) ≤ t) (hd : t ≤ (-60)) : 0 < dctp6 tw t := by
  have u0 : (0:ℝ) ≤ tw - (-22.5) := by linarith
  have uw : tw - (-22.5) ≤ 7.5 := by linarith
  have s0 : (0:ℝ) ≤ t - (-67.5) := by linarith
  have sw : t - (-67.5) ≤ 7.5 := by linarith
  have hm02 : (tw - (-22.5))^0 * (t - (-67.5))^2 ≤ 7.5^0 * 7.5^2 :=
    mul_le_mul (pow_le_pow_left₀ u0 uw 0) (pow_le_pow_left₀ s0 sw 2)
      (pow_nonneg s0 2) (pow_nonneg (by norm_num : (0:ℝ) ≤ 7.5) 0)
  have hm04 : (tw - (-22.5))^0 * (t - (-67.5))^4 ≤ 7.5^0 * 7.5^4 :=
    mul_le_mul (pow_le_pow_left₀ u0 uw 0) (pow_le_pow_left₀ s0 sw 4)
      (pow_nonneg s0 4) (pow_nonneg (by norm_num : (0:ℝ) ≤ 7.5) 0)
  have hm10 : (tw - (-22.5))^1 * (t - (-67.5))^0 ≤ 7.5^1 * 7.5^0 :=
    mul_le_mul (pow_le_pow_left₀ u0 uw 1) (pow_le_pow_left₀ s0 sw 0)
      (pow_nonneg s0 0) (pow_nonneg (by norm_num : (0:ℝ) ≤ 7.5) 1)
  have hm11 : (tw - (-22.5))^1 * (t - (-67.5))^1 ≤ 7.5^1 * 7.5^1 :=
    mul_le_mul (pow_le_pow_left₀ u0 uw 1) (pow_le_pow_left₀ s0 sw 1)
      (pow_nonneg s0 1) (pow_nonneg (by norm_num : (0:ℝ) ≤ 7.5) 1)
  have hm13 : (tw - (-22.5))^1 * (t - (-67.5))^3 ≤ 7.5^1 * 7.5^3 :=
    mul_le_mul (pow_le_pow_left₀ u0 uw 1) (pow_le_pow_left₀ s0 sw 3)
      (pow_nonneg s0 3) (pow_nonneg (by norm_num : (0:ℝ) ≤ 7.5) 1)
  have hm15 : (tw - (-22.5))^1 * (t - (-67.5))^5 ≤ 7.5^1 * 7.5^5 :=
    mul_le_mul (pow_le_pow_left₀ u0 uw 1) (pow_le_pow_left₀ s0 sw 5)
      (pow_nonneg s0 5) (pow_nonneg (by norm_num : (0:ℝ) ≤ 7.5) 1)
  have hm22 : (tw - (-22.5))^2 * (t - (-67.5))^2 ≤ 7.5^2 * 7.5^2 :=
    mul_le_mul (pow_le_pow_left₀ u0 uw 2) (pow_le_pow_left₀ s0 sw 2)
      (pow_nonneg s0 2) (pow_nonneg (by norm_num : (0:ℝ) ≤ 7.5) 2)
  have hm24 : (tw - (-22.5))^2 * (t - (-67.5))^4 ≤ 7.5^2 * 7.5^4 :=
    mul_le_mul (pow_le_pow_left₀ u0 uw 2) (pow_le_pow_left₀ s0 sw 4)
      (pow_nonneg s0 4) (pow_nonneg (by norm_num : (0:ℝ) ≤ 7.5) 2)
  have hm30 : (tw - (-22.5))^3 * (t - (-67.5))^0 ≤ 7.5^3 * 7.5^0 :=
    mul_le_mul (pow_le_pow_left₀ u0 uw 3) (pow_le_pow_left₀ s0 sw 0)
      (pow_nonneg s0 0) (pow_nonneg (by norm_num : (0:ℝ) ≤ 7.5) 3)
  have hm31 : (tw - (-22.5))^3 * (t - (-67.5))^1 ≤ 7.5^3 * 7.5^1 :=
    mul_le_mul (pow_le_pow_left₀ u0 uw 3) (pow_le_pow_left₀ s0 sw 1)
      (pow_nonneg s0 1) (pow_nonneg (by norm_num : (0:ℝ) ≤ 7.5) 3)
  have hm33 : (tw - (-22.5))^3 * (t - (-67.5))^3 ≤ 7.5^3 * 7.5^3 :=
    mul_le_mul (pow_le_pow_left₀ u0 uw 3) (pow_le_pow_left₀ s0 sw 3)
      (pow_nonneg s0 3) (pow_nonneg (by norm_num : (0:ℝ) ≤ 7.5) 3)
  have hm35 : (tw - (-22.5))^3 * (t - (-67.5))^5 ≤ 7.5^3 * 7.5^5 :=
    mul_le_mul (pow_le_pow_left₀ u0 uw 3) (pow_le_pow_left₀ s0 sw 5)
      (pow_nonneg s0 5) (pow_nonneg (by norm_num : (0:ℝ) ≤ 7.5) 3)
  have hm42 : (tw - (-22.5))^4 * (t - (-67.5))^2 ≤ 7.5^4 * 7.5^2 :=
    mul_le_mul (pow_le_pow_left₀ u0 uw 4) (pow_le_pow_left₀ s0 sw 2)
      (pow_nonneg s0 2) (pow_nonneg (by norm_num : (0:ℝ) ≤ 7.5) 4)
  have hm44 : (tw - (-22.5))^4 * (t - (-67.5))^4 ≤ 7.5^4 * 7.5^4 :=
    mul_le_mul (pow_le_pow_left₀ u0 uw 4) (pow_le_pow_left₀ s0 sw 4)
      (pow_nonneg s0 4) (pow_nonneg (by norm_num : (0:ℝ) ≤ 7.5) 4)
  have hp01 : (0:ℝ) ≤ (tw - (-22.5))^0 * (t - (-67.5))^1 :=
    mul_nonneg (pow_nonneg u0 0) (pow_nonneg s0 1)
  have hp03 : (0:ℝ) ≤ (tw - (-22.5))^0 * (t - (-67.5))^3 :=
    mul_nonneg (pow_nonneg u0 0) (pow_nonneg s0 3)
  have hp05 : (0:ℝ) ≤ (tw - (-22.5))^0 * (t - (-67.5))^5 :=
    mul_nonneg (pow_nonneg u0 0) (pow_nonneg s0 5)
  have hp12 : (0:ℝ) ≤ (tw - (-22.5))^1 * (t - (-67.5))^2 :=
    mul_nonneg (pow_nonneg u0 1) (pow_nonneg s0 2)
  have hp14 : (0:ℝ) ≤ (tw - (-22.5))^1 * (t - (-67.5))^4 :=
    mul_nonneg (pow_nonneg u0 1) (pow_nonneg s0 4)
  have hp20 : (0:ℝ) ≤ (tw - (-22.5))^2 * (t - (-67.5))^0 :=
    mul_nonneg (pow_nonneg u0 2) (pow_nonneg s0 0)
  have hp21 : (0:ℝ) ≤ (tw - (-22.5))^2 * (t - (-67.5))^1 :=
    mul_nonneg (pow_nonneg u0 2) (pow_nonneg s0 1)
  have hp23 : (0:ℝ) ≤ (tw - (-22.5))^2 * (t - (-67.5))^3 :=
    mul_nonneg (pow_nonneg u0 2) (pow_nonneg s0 3)
  have hp25 : (0:ℝ) ≤ (tw - (-22.5))^2 * (t - (-67.5))^5 :=
    mul_nonneg (pow_nonneg u0 2) (pow_nonneg s0 5)
  have hp32 : (0:ℝ) ≤ (tw - (-22.5))^3 * (t - (-67.5))^2 :=
    mul_nonneg (pow_nonneg u0 3) (pow_nonneg s0 2)
  have hp34 : (0:ℝ) ≤ (tw - (-22.5))^3 * (t - (-67.5))^4 :=
    mul_nonneg (pow_nonneg u0 3) (pow_nonneg s0 4)
  have hp40 : (0:ℝ) ≤ (tw - (-22.5))^4 * (t - (-67.5))^0 :=
    mul_nonneg (pow_nonneg u0 4) (pow_nonneg s0 0)
  have hp41 : (0:ℝ) ≤ (tw - (-22.5))^4 * (t - (-67.5))^1 :=
    mul_nonneg (pow_nonneg u0 4) (pow_nonneg s0 1)
  have hp43 : (0:ℝ) ≤ (tw - (-22.5))^4 * (t - (-67.5))^3 :=
    mul_nonneg (pow_nonneg u0 4) (pow_nonneg s0 3)
  have hp45 : (0:ℝ) ≤ (tw - (-22.5))^4 * (t - (-67.5))^5 :=
    mul_nonneg (pow_nonneg u0 4) (pow_nonneg s0 5)
  simp only [dctp6, mac6_0, mac6_1, mac6_2, mac6_3, mac6_4, mac6_5]
  linarith [hm02, hm04, hm10, hm11, hm13, hm15, hm22, hm24, hm30, hm31, hm33, hm35, hm42, hm44, hp01, hp03, hp05, hp12, hp14, hp20, hp21, hp23, hp25, hp32, hp34, hp40, hp41, hp43, hp45]


lemma d6cell_7 (tw t : ℝ) (ha : (-30) ≤ tw) (hb : tw ≤ (-15))
    (hc : (-60) ≤ t) (hd : t ≤ (-45)) : 0 < dctp6 tw t := by
  have u0 : (0:ℝ) ≤ tw - (-30) := by linarith
  have uw : tw - (-30) ≤ 15 := by linarith
  have s0 : (0:ℝ) ≤ t - (-60) := by linarith
  have sw : t - (-60) ≤ 15 := by linarith
  have hm02 : (tw - (-30))^0 * (t - (-60))^2 ≤ 15^0 * 15^2 :=
    mul_le_mul (pow_le_pow_left₀ u0 uw 0) (pow_le_pow_left₀ s0 sw 2)
      (pow_nonneg s0 2) (pow_nonneg (by norm_num : (0:ℝ) ≤ 15) 0)
  have hm04 : (tw - (-30))^0 * (t - (-60))^4 ≤ 15^0 * 15^4 :=
    mul_le_mul (pow_le_pow_left₀ u0 uw 0) (pow_le_pow_left₀ s0 sw 4)
      (pow_nonneg s0 4) (pow_nonneg (by norm_num : (0:ℝ) ≤ 15) 0)
  have hm10 : (tw - (-30))^1 * (t - (-60))^0 ≤ 15^1 * 15^0 :=
    mul_le_mul (pow_le_pow_left₀ u0 uw 1) (pow_le_pow_left₀ s0 sw 0)
      (pow_nonneg s0 0) (pow_nonneg (by norm_num : (0:ℝ) ≤ 15) 1)
  have hm11 : (tw - (-30))^1 * (t - (-60))^1 ≤ 15^1 * 15^1 :=
    mul_le_mul (pow_le_pow_left₀ u0 uw 1) (pow_le_pow_left₀ s0 sw 1)
      (pow_nonneg s0 1) (pow_nonneg (by norm_num : (0:ℝ) ≤ 15) 1)
  have hm13 : (tw - (-30))^1 * (t - (-60))^3 ≤ 15^1 * 15^3 :=
    mul_le_mul (pow_le_pow_left₀ u0 uw 1) (pow_le_pow_left₀ s0 sw 3)
      (pow_nonneg s0 3) (pow_nonneg (by norm_num : (0:ℝ) ≤ 15) 1)
  have hm15 : (tw - (-30))^1 * (t - (-60))^5 ≤ 15^1 * 15^5 :=
    mul_le_mul (pow_le_pow_left₀ u0 uw 1) (pow_le_pow_left₀ s0 sw 5)
      (pow_nonneg s0 5) (pow_nonneg (by norm_num : (0:ℝ) ≤ 15) 1)
  have hm22 : (tw - (-30))^2 * (t - (-60))^2 ≤ 15^2 * 15^2 :=
    mul_le_mul (pow_le_pow_left₀ u0 uw 2) (pow_le_pow_left₀ s0 sw 2)
      (pow_nonneg s0 2) (pow_nonneg (by norm_num : (0:ℝ) ≤ 15) 2)
  have hm24 : (tw - (-30))^2 * (t - (-60))^4 ≤ 15^2 * 15^4 :=
    mul_le_mul (pow_le_pow_left₀ u0 uw 2) (pow_le_pow_left₀ s0 sw 4)
      (pow_nonneg s0 4) (pow_nonneg (by norm_num : (0:ℝ) ≤ 15) 2)
  have hm30 : (tw - (-30))^3 * (t - (-60))^0 ≤ 15^3 * 15^0 :=
    mul_le_mul (pow_le_pow_left₀ u0 uw 3) (pow_le_pow_left₀ s0 sw 0)
      (pow_nonneg s0 0) (pow_nonneg (by norm_num : (0:ℝ) ≤ 15) 3)
  have hm31 : (tw - (-30))^3 * (t - (-60))^1 ≤ 15^3 * 15^1 :=
    mul_le_mul (pow_le_pow_left₀ u0 uw 3) (pow_le_pow_left₀ s0 sw 1)
      (pow_nonneg s0 1) (pow_nonneg (by norm_num : (0:ℝ) ≤ 15) 3)
  have hm33 : (tw - (-30))^3 * (t - (-60))^3 ≤ 15^3 * 15^3 :=
    mul_le_mul (pow_le_pow_left₀ u0 uw 3) (pow_le_pow_left₀ s0 sw 3)
      (pow_nonneg s0 3) (pow_nonneg (by norm_num : (0:ℝ) ≤ 15) 3)
  have hm35 : (tw - (-30))^3 * (t - (-60))^5 ≤ 15^3 * 15^5 :=
    mul_le_mul (pow_le_pow_left₀ u0 uw 3) (pow_le_pow_left₀ s0 sw 5)
      (pow_nonneg s0 5) (pow_nonneg (by norm_num : (0:ℝ) ≤ 15) 3)
  have hm42 : (tw - (-30))^4 * (t - (-60))^2 ≤ 15^4 * 15^2 :=
    mul_le_mul (pow_le_pow_left₀ u0 uw 4) (pow_le_pow_left₀ s0 sw 2)
      (pow_nonneg s0 2) (pow_nonneg (by norm_num : (0:ℝ) ≤ 15) 4)
  have hm44 : (tw - (-30))^4 * (t - (-60))^4 ≤ 15^4 * 15^4 :=
    mul_le_mul (pow_le_pow_left₀ u0 uw 4) (pow_le_pow_left₀ s0 sw 4)
      (pow_nonneg s0 4) (pow_nonneg (by norm_num : (0:ℝ) ≤ 15) 4)
  have hp01 : (0:ℝ) ≤ (tw - (-30))^0 * (t - (-60))^1 :=
    mul_nonneg (pow_nonneg u0 0) (pow_nonneg s0 1)
  have hp03 : (0:ℝ) ≤ (tw - (-30))^0 * (t - (-60))^3 :=
    mul_nonneg (pow_nonneg u0 0) (pow_nonneg s0 3)
  have hp05 : (0:ℝ) ≤ (tw - (-30))^0 * (t - (-60))^5 :=
    mul_nonneg (pow_nonneg u0 0) (pow_nonneg s0 5)
  have hp12 : (0:ℝ) ≤ (tw - (-30))^1 * (t - (-60))^2 :=
    mul_nonneg (pow_nonneg u0 1) (pow_nonneg s0 2)
  have hp14 : (0:ℝ) ≤ (tw - (-30))^1 * (t - (-60))^4 :=
    mul_nonneg (pow_nonneg u0 1) (pow_nonneg s0 4)
  have hp20 : (0:ℝ) ≤ (tw - (-30))^2 * (t - (-60))^0 :=
    mul_nonneg (pow_nonneg u0 2) (pow_nonneg s0 0)
  have hp21 : (0:ℝ) ≤ (tw - (-30))^2 * (t - (-60))^1 :=
    mul_nonneg (pow_nonneg u0 2) (pow_nonneg s0 1)
  have hp23 : (0:ℝ) ≤ (tw - (-30))^2 * (t - (-60))^3 :=
    mul_nonneg (pow_nonneg u0 2) (pow_nonneg s0 3)
  have hp25 : (0:ℝ) ≤ (tw - (-30))^2 * (t - (-60))^5 :=
    mul_nonneg (pow_nonneg u0 2) (pow_nonneg s0 5)
  have hp32 : (0:ℝ) ≤ (tw - (-30))^3 * (t - (-60))^2 :=
    mul_nonneg (pow_nonneg u0 3) (pow_nonneg s0 2)
  have hp34 : (0:ℝ) ≤ (tw - (-30))^3 * (t - (-60))^4 :=
    mul_nonneg (pow_nonneg u0 3) (pow_nonneg s0 4)
  have hp40 : (0:ℝ) ≤ (tw - (-30))^4 * (t - (-60))^0 :=
    mul_nonneg (pow_nonneg u0 4) (pow_nonneg s0 0)
  have hp41 : (0:ℝ) ≤ (tw - (-30))^4 * (t - (-60))^1 :=
    mul_nonneg (pow_nonneg u0 4) (pow_nonneg s0 1)
  have hp43 : (0:ℝ) ≤ (tw - (-30))^4 * (t - (-60))^3 :=
    mul_nonneg (pow_nonneg u0 4) (pow_nonneg s0 3)
  have hp45 : (0:ℝ) ≤ (tw - (-30))^4 * (t - (-60))^5 :=
    mul_nonneg (pow_nonneg u0 4) (pow_nonneg s0 5)
  simp only [dctp6, mac6_0, mac6_1, mac6_2, mac6_3, mac6_4, mac6_5]
  linarith [hm02, hm04, hm10, hm11, hm13, hm15, hm22, hm24, hm30, hm31, hm33, hm35, hm42, hm44, hp01, hp03, hp05, hp12, hp14, hp20, hp21, hp23, hp25, hp32, hp34, hp40, hp41, hp43, hp45]


lemma d6cell_8 (tw t : ℝ) (ha : (-15) ≤ tw) (hb : tw ≤ (-7.5))
    (hc : (-75) ≤ t) (hd : t ≤ (-67.5)) : 0 < dctp6 tw t := by
  have u0 : (0:ℝ) ≤ tw - (-15) := by linarith
  have uw : tw - (-15) ≤ 7.5 := by linarith
  have s0 : (0:ℝ) ≤ t - (-75) := by linarith
  have sw : t - (-75) ≤ 7.5 := by linarith
  have hm02 : (tw - (-15))^0 * (t - (-75))^2 ≤ 7.5^0 * 7.5^2 :=
    mul_le_mul (pow_le_pow_left₀ u0 uw 0) (pow_le_pow_left₀ s0 sw 2)
      (pow_nonneg s0 2) (pow_nonneg (by norm_num : (0:ℝ) ≤ 7.5) 0)
  have hm04 : (tw - (-15))^0 * (t - (-75))^4 ≤ 7.5^0 * 7.5^4 :=
    mul_le_mul (pow_le_pow_left₀ u0 uw 0) (pow_le_pow_left₀ s0 sw 4)
      (pow_nonneg s0 4) (pow_nonneg (by norm_num : (0:ℝ) ≤ 7.5) 0)
  have hm10 : (tw - (-15))^1 * (t - (-75))^0 ≤ 7.5^1 * 7.5^0 :=
    mul_le_mul (pow_le_pow_left₀ u0 uw 1) (pow_le_pow_left₀ s0 sw 0)
      (pow_nonneg s0 0) (pow_nonneg (by norm_num : (0:ℝ) ≤ 7.5) 1)
  have hm11 : (tw - (-15))^1 * (t - (-75))^1 ≤ 7.5^1 * 7.5^1 :=
    mul_le_mul (pow_le_pow_left₀ u0 uw 1) (pow_le_pow_left₀ s0 sw 1)
      (pow_nonneg s0 1) (pow_nonneg (by norm_num : (0:ℝ) ≤ 7.5) 1)
  have hm13 : (tw - (-15))^1 * (t - (-75))^3 ≤ 7.5^1 * 7.5^3 :=
    mul_le_mul (pow_le_pow_left₀ u0 uw 1) (pow_le_pow_left₀ s0 sw 3)
      (pow_nonneg s0 3) (pow_nonneg (by norm_num : (0:ℝ) ≤ 7.5) 1)
  have hm15 : (tw - (-15))^1 * (t - (-75))^5 ≤ 7.5^1 * 7.5^5 :=
    mul_le_mul (pow_le_pow_left₀ u0 uw 1) (pow_le_pow_left₀ s0 sw 5)
      (pow_nonneg s0 5) (pow_nonneg (by norm_num : (0:ℝ) ≤ 7.5) 1)
  have hm20 : (tw - (-15))^2 * (t - (-75))^0 ≤ 7.5^2 * 7.5^0 :=
    mul_le_mul (pow_le_pow_left₀ u0 uw 2) (pow_le_pow_left₀ s0 sw 0)
      (pow_nonneg s0 0) (pow_nonneg (by norm_num : (0:ℝ) ≤ 7.5) 2)
  have hm22 : (tw - (-15))^2 * (t - (-75))^2 ≤ 7.5^2 * 7.5^2 :=
    mul_le_mul (pow_le_pow_left₀ u0 uw 2) (pow_le_pow_left₀ s0 sw 2)
      (pow_nonneg s0 2) (pow_nonneg (by norm_num : (0:ℝ) ≤ 7.5) 2)
  have hm24 : (tw - (-15))^2 * (t - (-75))^4 ≤ 7.5^2 * 7.5^4 :=
    mul_le_mul (pow_le_pow_left₀ u0 uw 2) (pow_le_pow_left₀ s0 sw 4)
      (pow_nonneg s0 4) (pow_nonneg (by norm_num : (0:ℝ) ≤ 7.5) 2)
  have hm31 : (tw - (-15))^3 * (t - (-75))^1 ≤ 7.5^3 * 7.5^1 :=
    mul_le_mul (pow_le_pow_left₀ u0 uw 3) (pow_le_pow_left₀ s0 sw 1)
      (pow_nonneg s0 1) (pow_nonneg (by norm_num : (0:ℝ) ≤ 7.5) 3)
  have hm33 : (tw - (-15))^3 * (t - (-75))^3 ≤ 7.5^3 * 7.5^3 :=
    mul_le_mul (pow_le_pow_left₀ u0 uw 3) (pow_le_pow_left₀ s0 sw 3)
      (pow_nonneg s0 3) (pow_nonneg (by norm_num : (0:ℝ) ≤ 7.5) 3)
  have hm35 : (tw - (-15))^3 * (t - (-75))^5 ≤ 7.5^3 * 7.5^5 :=
    mul_le_mul (pow_le_pow_left₀ u0 uw 3) (pow_le_pow_left₀ s0 sw 5)
      (pow_nonneg s0 5) (pow_nonneg (by norm_num : (0:ℝ) ≤ 7.5) 3)
  have hm40 : (tw - (-15))^4 * (t - (-75))^0 ≤ 7.5^4 * 7.5^0 :=
    mul_le_mul (pow_le_pow_left₀ u0 uw 4) (pow_le_pow_left₀ s0 sw 0)
      (pow_nonneg s0 0) (pow_nonneg (by norm_num : (0:ℝ) ≤ 7.5) 4)
  have hm42 : (tw - (-15))^4 * (t - (-75))^2 ≤ 7.5^4 * 7.5^2 :=
    mul_le_mul (pow_le_pow_left₀ u0 uw 4) (pow_le_pow_left₀ s0 sw 2)
      (pow_nonneg s0 2) (pow_nonneg (by norm_num : (0:ℝ) ≤ 7.5) 4)
  have hm44 : (tw - (-15))^4 * (t - (-75))^4 ≤ 7.5^4 * 7.5^4 :=
    mul_le_mul (pow_le_pow_left₀ u0 uw 4) (pow_le_pow_left₀ s0 sw 4)
      (pow_nonneg s0 4) (pow_nonneg (by norm_num : (0:ℝ) ≤ 7.5) 4)
  have hp01 : (0:ℝ) ≤ (tw - (-15))^0 * (t - (-75))^1 :=
    mul_nonneg (pow_nonneg u0 0) (pow_nonneg s0 1)
  have hp03 : (0:ℝ) ≤ (tw - (-15))^0 * (t - (-75))^3 :=
    mul_nonneg (pow_nonneg u0 0) (pow_nonneg s0 3)
  have hp05 : (0:ℝ) ≤ (tw - (-15))^0 * (t - (-75))^5 :=
    mul_nonneg (pow_nonneg u0 0) (pow_nonneg s0 5)
  have hp12 : (0:ℝ) ≤ (tw - (-15))^1 * (t - (-75))^2 :=
    mul_nonneg (pow_nonneg u0 1) (pow_nonneg s0 2)
  have hp14 : (0:ℝ) ≤ (tw - (-15))^1 * (t - (-75))^4 :=
    mul_nonneg (pow_nonneg u0 1) (pow_nonneg s0 4)
  have hp21 : (0:ℝ) ≤ (tw - (-15))^2 * (t - (-75))^1 :=
    mul_nonneg (pow_nonneg u0 2) (pow_nonneg s0 1)
  have hp23 : (0:ℝ) ≤ (tw - (-15))^2 * (t - (-75))^3 :=
    mul_nonneg (pow_nonneg u0 2) (pow_nonneg s0 3)
  have hp25 : (0:ℝ) ≤ (tw - (-15))^2 * (t - (-75))^5 :=
    mul_nonneg (pow_nonneg u0 2) (pow_nonneg s0 5)
  have hp30 : (0:ℝ) ≤ (tw - (-15))^3 * (t - (-75))^0 :=
    mul_nonneg (pow_nonneg u0 3) (pow_nonneg s0 0)
  have hp32 : (0:ℝ) ≤ (tw - (-15))^3 * (t - (-75))^2 :=
    mul_nonneg (pow_nonneg u0 3) (pow_nonneg s0 2)
  have hp34 : (0:ℝ) ≤ (tw - (-15))^3 * (t - (-75))^4 :=
    mul_nonneg (pow_nonneg u0 3) (pow_nonneg s0 4)
  have hp41 : (0:ℝ) ≤ (tw - (-15))^4 * (t - (-75))^1 :=
    mul_nonneg (pow_nonneg u0 4) (pow_nonneg s0 1)
  have hp43 : (0:ℝ) ≤ (tw - (-15))^4 * (t - (-75))^3 :=
    mul_nonneg (pow_nonneg u0 4) (pow_nonneg s0 3)
  have hp45 : (0:ℝ) ≤ (tw - (-15))^4 * (t - (-75))^5 :=
    mul_nonneg (pow_nonneg u0 4) (pow_nonneg s0 5)
  simp only [dctp6, mac6_0, mac6_1, mac6_2, mac6_3, mac6_4, mac6_5]
  linarith [hm02, hm04, hm10, hm11, hm13, hm15, hm20, hm22, hm24, hm31, hm33, hm35, hm40, hm42, hm44, hp01, hp03, hp05, hp12, hp14, hp21, hp23, hp25, hp30, hp32, hp34, hp41, hp43, hp45]


lemma d6cell_9 (tw t : ℝ) (ha : (-15) ≤ tw) (hb : tw ≤ (-7.5))
    (hc : (-67.5) ≤ t) (hd : t ≤ (-60)) : 0 < dctp6 tw t := by
  have u0 : (0:ℝ) ≤ tw - (-15) := by linarith
  have uw : tw - (-15) ≤ 7.5 := by linarith
  have s0 : (0:ℝ) ≤ t - (-67.5) := by linarith
  have sw : t - (-67.5) ≤ 7.5 := by linarith
  have hm02 : (tw - (-15))^0 * (t - (-67.5))^2 ≤ 7.5^0 * 7.5^2 :=
    mul_le_mul (pow_le_pow_left₀ u0 uw 0) (pow_le_pow_left₀ s0 sw 2)
      (pow_nonneg s0 2) (pow_nonneg (by norm_num : (0:ℝ) ≤ 7.5) 0)
  have hm04 : (tw - (-15))^0 * (t - (-67.5))^4 ≤ 7.5^0 * 7.5^4 :=
    mul_le_mul (pow_le_pow_left₀ u0 uw 0) (pow_le_pow_left₀ s0 sw 4)
      (pow_nonneg s0 4) (pow_nonneg (by norm_num : (0:ℝ) ≤ 7.5) 0)
  have hm10 : (tw - (-15))^1 * (t - (-67.5))^0 ≤ 7.5^1 * 7.5^0 :=
    mul_le_mul (pow_le_pow_left₀ u0 uw 1) (pow_le_pow_left₀ s0 sw 0)
      (pow_nonneg s0 0) (pow_nonneg (by norm_num : (0:ℝ) ≤ 7.5) 1)
  have hm11 : (tw - (-15))^1 * (t - (-67.5))^1 ≤ 7.5^1 * 7.5^1 :=
    mul_le_mul (pow_le_pow_left₀ u0 uw 1) (pow_le_pow_left₀ s0 sw 1)
      (pow_nonneg s0 1) (pow_nonneg (by norm_num : (0:ℝ) ≤ 7.5) 1)
  have hm13 : (tw - (-15))^1 * (t - (-67.5))^3 ≤ 7.5^1 * 7.5^3 :=
    mul_le_mul (pow_le_pow_left₀ u0 uw 1) (pow_le_pow_left₀ s0 sw 3)
      (pow_nonneg s0 3) (pow_nonneg (by norm_num : (0:ℝ) ≤ 7.5) 1)
  have hm15 : (tw - (-15))^1 * (t - (-67.5))^5 ≤ 7.5^1 * 7.5^5 :=
    mul_le_mul (pow_le_pow_left₀ u0 uw 1) (pow_le_pow_left₀ s0 sw 5)
      (pow_nonneg s0 5) (pow_nonneg (by norm_num : (0:ℝ) ≤ 7.5) 1)
  have hm20 : (tw - (-15))^2 * (t - (-67.5))^0 ≤ 7.5^2 * 7.5^0 :=
    mul_le_mul (pow_le_pow_left₀ u0 uw 2) (pow_le_pow_left₀ s0 sw 0)
      (pow_nonneg s0 0) (pow_nonneg (by norm_num : (0:ℝ) ≤ 7.5) 2)
  have hm22 : (tw - (-15))^2 * (t - (-67.5))^2 ≤ 7.5^2 * 7.5^2 :=
    mul_le_mul (pow_le_pow_left₀ u0 uw 2) (pow_le_pow_left₀ s0 sw 2)
      (pow_nonneg s0 2) (pow_nonneg (by norm_num : (0:ℝ) ≤ 7.5) 2)
  have hm24 : (tw - (-15))^2 * (t - (-67.5))^4 ≤ 7.5^2 * 7.5^4 :=
    mul_le_mul (pow_le_pow_left₀ u0 uw 2) (pow_le_pow_left₀ s0 sw 4)
      (pow_nonneg s0 4) (pow_nonneg (by norm_num : (0:ℝ) ≤ 7.5) 2)
  have hm30 : (tw - (-15))^3 * (t - (-67.5))^0 ≤ 7.5^3 * 7.5^0 :=
    mul_le_mul (pow_le_pow_left₀ u0 uw 3) (pow_le_pow_left₀ s0 sw 0)
      (pow_nonneg s0 0) (pow_nonneg (by norm_num : (0:ℝ) ≤ 7.5) 3)
  have hm31 : (tw - (-15))^3 * (t - (-67.5))^1 ≤ 7.5^3 * 7.5^1 :=
    mul_le_mul (pow_le_pow_left₀ u0 uw 3) (pow_le_pow_left₀ s0 sw 1)
      (pow_nonneg s0 1) (pow_nonneg (by norm_num : (0:ℝ) ≤ 7.5) 3)
  have hm33 : (tw - (-15))^3 * (t - (-67.5))^3 ≤ 7.5^3 * 7.5^3 :=
    mul_le_mul (pow_le_pow_left₀ u0 uw 3) (pow_le_pow_left₀ s0 sw 3)
      (pow_nonneg s0 3) (pow_nonneg (by norm_num : (0:ℝ) ≤ 7.5) 3)
  have hm35 : (tw - (-15))^3 * (t - (-67.5))^5 ≤ 7.5^3 * 7.5^5 :=
    mul_le_mul (pow_le_pow_left₀ u0 uw 3) (pow_le_pow_left₀ s0 sw 5)
      (pow_nonneg s0 5) (pow_nonneg (by norm_num : (0:ℝ) ≤ 7.5) 3)
  have hm42 : (tw - (-15))^4 * (t - (-67.5))^2 ≤ 7.5^4 * 7.5^2 :=
    mul_le_mul (pow_le_pow_left₀ u0 uw 4) (pow_le_pow_left₀ s0 sw 2)
      (pow_nonneg s0 2) (pow_nonneg (by norm_num : (0:ℝ) ≤ 7.5) 4)
  have hm44 : (tw - (-15))^4 * (t - (-67.5))^4 ≤ 7.5^4 * 7.5^4 :=
    mul_le_mul (pow_le_pow_left₀ u0 uw 4) (pow_le_pow_left₀ s0 sw 4)
      (pow_nonneg s0 4) (pow_nonneg (by norm_num : (0:ℝ) ≤ 7.5) 4)
  have hp01 : (0:ℝ) ≤ (tw - (-15))^0 * (t - (-67.5))^1 :=
    mul_nonneg (pow_nonneg u0 0) (pow_nonneg s0 1)
  have hp03 : (0:ℝ) ≤ (tw - (-15))^0 * (t - (-67.5))^3 :=
    mul_nonneg (pow_nonneg u0 0) (pow_nonneg s0 3)
  have hp05 : (0:ℝ) ≤ (tw - (-15))^0 * (t - (-67.5))^5 :=
    mul_nonneg (pow_nonneg u0 0) (pow_nonneg s0 5)
  have hp12 : (0:ℝ) ≤ (tw - (-15))^1 * (t - (-67.5))^2 :=
    mul_nonneg (pow_nonneg u0 1) (pow_nonneg s0 2)
  have hp14 : (0:ℝ) ≤ (tw - (-15))^1 * (t - (-67.5))^4 :=
    mul_nonneg (pow_nonneg u0 1) (pow_nonneg s0 4)
  have hp21 : (0:ℝ) ≤ (tw - (-15))^2 * (t - (-67.5))^1 :=
    mul_nonneg (pow_nonneg u0 2) (pow_nonneg s0 1)
  have hp23 : (0:ℝ) ≤ (tw - (-15))^2 * (t - (-67.5))^3 :=
    mul_nonneg (pow_nonneg u0 2) (pow_nonneg s0 3)
  have hp25 : (0:ℝ) ≤ (tw - (-15))^2 * (t - (-67.5))^5 :=
    mul_nonneg (pow_nonneg u0 2) (pow_nonneg s0 5)
  have hp32 : (0:ℝ) ≤ (tw - (-15))^3 * (t - (-67.5))^2 :=
    mul_nonneg (pow_nonneg u0 3) (pow_nonneg s0 2)
  have hp34 : (0:ℝ) ≤ (tw - (-15))^3 * (t - (-67.5))^4 :=
    mul_nonneg (pow_nonneg u0 3) (pow_nonneg s0 4)
  have hp40 : (0:ℝ) ≤ (tw - (-15))^4 * (t - (-67.5))^0 :=
    mul_nonneg (pow_nonneg u0 4) (pow_nonneg s0 0)
  have hp41 : (0:ℝ) ≤ (tw - (-15))^4 * (t - (-67.5))^1 :=
    mul_nonneg (pow_nonneg u0 4) (pow_nonneg s0 1)
  have hp43 : (0:ℝ) ≤ (tw - (-15))^4 * (t - (-67.5))^3 :=
    mul_nonneg (pow_nonneg u0 4) (pow_nonneg s0 3)
  have hp45 : (0:ℝ) ≤ (tw - (-15))^4 * (t - (-67.5))^5 :=
    mul_nonneg (pow_nonneg u0 4) (pow_nonneg s0 5)
  simp only [dctp6, mac6_0, mac6_1, mac6_2, mac6_3, mac6_4, mac6_5]
  linarith [hm02, hm04, hm10, hm11, hm13, hm15, hm20, hm22, hm24, hm30, hm31, hm33, hm35, hm42, hm44, hp01, hp03, hp05, hp12, hp14, hp21, hp23, hp25, hp32, hp34, hp40, hp41, hp43, hp45]


lemma d6cell_10 (tw t : ℝ) (ha : (-7.5) ≤ tw) (hb : tw ≤ 0)
    (hc : (-75) ≤ t) (hd : t ≤ (-67.5)) : 0 < dctp6 tw t := by
  have u0 : (0:ℝ) ≤ tw - (-7.5) := by linarith
  have uw : tw - (-7.5) ≤ 7.5 := by linarith
  have s0 : (0:ℝ) ≤ t - (-75) := by linarith
  have sw : t - (-75) ≤ 7.5 := by linarith
  have hm02 : (tw - (-7.5))^0 * (t - (-75))^2 ≤ 7.5^0 * 7.5^2 :=
    mul_le_mul (pow_le_pow_left₀ u0 uw 0) (pow_le_pow_left₀ s0 sw 2)
      (pow_nonneg s0 2) (pow_nonneg (by norm_num : (0:ℝ) ≤ 7.5) 0)
  have hm04 : (tw - (-7.5))^0 * (t - (-75))^4 ≤ 7.5^0 * 7.5^4 :=
    mul_le_mul (pow_le_pow_left₀ u0 uw 0) (pow_le_pow_left₀ s0 sw 4)
      (pow_nonneg s0 4) (pow_nonneg (by norm_num : (0:ℝ) ≤ 7.5) 0)
  have hm10 : (tw - (-7.5))^1 * (t - (-75))^0 ≤ 7.5^1 * 7.5^0 :=
    mul_le_mul (pow_le_pow_left₀ u0 uw 1) (pow_le_pow_left₀ s0 sw 0)
      (pow_nonneg s0 0) (pow_nonneg (by norm_num : (0:ℝ) ≤ 7.5) 1)
  have hm11 : (tw - (-7.5))^1 * (t - (-75))^1 ≤ 7.5^1 * 7.5^1 :=
    mul_le_mul (pow_le_pow_left₀ u0 uw 1) (pow_le_pow_left₀ s0 sw 1)
      (pow_nonneg s0 1) (pow_nonneg (by norm_num : (0:ℝ) ≤ 7.5) 1)
  have hm13 : (tw - (-7.5))^1 * (t - (-75))^3 ≤ 7.5^1 * 7.5^3 :=
    mul_le_mul (pow_le_pow_left₀ u0 uw 1) (pow_le_pow_left₀ s0 sw 3)
      (pow_nonneg s0 3) (pow_nonneg (by norm_num : (0:ℝ) ≤ 7.5) 1)
  have hm15 : (tw - (-7.5))^1 * (t - (-75))^5 ≤ 7.5^1 * 7.5^5 :=
    mul_le_mul (pow_le_pow_left₀ u0 uw 1) (pow_le_pow_left₀ s0 sw 5)
      (pow_nonneg s0 5) (pow_nonneg (by norm_num : (0:ℝ) ≤ 7.5) 1)
  have hm20 : (tw - (-7.5))^2 * (t - (-75))^0 ≤ 7.5^2 * 7.5^0 :=
    mul_le_mul (pow_le_pow_left₀ u0 uw 2) (pow_le_pow_left₀ s0 sw 0)
      (pow_nonneg s0 0) (pow_nonneg (by norm_num : (0:ℝ) ≤ 7.5) 2)
  have hm22 : (tw - (-7.5))^2 * (t - (-75))^2 ≤ 7.5^2 * 7.5^2 :=
    mul_le_mul (pow_le_pow_left₀ u0 uw 2) (pow_le_pow_left₀ s0 sw 2)
      (pow_nonneg s0 2) (pow_nonneg (by norm_num : (0:ℝ) ≤ 7.5) 2)
  have hm24 : (tw - (-7.5))^2 * (t - (-75))^4 ≤ 7.5^2 * 7.5^4 :=
    mul_le_mul (pow_le_pow_left₀ u0 uw 2) (pow_le_pow_left₀ s0 sw 4)
      (pow_nonneg s0 4) (pow_nonneg (by norm_num : (0:ℝ) ≤ 7.5) 2)
  have hm31 : (tw - (-7.5))^3 * (t - (-75))^1 ≤ 7.5^3 * 7.5^1 :=
    mul_le_mul (pow_le_pow_left₀ u0 uw 3) (pow_le_pow_left₀ s0 sw 1)
      (pow_nonneg s0 1) (pow_nonneg (by norm_num : (0:ℝ) ≤ 7.5) 3)
  have hm33 : (tw - (-7.5))^3 * (t - (-75))^3 ≤ 7.5^3 * 7.5^3 :=
    mul_le_mul (pow_le_pow_left₀ u0 uw 3) (pow_le_pow_left₀ s0 sw 3)
      (pow_nonneg s0 3) (pow_nonneg (by norm_num : (0:ℝ) ≤ 7.5) 3)
  have hm35 : (tw - (-7.5))^3 * (t - (-75))^5 ≤ 7.5^3 * 7.5^5 :=
    mul_le_mul (pow_le_pow_left₀ u0 uw 3) (pow_le_pow_left₀ s0 sw 5)
      (pow_nonneg s0 5) (pow_nonneg (by norm_num : (0:ℝ) ≤ 7.5) 3)
  have hm40 : (tw - (-7.5))^4 * (t - (-75))^0 ≤ 7.5^4 * 7.5^0 :=
    mul_le_mul (pow_le_pow_left₀ u0 uw 4) (pow_le_pow_left₀ s0 sw 0)
      (pow_nonneg s0 0) (pow_nonneg (by norm_num : (0:ℝ) ≤ 7.5) 4)
  have hm42 : (tw - (-7.5))^4 * (t - (-75))^2 ≤ 7.5^4 * 7.5^2 :=
    mul_le_mul (pow_le_pow_left₀ u0 uw 4) (pow_le_pow_left₀ s0 sw 2)
      (pow_nonneg s0 2) (pow_nonneg (by norm_num : (0:ℝ) ≤ 7.5) 4)
  have hm44 : (tw - (-7.5))^4 * (t - (-75))^4 ≤ 7.5^4 * 7.5^4 :=
    mul_le_mul (pow_le_pow_left₀ u0 uw 4) (pow_le_pow_left₀ s0 sw 4)
      (pow_nonneg s0 4) (pow_nonneg (by norm_num : (0:ℝ) ≤ 7.5) 4)
  have hp01 : (0:ℝ) ≤ (tw - (-7.5))^0 * (t - (-75))^1 :=
    mul_nonneg (pow_nonneg u0 0) (pow_nonneg s0 1)
  have hp03 : (0:ℝ) ≤ (tw - (-7.5))^0 * (t - (-75))^3 :=
    mul_nonneg (pow_nonneg u0 0) (pow_nonneg s0 3)
  have hp05 : (0:ℝ) ≤ (tw - (-7.5))^0 * (t - (-75))^5 :=
    mul_nonneg (pow_nonneg u0 0) (pow_nonneg s0 5)
  have hp12 : (0:ℝ) ≤ (tw - (-7.5))^1 * (t - (-75))^2 :=
    mul_nonneg (pow_nonneg u0 1) (pow_nonneg s0 2)
  have hp14 : (0:ℝ) ≤ (tw - (-7.5))^1 * (t - (-75))^4 :=
    mul_nonneg (pow_nonneg u0 1) (pow_nonneg s0 4)
  have hp21 : (0:ℝ) ≤ (tw - (-7.5))^2 * (t - (-75))^1 :=
    mul_nonneg (pow_nonneg u0 2) (pow_nonneg s0 1)
  have hp23 : (0:ℝ) ≤ (tw - (-7.5))^2 * (t - (-75))^3 :=
    mul_nonneg (pow_nonneg u0 2) (pow_nonneg s0 3)
  have hp25 : (0:ℝ) ≤ (tw - (-7.5))^2 * (t - (-75))^5 :=
    mul_nonneg (pow_nonneg u0 2) (pow_nonneg s0 5)
  have hp30 : (0:ℝ) ≤ (tw - (-7.5))^3 * (t - (-75))^0 :=
    mul_nonneg (pow_nonneg u0 3) (pow_nonneg s0 0)
  have hp32 : (0:ℝ) ≤ (tw - (-7.5))^3 * (t - (-75))^2 :=
    mul_nonneg (pow_nonneg u0 3) (pow_nonneg s0 2)
  have hp34 : (0:ℝ) ≤ (tw - (-7.5))^3 * (t - (-75))^4 :=
    mul_nonneg (pow_nonneg u0 3) (pow_nonneg s0 4)
  have hp41 : (0:ℝ) ≤ (tw - (-7.5))^4 * (t - (-75))^1 :=
    mul_nonneg (pow_nonneg u0 4) (pow_nonneg s0 1)
  have hp43 : (0:ℝ) ≤ (tw - (-7.5))^4 * (t - (-75))^3 :=
    mul_nonneg (pow_nonneg u0 4) (pow_nonneg s0 3)
  have hp45 : (0:ℝ) ≤ (tw - (-7.5))^4 * (t - (-75))^5 :=
    mul_nonneg (pow_nonneg u0 4) (pow_nonneg s0 5)
  simp only [dctp6, mac6_0, mac6_1, mac6_2, mac6_3, mac6_4, mac6_5]
  linarith [hm02, hm04, hm10, hm11, hm13, hm15, hm20, hm22, hm24, hm31, hm33, hm35, hm40, hm42, hm44, hp01, hp03, hp05, hp12, hp14, hp21, hp23, hp25, hp30, hp32, hp34, hp41, hp43, hp45]


lemma d6cell_11 (tw t : ℝ) (ha : (-7.5) ≤ tw) (hb : tw ≤ 0)
    (hc : (-67.5) ≤ t) (hd : t ≤ (-60)) : 0 < dctp6 tw t := by
  have u0 : (0:ℝ) ≤ tw - (-7.5) := by linarith
  have uw : tw - (-7.5) ≤ 7.5 := by linarith
  have s0 : (0:ℝ) ≤ t - (-67.5) := by linarith
  have sw : t - (-67.5) ≤ 7.5 := by linarith
  have hm02 : (tw - (-7.5))^0 * (t - (-67.5))^2 ≤ 7.5^0 * 7.5^2 :=
    mul_le_mul (pow_le_pow_left₀ u0 uw 0) (pow_le_pow_left₀ s0 sw 2)
      (pow_nonneg s0 2) (pow_nonneg (by norm_num : (0:ℝ) ≤ 7.5) 0)
  have hm04 : (tw - (-7.5))^0 * (t - (-67.5))^4 ≤ 7.5^0 * 7.5^4 :=
    mul_le_mul (pow_le_pow_left₀ u0 uw 0) (pow_le_pow_left₀ s0 sw 4)
      (pow_nonneg s0 4) (pow_nonneg (by norm_num : (0:ℝ) ≤ 7.5) 0)
  have hm10 : (tw - (-7.5))^1 * (t - (-67.5))^0 ≤ 7.5^1 * 7.5^0 :=
    mul_le_mul (pow_le_pow_left₀ u0 uw 1) (pow_le_pow_left₀ s0 sw 0)
      (pow_nonneg s0 0) (pow_nonneg (by norm_num : (0:ℝ) ≤ 7.5) 1)
  have hm11 : (tw - (-7.5))^1 * (t - (-67.5))^1 ≤ 7.5^1 * 7.5^1 :=
    mul_le_mul (pow_le_pow_left₀ u0 uw 1) (pow_le_pow_left₀ s0 sw 1)
      (pow_nonneg s0 1) (pow_nonneg (by norm_num : (0:ℝ) ≤ 7.5) 1)
  have hm13 : (tw - (-7.5))^1 * (t - (-67.5))^3 ≤ 7.5^1 * 7.5^3 :=
    mul_le_mul (pow_le_pow_left₀ u0 uw 1) (pow_le_pow_left₀ s0 sw 3)
      (pow_nonneg s0 3) (pow_nonneg (by norm_num : (0:ℝ) ≤ 7.5) 1)
  have hm15 : (tw - (-7.5))^1 * (t - (-67.5))^5 ≤ 7.5^1 * 7.5^5 :=
    mul_le_mul (pow_le_pow_left₀ u0 uw 1) (pow_le_pow_left₀ s0 sw 5)
      (pow_nonneg s0 5) (pow_nonneg (by norm_num : (0:ℝ) ≤ 7.5) 1)
  have hm20 : (tw - (-7.5))^2 * (t - (-67.5))^0 ≤ 7.5^2 * 7.5^0 :=
    mul_le_mul (pow_le_pow_left₀ u0 uw 2) (pow_le_pow_left₀ s0 sw 0)
      (pow_nonneg s0 0) (pow_nonneg (by norm_num : (0:ℝ) ≤ 7.5) 2)
  have hm22 : (tw - (-7.5))^2 * (t - (-67.5))^2 ≤ 7.5^2 * 7.5^2 :=
    mul_le_mul (pow_le_pow_left₀ u0 uw 2) (pow_le_pow_left₀ s0 sw 2)
      (pow_nonneg s0 2) (pow_nonneg (by norm_num : (0:ℝ) ≤ 7.5) 2)
  have hm24 : (tw - (-7.5))^2 * (t - (-67.5))^4 ≤ 7.5^2 * 7.5^4 :=
    mul_le_mul (pow_le_pow_left₀ u0 uw 2) (pow_le_pow_left₀ s0 sw 4)
      (pow_nonneg s0 4) (pow_nonneg (by norm_num : (0:ℝ) ≤ 7.5) 2)
  have hm30 : (tw - (-7.5))^3 * (t - (-67.5))^0 ≤ 7.5^3 * 7.5^0 :=
    mul_le_mul (pow_le_pow_left₀ u0 uw 3) (pow_le_pow_left₀ s0 sw 0)
      (pow_nonneg s0 0) (pow_nonneg (by norm_num : (0:ℝ) ≤ 7.5) 3)
  have hm31 : (tw - (-7.5))^3 * (t - (-67.5))^1 ≤ 7.5^3 * 7.5^1 :=
    mul_le_mul (pow_le_pow_left₀ u0 uw 3) (pow_le_pow_left₀ s0 sw 1)
      (pow_nonneg s0 1) (pow_nonneg (by norm_num : (0:ℝ) ≤ 7.5) 3)
  have hm33 : (tw - (-7.5))^3 * (t - (-67.5))^3 ≤ 7.5^3 * 7.5^3 :=
    mul_le_mul (pow_le_pow_left₀ u0 uw 3) (pow_le_pow_left₀ s0 sw 3)
      (pow_nonneg s0 3) (pow_nonneg (by norm_num : (0:ℝ) ≤ 7.5) 3)
  have hm35 : (tw - (-7.5))^3 * (t - (-67.5))^5 ≤ 7.5^3 * 7.5^5 :=
    mul_le_mul (pow_le_pow_left₀ u0 uw 3) (pow_le_pow_left₀ s0 sw 5)
      (pow_nonneg s0 5) (pow_nonneg (by norm_num : (0:ℝ) ≤ 7.5) 3)
  have hm42 : (tw - (-7.5))^4 * (t - (-67.5))^2 ≤ 7.5^4 * 7.5^2 :=
    mul_le_mul (pow_le_pow_left₀ u0 uw 4) (pow_le_pow_left₀ s0 sw 2)
      (pow_nonneg s0 2) (pow_nonneg (by norm_num : (0:ℝ) ≤ 7.5) 4)
  have hm44 : (tw - (-7.5))^4 * (t - (-67.5))^4 ≤ 7.5^4 * 7.5^4 :=
    mul_le_mul (pow_le_pow_left₀ u0 uw 4) (pow_le_pow_left₀ s0 sw 4)
      (pow_nonneg s0 4) (pow_nonneg (by norm_num : (0:ℝ) ≤ 7.5) 4)
  have hp01 : (0:ℝ) ≤ (tw - (-7.5))^0 * (t - (-67.5))^1 :=
    mul_nonneg (pow_nonneg u0 0) (pow_nonneg s0 1)
  have hp03 : (0:ℝ) ≤ (tw - (-7.5))^0 * (t - (-67.5))^3 :=
    mul_nonneg (pow_nonneg u0 0) (pow_nonneg s0 3)
  have hp05 : (0:ℝ) ≤ (tw - (-7.5))^0 * (t - (-67.5))^5 :=
    mul_nonneg (pow_nonneg u0 0) (pow_nonneg s0 5)
  have hp12 : (0:ℝ) ≤ (tw - (-7.5))^1 * (t - (-67.5))^2 :=
    mul_nonneg (pow_nonneg u0 1) (pow_nonneg s0 2)
  have hp14 : (0:ℝ) ≤ (tw - (-7.5))^1 * (t - (-67.5))^4 :=
    mul_nonneg (pow_nonneg u0 1) (pow_nonneg s0 4)
  have hp21 : (0:ℝ) ≤ (tw - (-7.5))^2 * (t - (-67.5))^1 :=
    mul_nonneg (pow_nonneg u0 2) (pow_nonneg s0 1)
  have hp23 : (0:ℝ) ≤ (tw - (-7.5))^2 * (t - (-67.5))^3 :=
    mul_nonneg (pow_nonneg u0 2) (pow_nonneg s0 3)
  have hp25 : (0:ℝ) ≤ (tw - (-7.5))^2 * (t - (-67.5))^5 :=
    mul_nonneg (pow_nonneg u0 2) (pow_nonneg s0 5)
  have hp32 : (0:ℝ) ≤ (tw - (-7.5))^3 * (t - (-67.5))^2 :=
    mul_nonneg (pow_nonneg u0 3) (pow_nonneg s0 2)
  have hp34 : (0:ℝ) ≤ (tw - (-7.5))^3 * (t - (-67.5))^4 :=
    mul_nonneg (pow_nonneg u0 3) (pow_nonneg s0 4)
  have hp40 : (0:ℝ) ≤ (tw - (-7.5))^4 * (t - (-67.5))^0 :=
    mul_nonneg (pow_nonneg u0 4) (pow_nonneg s0 0)
  have hp41 : (0:ℝ) ≤ (tw - (-7.5))^4 * (t - (-67.5))^1 :=
    mul_nonneg (pow_nonneg u0 4) (pow_nonneg s0 1)
  have hp43 : (0:ℝ) ≤ (tw - (-7.5))^4 * (t - (-67.5))^3 :=
    mul_nonneg (pow_nonneg u0 4) (pow_nonneg s0 3)
  have hp45 : (0:ℝ) ≤ (tw - (-7.5))^4 * (t - (-67.5))^5 :=
    mul_nonneg (pow_nonneg u0 4) (pow_nonneg s0 5)
  simp only [dctp6, mac6_0, mac6_1, mac6_2, mac6_3, mac6_4, mac6_5]
  linarith [hm02, hm04, hm10, hm11, hm13, hm15, hm20, hm22, hm24, hm30, hm31, hm33, hm35, hm42, hm44, hp01, hp03, hp05, hp12, hp14, hp21, hp23, hp25, hp32, hp34, hp40, hp41, hp43, hp45]


lemma d6cell_12 (tw t : ℝ) (ha : (-15) ≤ tw) (hb : tw ≤ 0)
    (hc : (-60) ≤ t) (hd : t ≤ (-45)) : 0 < dctp6 tw t := by
  have u0 : (0:ℝ) ≤ tw - (-15) := by linarith
  have uw : tw - (-15) ≤ 15 := by linarith
  have s0 : (0:ℝ) ≤ t - (-60) := by linarith
  have sw : t - (-60) ≤ 15 := by linarith
  have hm02 : (tw - (-15))^0 * (t - (-60))^2 ≤ 15^0 * 15^2 :=
    mul_le_mul (pow_le_pow_left₀ u0 uw 0) (pow_le_pow_left₀ s0 sw 2)
      (pow_nonneg s0 2) (pow_nonneg (by norm_num : (0:ℝ) ≤ 15) 0)
  have hm04 : (tw - (-15))^0 * (t - (-60))^4 ≤ 15^0 * 15^4 :=
    mul_le_mul (pow_le_pow_left₀ u0 uw 0) (pow_le_pow_left₀ s0 sw 4)
      (pow_nonneg s0 4) (pow_nonneg (by norm_num : (0:ℝ) ≤ 15) 0)
  have hm10 : (tw - (-15))^1 * (t - (-60))^0 ≤ 15^1 * 15^0 :=
    mul_le_mul (pow_le_pow_left₀ u0 uw 1) (pow_le_pow_left₀ s0 sw 0)
      (pow_nonneg s0 0) (pow_nonneg (by norm_num : (0:ℝ) ≤ 15) 1)
  have hm11 : (tw - (-15))^1 * (t - (-60))^1 ≤ 15^1 * 15^1 :=
    mul_le_mul (pow_le_pow_left₀ u0 uw 1) (pow_le_pow_left₀ s0 sw 1)
      (pow_nonneg s0 1) (pow_nonneg (by norm_num : (0:ℝ) ≤ 15) 1)
  have hm13 : (tw - (-15))^1 * (t - (-60))^3 ≤ 15^1 * 15^3 :=
    mul_le_mul (pow_le_pow_left₀ u0 uw 1) (pow_le_pow_left₀ s0 sw 3)
      (pow_nonneg s0 3) (pow_nonneg (by norm_num : (0:ℝ) ≤ 15) 1)
  have hm15 : (tw - (-15))^1 * (t - (-60))^5 ≤ 15^1 * 15^5 :=
    mul_le_mul (pow_le_pow_left₀ u0 uw 1) (pow_le_pow_left₀ s0 sw 5)
      (pow_nonneg s0 5) (pow_nonneg (by norm_num : (0:ℝ) ≤ 15) 1)
  have hm22 : (tw - (-15))^2 * (t - (-60))^2 ≤ 15^2 * 15^2 :=
    mul_le_mul (pow_le_pow_left₀ u0 uw 2) (pow_le_pow_left₀ s0 sw 2)
      (pow_nonneg s0 2) (pow_nonneg (by norm_num : (0:ℝ) ≤ 15) 2)
  have hm24 : (tw - (-15))^2 * (t - (-60))^4 ≤ 15^2 * 15^4 :=
    mul_le_mul (pow_le_pow_left₀ u0 uw 2) (pow_le_pow_left₀ s0 sw 4)
      (pow_nonneg s0 4) (pow_nonneg (by norm_num : (0:ℝ) ≤ 15) 2)
  have hm30 : (tw - (-15))^3 * (t - (-60))^0 ≤ 15^3 * 15^0 :=
    mul_le_mul (pow_le_pow_left₀ u0 uw 3) (pow_le_pow_left₀ s0 sw 0)
      (pow_nonneg s0 0) (pow_nonneg (by norm_num : (0:ℝ) ≤ 15) 3)
  have hm31 : (tw - (-15))^3 * (t - (-60))^1 ≤ 15^3 * 15^1 :=
    mul_le_mul (pow_le_pow_left₀ u0 uw 3) (pow_le_pow_left₀ s0 sw 1)
      (pow_nonneg s0 1) (pow_nonneg (by norm_num : (0:ℝ) ≤ 15) 3)
  have hm33 : (tw - (-15))^3 * (t - (-60))^3 ≤ 15^3 * 15^3 :=
    mul_le_mul (pow_le_pow_left₀ u0 uw 3) (pow_le_pow_left₀ s0 sw 3)
      (pow_nonneg s0 3) (pow_nonneg (by norm_num : (0:ℝ) ≤ 15) 3)
  have hm35 : (tw - (-15))^3 * (t - (-60))^5 ≤ 15^3 * 15^5 :=
    mul_le_mul (pow_le_pow_left₀ u0 uw 3) (pow_le_pow_left₀ s0 sw 5)
      (pow_nonneg s0 5) (pow_nonneg (by norm_num : (0:ℝ) ≤ 15) 3)
  have hm42 : (tw - (-15))^4 * (t - (-60))^2 ≤ 15^4 * 15^2 :=
    mul_le_mul (pow_le_pow_left₀ u0 uw 4) (pow_le_pow_left₀ s0 sw 2)
      (pow_nonneg s0 2) (pow_nonneg (by norm_num : (0:ℝ) ≤ 15) 4)
  have hm44 : (tw - (-15))^4 * (t - (-60))^4 ≤ 15^4 * 15^4 :=
    mul_le_mul (pow_le_pow_left₀ u0 uw 4) (pow_le_pow_left₀ s0 sw 4)
      (pow_nonneg s0 4) (pow_nonneg (by norm_num : (0:ℝ) ≤ 15) 4)
  have hp01 : (0:ℝ) ≤ (tw - (-15))^0 * (t - (-60))^1 :=
    mul_nonneg (pow_nonneg u0 0) (pow_nonneg s0 1)
  have hp03 : (0:ℝ) ≤ (tw - (-15))^0 * (t - (-60))^3 :=
    mul_nonneg (pow_nonneg u0 0) (pow_nonneg s0 3)
  have hp05 : (0:ℝ) ≤ (tw - (-15))^0 * (t - (-60))^5 :=
    mul_nonneg (pow_nonneg u0 0) (pow_nonneg s0 5)
  have hp12 : (0:ℝ) ≤ (tw - (-15))^1 * (t - (-60))^2 :=
    mul_nonneg (pow_nonneg u0 1) (pow_nonneg s0 2)
  have hp14 : (0:ℝ) ≤ (tw - (-15))^1 * (t - (-60))^4 :=
    mul_nonneg (pow_nonneg u0 1) (pow_nonneg s0 4)
  have hp20 : (0:ℝ) ≤ (tw - (-15))^2 * (t - (-60))^0 :=
    mul_nonneg (pow_nonneg u0 2) (pow_nonneg s0 0)
  have hp21 : (0:ℝ) ≤ (tw - (-15))^2 * (t - (-60))^1 :=
    mul_nonneg (pow_nonneg u0 2) (pow_nonneg s0 1)
  have hp23 : (0:ℝ) ≤ (tw - (-15))^2 * (t - (-60))^3 :=
    mul_nonneg (pow_nonneg u0 2) (pow_nonneg s0 3)
  have hp25 : (0:ℝ) ≤ (tw - (-15))^2 * (t - (-60))^5 :=
    mul_nonneg (pow_nonneg u0 2) (pow_nonneg s0 5)
  have hp32 : (0:ℝ) ≤ (tw - (-15))^3 * (t - (-60))^2 :=
    mul_nonneg (pow_nonneg u0 3) (pow_nonneg s0 2)
  have hp34 : (0:ℝ) ≤ (tw - (-15))^3 * (t - (-60))^4 :=
    mul_nonneg (pow_nonneg u0 3) (pow_nonneg s0 4)
  have hp40 : (0:ℝ) ≤ (tw - (-15))^4 * (t - (-60))^0 :=
    mul_nonneg (pow_nonneg u0 4) (pow_nonneg s0 0)
  have hp41 : (0:ℝ) ≤ (tw - (-15))^4 * (t - (-60))^1 :=
    mul_nonneg (pow_nonneg u0 4) (pow_nonneg s0 1)
  have hp43 : (0:ℝ) ≤ (tw - (-15))^4 * (t - (-60))^3 :=
    mul_nonneg (pow_nonneg u0 4) (pow_nonneg s0 3)
  have hp45 : (0:ℝ) ≤ (tw - (-15))^4 * (t - (-60))^5 :=
    mul_nonneg (pow_nonneg u0 4) (pow_nonneg s0 5)
  simp only [dctp6, mac6_0, mac6_1, mac6_2, mac6_3, mac6_4, mac6_5]
  linarith [hm02, hm04, hm10, hm11, hm13, hm15, hm22, hm24, hm30, hm31, hm33, hm35, hm42, hm44, hp01, hp03, hp05, hp12, hp14, hp20, hp21, hp23, hp25, hp32, hp34, hp40, hp41, hp43, hp45]


lemma d6cell_13 (tw t : ℝ) (ha : (-30) ≤ tw) (hb : tw ≤ (-15))
    (hc : (-45) ≤ t) (hd : t ≤ (-30)) : 0 < dctp6 tw t := by
  have u0 : (0:ℝ) ≤ tw - (-30) := by linarith
  have uw : tw - (-30) ≤ 15 := by linarith
  have s0 : (0:ℝ) ≤ t - (-45) := by linarith
  have sw : t - (-45) ≤ 15 := by linarith
  have hm04 : (tw - (-30))^0 * (t - (-45))^4 ≤ 15^0 * 15^4 :=
    mul_le_mul (pow_le_pow_left₀ u0 uw 0) (pow_le_pow_left₀ s0 sw 4)
      (pow_nonneg s0 4) (pow_nonneg (by norm_num : (0:ℝ) ≤ 15) 0)
  have hm10 : (tw - (-30))^1 * (t - (-45))^0 ≤ 15^1 * 15^0 :=
    mul_le_mul (pow_le_pow_left₀ u0 uw 1) (pow_le_pow_left₀ s0 sw 0)
      (pow_nonneg s0 0) (pow_nonneg (by norm_num : (0:ℝ) ≤ 15) 1)
  have hm11 : (tw - (-30))^1 * (t - (-45))^1 ≤ 15^1 * 15^1 :=
    mul_le_mul (pow_le_pow_left₀ u0 uw 1) (pow_le_pow_left₀ s0 sw 1)
      (pow_nonneg s0 1) (pow_nonneg (by norm_num : (0:ℝ) ≤ 15) 1)
  have hm12 : (tw - (-30))^1 * (t - (-45))^2 ≤ 15^1 * 15^2 :=
    mul_le_mul (pow_le_pow_left₀ u0 uw 1) (pow_le_pow_left₀ s0 sw 2)
      (pow_nonneg s0 2) (pow_nonneg (by norm_num : (0:ℝ) ≤ 15) 1)
  have hm13 : (tw - (-30))^1 * (t - (-45))^3 ≤ 15^1 * 15^3 :=
    mul_le_mul (pow_le_pow_left₀ u0 uw 1) (pow_le_pow_left₀ s0 sw 3)
      (pow_nonneg s0 3) (pow_nonneg (by norm_num : (0:ℝ) ≤ 15) 1)
  have hm15 : (tw - (-30))^1 * (t - (-45))^5 ≤ 15^1 * 15^5 :=
    mul_le_mul (pow_le_pow_left₀ u0 uw 1) (pow_le_pow_left₀ s0 sw 5)
      (pow_nonneg s0 5) (pow_nonneg (by norm_num : (0:ℝ) ≤ 15) 1)
  have hm21 : (tw - (-30))^2 * (t - (-45))^1 ≤ 15^2 * 15^1 :=
    mul_le_mul (pow_le_pow_left₀ u0 uw 2) (pow_le_pow_left₀ s0 sw 1)
      (pow_nonneg s0 1) (pow_nonneg (by norm_num : (0:ℝ) ≤ 15) 2)
  have hm24 : (tw - (-30))^2 * (t - (-45))^4 ≤ 15^2 * 15^4 :=
    mul_le_mul (pow_le_pow_left₀ u0 uw 2) (pow_le_pow_left₀ s0 sw 4)
      (pow_nonneg s0 4) (pow_nonneg (by norm_num : (0:ℝ) ≤ 15) 2)
  have hm30 : (tw - (-30))^3 * (t - (-45))^0 ≤ 15^3 * 15^0 :=
    mul_le_mul (pow_le_pow_left₀ u0 uw 3) (pow_le_pow_left₀ s0 sw 0)
      (pow_nonneg s0 0) (pow_nonneg (by norm_num : (0:ℝ) ≤ 15) 3)
  have hm32 : (tw - (-30))^3 * (t - (-45))^2 ≤ 15^3 * 15^2 :=
    mul_le_mul (pow_le_pow_left₀ u0 uw 3) (pow_le_pow_left₀ s0 sw 2)
      (pow_nonneg s0 2) (pow_nonneg (by norm_num : (0:ℝ) ≤ 15) 3)
  have hm33 : (tw - (-30))^3 * (t - (-45))^3 ≤ 15^3 * 15^3 :=
    mul_le_mul (pow_le_pow_left₀ u0 uw 3) (pow_le_pow_left₀ s0 sw 3)
      (pow_nonneg s0 3) (pow_nonneg (by norm_num : (0:ℝ) ≤ 15) 3)
  have hm35 : (tw - (-30))^3 * (t - (-45))^5 ≤ 15^3 * 15^5 :=
    mul_le_mul (pow_le_pow_left₀ u0 uw 3) (pow_le_pow_left₀ s0 sw 5)
      (pow_nonneg s0 5) (pow_nonneg (by norm_num : (0:ℝ) ≤ 15) 3)
  have hm44 : (tw - (-30))^4 * (t - (-45))^4 ≤ 15^4 * 15^4 :=
    mul_le_mul (pow_le_pow_left₀ u0 uw 4) (pow_le_pow_left₀ s0 sw 4)
      (pow_nonneg s0 4) (pow_nonneg (by norm_num : (0:ℝ) ≤ 15) 4)
  have hp01 : (0:ℝ) ≤ (tw - (-30))^0 * (t - (-45))^1 :=
    mul_nonneg (pow_nonneg u0 0) (pow_nonneg s0 1)
  have hp02 : (0:ℝ) ≤ (tw - (-30))^0 * (t - (-45))^2 :=
    mul_nonneg (pow_nonneg u0 0) (pow_nonneg s0 2)
  have hp03 : (0:ℝ) ≤ (tw - (-30))^0 * (t - (-45))^3 :=
    mul_nonneg (pow_nonneg u0 0) (pow_nonneg s0 3)
  have hp05 : (0:ℝ) ≤ (tw - (-30))^0 * (t - (-45))^5 :=
    mul_nonneg (pow_nonneg u0 0) (pow_nonneg s0 5)
  have hp14 : (0:ℝ) ≤ (tw - (-30))^1 * (t - (-45))^4 :=
    mul_nonneg (pow_nonneg u0 1) (pow_nonneg s0 4)
  have hp20 : (0:ℝ) ≤ (tw - (-30))^2 * (t - (-45))^0 :=
    mul_nonneg (pow_nonneg u0 2) (pow_nonneg s0 0)
  have hp22 : (0:ℝ) ≤ (tw - (-30))^2 * (t - (-45))^2 :=
    mul_nonneg (pow_nonneg u0 2) (pow_nonneg s0 2)
  have hp23 : (0:ℝ) ≤ (tw - (-30))^2 * (t - (-45))^3 :=
    mul_nonneg (pow_nonneg u0 2) (pow_nonneg s0 3)
  have hp25 : (0:ℝ) ≤ (tw - (-30))^2 * (t - (-45))^5 :=
    mul_nonneg (pow_nonneg u0 2) (pow_nonneg s0 5)
  have hp31 : (0:ℝ) ≤ (tw - (-30))^3 * (t - (-45))^1 :=
    mul_nonneg (pow_nonneg u0 3) (pow_nonneg s0 1)
  have hp34 : (0:ℝ) ≤ (tw - (-30))^3 * (t - (-45))^4 :=
    mul_nonneg (pow_nonneg u0 3) (pow_nonneg s0 4)
  have hp40 : (0:ℝ) ≤ (tw - (-30))^4 * (t - (-45))^0 :=
    mul_nonneg (pow_nonneg u0 4) (pow_nonneg s0 0)
  have hp41 : (0:ℝ) ≤ (tw - (-30))^4 * (t - (-45))^1 :=
    mul_nonneg (pow_nonneg u0 4) (pow_nonneg s0 1)
  have hp42 : (0:ℝ) ≤ (tw - (-30))^4 * (t - (-45))^2 :=
    mul_nonneg (pow_nonneg u0 4) (pow_nonneg s0 2)
  have hp43 : (0:ℝ) ≤ (tw - (-30))^4 * (t - (-45))^3 :=
    mul_nonneg (pow_nonneg u0 4) (pow_nonneg s0 3)
  have hp45 : (0:ℝ) ≤ (tw - (-30))^4 * (t - (-45))^5 :=
    mul_nonneg (pow_nonneg u0 4) (pow_nonneg s0 5)
  simp only [dctp6, mac6_0, mac6_1, mac6_2, mac6_3, mac6_4, mac6_5]
  linarith [hm04, hm10, hm11, hm12, hm13, hm15, hm21, hm24, hm30, hm32, hm33, hm35, hm44, hp01, hp02, hp03, hp05, hp14, hp20, hp22, hp23, hp25, hp31, hp34, hp40, hp41, hp42, hp43, hp45]


lemma d6cell_14 (tw t : ℝ) (ha : (-30) ≤ tw) (hb : tw ≤ (-15))
    (hc : (-30) ≤ t) (hd : t ≤ (-15)) : 0 < dctp6 tw t := by
  have u0 : (0:ℝ) ≤ tw - (-30) := by linarith
  have uw : tw - (-30) ≤ 15 := by linarith
  have s0 : (0:ℝ) ≤ t - (-30) := by linarith
  have sw : t - (-30) ≤ 15 := by linarith
  have hm03 : (tw - (-30))^0 * (t - (-30))^3 ≤ 15^0 * 15^3 :=
    mul_le_mul (pow_le_pow_left₀ u0 uw 0) (pow_le_pow_left₀ s0 sw 3)
      (pow_nonneg s0 3) (pow_nonneg (by norm_num : (0:ℝ) ≤ 15) 0)
  have hm04 : (tw - (-30))^0 * (t - (-30))^4 ≤ 15^0 * 15^4 :=
    mul_le_mul (pow_le_pow_left₀ u0 uw 0) (pow_le_pow_left₀ s0 sw 4)
      (pow_nonneg s0 4) (pow_nonneg (by norm_num : (0:ℝ) ≤ 15) 0)
  have hm10 : (tw - (-30))^1 * (t - (-30))^0 ≤ 15^1 * 15^0 :=
    mul_le_mul (pow_le_pow_left₀ u0 uw 1) (pow_le_pow_left₀ s0 sw 0)
      (pow_nonneg s0 0) (pow_nonneg (by norm_num : (0:ℝ) ≤ 15) 1)
  have hm11 : (tw - (-30))^1 * (t - (-30))^1 ≤ 15^1 * 15^1 :=
    mul_le_mul (pow_le_pow_left₀ u0 uw 1) (pow_le_pow_left₀ s0 sw 1)
      (pow_nonneg s0 1) (pow_nonneg (by norm_num : (0:ℝ) ≤ 15) 1)
  have hm12 : (tw - (-30))^1 * (t - (-30))^2 ≤ 15^1 * 15^2 :=
    mul_le_mul (pow_le_pow_left₀ u0 uw 1) (pow_le_pow_left₀ s0 sw 2)
      (pow_nonneg s0 2) (pow_nonneg (by norm_num : (0:ℝ) ≤ 15) 1)
  have hm15 : (tw - (-30))^1 * (t - (-30))^5 ≤ 15^1 * 15^5 :=
    mul_le_mul (pow_le_pow_left₀ u0 uw 1) (pow_le_pow_left₀ s0 sw 5)
      (pow_nonneg s0 5) (pow_nonneg (by norm_num : (0:ℝ) ≤ 15) 1)
  have hm23 : (tw - (-30))^2 * (t - (-30))^3 ≤ 15^2 * 15^3 :=
    mul_le_mul (pow_le_pow_left₀ u0 uw 2) (pow_le_pow_left₀ s0 sw 3)
      (pow_nonneg s0 3) (pow_nonneg (by norm_num : (0:ℝ) ≤ 15) 2)
  have hm24 : (tw - (-30))^2 * (t - (-30))^4 ≤ 15^2 * 15^4 :=
    mul_le_mul (pow_le_pow_left₀ u0 uw 2) (pow_le_pow_left₀ s0 sw 4)
      (pow_nonneg s0 4) (pow_nonneg (by norm_num : (0:ℝ) ≤ 15) 2)
  have hm30 : (tw - (-30))^3 * (t - (-30))^0 ≤ 15^3 * 15^0 :=
    mul_le_mul (pow_le_pow_left₀ u0 uw 3) (pow_le_pow_left₀ s0 sw 0)
      (pow_nonneg s0 0) (pow_nonneg (by norm_num : (0:ℝ) ≤ 15) 3)
  have hm31 : (tw - (-30))^3 * (t - (-30))^1 ≤ 15^3 * 15^1 :=
    mul_le_mul (pow_le_pow_left₀ u0 uw 3) (pow_le_pow_left₀ s0 sw 1)
      (pow_nonneg s0 1) (pow_nonneg (by norm_num : (0:ℝ) ≤ 15) 3)
  have hm32 : (tw - (-30))^3 * (t - (-30))^2 ≤ 15^3 * 15^2 :=
    mul_le_mul (pow_le_pow_left₀ u0 uw 3) (pow_le_pow_left₀ s0 sw 2)
      (pow_nonneg s0 2) (pow_nonneg (by norm_num : (0:ℝ) ≤ 15) 3)
  have hm35 : (tw - (-30))^3 * (t - (-30))^5 ≤ 15^3 * 15^5 :=
    mul_le_mul (pow_le_pow_left₀ u0 uw 3) (pow_le_pow_left₀ s0 sw 5)
      (pow_nonneg s0 5) (pow_nonneg (by norm_num : (0:ℝ) ≤ 15) 3)
  have hm43 : (tw - (-30))^4 * (t - (-30))^3 ≤ 15^4 * 15^3 :=
    mul_le_mul (pow_le_pow_left₀ u0 uw 4) (pow_le_pow_left₀ s0 sw 3)
      (pow_nonneg s0 3) (pow_nonneg (by norm_num : (0:ℝ) ≤ 15) 4)
  have hm44 : (tw - (-30))^4 * (t - (-30))^4 ≤ 15^4 * 15^4 :=
    mul_le_mul (pow_le_pow_left₀ u0 uw 4) (pow_le_pow_left₀ s0 sw 4)
      (pow_nonneg s0 4) (pow_nonneg (by norm_num : (0:ℝ) ≤ 15) 4)
  have hp01 : (0:ℝ) ≤ (tw - (-30))^0 * (t - (-30))^1 :=
    mul_nonneg (pow_nonneg u0 0) (pow_nonneg s0 1)
  have hp02 : (0:ℝ) ≤ (tw - (-30))^0 * (t - (-30))^2 :=
    mul_nonneg (pow_nonneg u0 0) (pow_nonneg s0 2)
  have hp05 : (0:ℝ) ≤ (tw - (-30))^0 * (t - (-30))^5 :=
    mul_nonneg (pow_nonneg u0 0) (pow_nonneg s0 5)
  have hp13 : (0:ℝ) ≤ (tw - (-30))^1 * (t - (-30))^3 :=
    mul_nonneg (pow_nonneg u0 1) (pow_nonneg s0 3)
  have hp14 : (0:ℝ) ≤ (tw - (-30))^1 * (t - (-30))^4 :=
    mul_nonneg (pow_nonneg u0 1) (pow_nonneg s0 4)
  have hp20 : (0:ℝ) ≤ (tw - (-30))^2 * (t - (-30))^0 :=
    mul_nonneg (pow_nonneg u0 2) (pow_nonneg s0 0)
  have hp21 : (0:ℝ) ≤ (tw - (-30))^2 * (t - (-30))^1 :=
    mul_nonneg (pow_nonneg u0 2) (pow_nonneg s0 1)
  have hp22 : (0:ℝ) ≤ (tw - (-30))^2 * (t - (-30))^2 :=
    mul_nonneg (pow_nonneg u0 2) (pow_nonneg s0 2)
  have hp25 : (0:ℝ) ≤ (tw - (-30))^2 * (t - (-30))^5 :=
    mul_nonneg (pow_nonneg u0 2) (pow_nonneg s0 5)
  have hp33 : (0:ℝ) ≤ (tw - (-30))^3 * (t - (-30))^3 :=
    mul_nonneg (pow_nonneg u0 3) (pow_nonneg s0 3)
  have hp34 : (0:ℝ) ≤ (tw - (-30))^3 * (t - (-30))^4 :=
    mul_nonneg (pow_nonneg u0 3) (pow_nonneg s0 4)
  have hp40 : (0:ℝ) ≤ (tw - (-30))^4 * (t - (-30))^0 :=
    mul_nonneg (pow_nonneg u0 4) (pow_nonneg s0 0)
  have hp41 : (0:ℝ) ≤ (tw - (-30))^4 * (t - (-30))^1 :=
    mul_nonneg (pow_nonneg u0 4) (pow_nonneg s0 1)
  have hp42 : (0:ℝ) ≤ (tw - (-30))^4 * (t - (-30))^2 :=
    mul_nonneg (pow_nonneg u0 4) (pow_nonneg s0 2)
  have hp45 : (0:ℝ) ≤ (tw - (-30))^4 * (t - (-30))^5 :=
    mul_nonneg (pow_nonneg u0 4) (pow_nonneg s0 5)
  simp only [dctp6, mac6_0, mac6_1, mac6_2, mac6_3, mac6_4, mac6_5]
  linarith [hm03, hm04, hm10, hm11, hm12, hm15, hm23, hm24, hm30, hm31, hm32, hm35, hm43, hm44, hp01, hp02, hp05, hp13, hp14, hp20, hp21, hp22, hp25, hp33, hp34, hp40, hp41, hp42, hp45]


lemma d6cell_15 (tw t : ℝ) (ha : (-15) ≤ tw) (hb : tw ≤ 0)
    (hc : (-45) ≤ t) (hd : t ≤ (-30)) : 0 < dctp6 tw t := by
  have u0 : (0:ℝ) ≤ tw - (-15) := by linarith
  have uw : tw - (-15) ≤ 15 := by linarith
  have s0 : (0:ℝ) ≤ t - (-45) := by linarith
  have sw : t - (-45) ≤ 15 := by linarith
  have hm04 : (tw - (-15))^0 * (t - (-45))^4 ≤ 15^0 * 15^4 :=
    mul_le_mul (pow_le_pow_left₀ u0 uw 0) (pow_le_pow_left₀ s0 sw 4)
      (pow_nonneg s0 4) (pow_nonneg (by norm_num : (0:ℝ) ≤ 15) 0)
  have hm10 : (tw - (-15))^1 * (t - (-45))^0 ≤ 15^1 * 15^0 :=
    mul_le_mul (pow_le_pow_left₀ u0 uw 1) (pow_le_pow_left₀ s0 sw 0)
      (pow_nonneg s0 0) (pow_nonneg (by norm_num : (0:ℝ) ≤ 15) 1)
  have hm11 : (tw - (-15))^1 * (t - (-45))^1 ≤ 15^1 * 15^1 :=
    mul_le_mul (pow_le_pow_left₀ u0 uw 1) (pow_le_pow_left₀ s0 sw 1)
      (pow_nonneg s0 1) (pow_nonneg (by norm_num : (0:ℝ) ≤ 15) 1)
  have hm12 : (tw - (-15))^1 * (t - (-45))^2 ≤ 15^1 * 15^2 :=
    mul_le_mul (pow_le_pow_left₀ u0 uw 1) (pow_le_pow_left₀ s0 sw 2)
      (pow_nonneg s0 2) (pow_nonneg (by norm_num : (0:ℝ) ≤ 15) 1)
  have hm13 : (tw - (-15))^1 * (t - (-45))^3 ≤ 15^1 * 15^3 :=
    mul_le_mul (pow_le_pow_left₀ u0 uw 1) (pow_le_pow_left₀ s0 sw 3)
      (pow_nonneg s0 3) (pow_nonneg (by norm_num : (0:ℝ) ≤ 15) 1)
  have hm15 : (tw - (-15))^1 * (t - (-45))^5 ≤ 15^1 * 15^5 :=
    mul_le_mul (pow_le_pow_left₀ u0 uw 1) (pow_le_pow_left₀ s0 sw 5)
      (pow_nonneg s0 5) (pow_nonneg (by norm_num : (0:ℝ) ≤ 15) 1)
  have hm21 : (tw - (-15))^2 * (t - (-45))^1 ≤ 15^2 * 15^1 :=
    mul_le_mul (pow_le_pow_left₀ u0 uw 2) (pow_le_pow_left₀ s0 sw 1)
      (pow_nonneg s0 1) (pow_nonneg (by norm_num : (0:ℝ) ≤ 15) 2)
  have hm24 : (tw - (-15))^2 * (t - (-45))^4 ≤ 15^2 * 15^4 :=
    mul_le_mul (pow_le_pow_left₀ u0 uw 2) (pow_le_pow_left₀ s0 sw 4)
      (pow_nonneg s0 4) (pow_nonneg (by norm_num : (0:ℝ) ≤ 15) 2)
  have hm30 : (tw - (-15))^3 * (t - (-45))^0 ≤ 15^3 * 15^0 :=
    mul_le_mul (pow_le_pow_left₀ u0 uw 3) (pow_le_pow_left₀ s0 sw 0)
      (pow_nonneg s0 0) (pow_nonneg (by norm_num : (0:ℝ) ≤ 15) 3)
  have hm32 : (tw - (-15))^3 * (t - (-45))^2 ≤ 15^3 * 15^2 :=
    mul_le_mul (pow_le_pow_left₀ u0 uw 3) (pow_le_pow_left₀ s0 sw 2)
      (pow_nonneg s0 2) (pow_nonneg (by norm_num : (0:ℝ) ≤ 15) 3)
  have hm33 : (tw - (-15))^3 * (t - (-45))^3 ≤ 15^3 * 15^3 :=
    mul_le_mul (pow_le_pow_left₀ u0 uw 3) (pow_le_pow_left₀ s0 sw 3)
      (pow_nonneg s0 3) (pow_nonneg (by norm_num : (0:ℝ) ≤ 15) 3)
  have hm35 : (tw - (-15))^3 * (t - (-45))^5 ≤ 15^3 * 15^5 :=
    mul_le_mul (pow_le_pow_left₀ u0 uw 3) (pow_le_pow_left₀ s0 sw 5)
      (pow_nonneg s0 5) (pow_nonneg (by norm_num : (0:ℝ) ≤ 15) 3)
  have hm44 : (tw - (-15))^4 * (t - (-45))^4 ≤ 15^4 * 15^4 :=
    mul_le_mul (pow_le_pow_left₀ u0 uw 4) (pow_le_pow_left₀ s0 sw 4)
      (pow_nonneg s0 4) (pow_nonneg (by norm_num : (0:ℝ) ≤ 15) 4)
  have hp01 : (0:ℝ) ≤ (tw - (-15))^0 * (t - (-45))^1 :=
    mul_nonneg (pow_nonneg u0 0) (pow_nonneg s0 1)
  have hp02 : (0:ℝ) ≤ (tw - (-15))^0 * (t - (-45))^2 :=
    mul_nonneg (pow_nonneg u0 0) (pow_nonneg s0 2)
  have hp03 : (0:ℝ) ≤ (tw - (-15))^0 * (t - (-45))^3 :=
    mul_nonneg (pow_nonneg u0 0) (pow_nonneg s0 3)
  have hp05 : (0:ℝ) ≤ (tw - (-15))^0 * (t - (-45))^5 :=
    mul_nonneg (pow_nonneg u0 0) (pow_nonneg s0 5)
  have hp14 : (0:ℝ) ≤ (tw - (-15))^1 * (t - (-45))^4 :=
    mul_nonneg (pow_nonneg u0 1) (pow_nonneg s0 4)
  have hp20 : (0:ℝ) ≤ (tw - (-15))^2 * (t - (-45))^0 :=
    mul_nonneg (pow_nonneg u0 2) (pow_nonneg s0 0)
  have hp22 : (0:ℝ) ≤ (tw - (-15))^2 * (t - (-45))^2 :=
    mul_nonneg (pow_nonneg u0 2) (pow_nonneg s0 2)
  have hp23 : (0:ℝ) ≤ (tw - (-15))^2 * (t - (-45))^3 :=
    mul_nonneg (pow_nonneg u0 2) (pow_nonneg s0 3)
  have hp25 : (0:ℝ) ≤ (tw - (-15))^2 * (t - (-45))^5 :=
    mul_nonneg (pow_nonneg u0 2) (pow_nonneg s0 5)
  have hp31 : (0:ℝ) ≤ (tw - (-15))^3 * (t - (-45))^1 :=
    mul_nonneg (pow_nonneg u0 3) (pow_nonneg s0 1)
  have hp34 : (0:ℝ) ≤ (tw - (-15))^3 * (t - (-45))^4 :=
    mul_nonneg (pow_nonneg u0 3) (pow_nonneg s0 4)
  have hp40 : (0:ℝ) ≤ (tw - (-15))^4 * (t - (-45))^0 :=
    mul_nonneg (pow_nonneg u0 4) (pow_nonneg s0 0)
  have hp41 : (0:ℝ) ≤ (tw - (-15))^4 * (t - (-45))^1 :=
    mul_nonneg (pow_nonneg u0 4) (pow_nonneg s0 1)
  have hp42 : (0:ℝ) ≤ (tw - (-15))^4 * (t - (-45))^2 :=
    mul_nonneg (pow_nonneg u0 4) (pow_nonneg s0 2)
  have hp43 : (0:ℝ) ≤ (tw - (-15))^4 * (t - (-45))^3 :=
    mul_nonneg (pow_nonneg u0 4) (pow_nonneg s0 3)
  have hp45 : (0:ℝ) ≤ (tw - (-15))^4 * (t - (-45))^5 :=
    mul_nonneg (pow_nonneg u0 4) (pow_nonneg s0 5)
  simp only [dctp6, mac6_0, mac6_1, mac6_2, mac6_3, mac6_4, mac6_5]
  linarith [hm04, hm10, hm11, hm12, hm13, hm15, hm21, hm24, hm30, hm32, hm33, hm35, hm44, hp01, hp02, hp03, hp05, hp14, hp20, hp22, hp23, hp25, hp31, hp34, hp40, hp41, hp42, hp43, hp45]


lemma d6cell_16 (tw t : ℝ) (ha : (-15) ≤ tw) (hb : tw ≤ 0)
    (hc : (-30) ≤ t) (hd : t ≤ (-15)) : 0 < dctp6 tw t := by
  have u0 : (0:ℝ) ≤ tw - (-15) := by linarith
  have uw : tw - (-15) ≤ 15 := by linarith
  have s0 : (0:ℝ) ≤ t - (-30) := by linarith
  have sw : t - (-30) ≤ 15 := by linarith
  have hm04 : (tw - (-15))^0 * (t - (-30))^4 ≤ 15^0 * 15^4 :=
    mul_le_mul (pow_le_pow_left₀ u0 uw 0) (pow_le_pow_left₀ s0 sw 4)
      (pow_nonneg s0 4) (pow_nonneg (by norm_num : (0:ℝ) ≤ 15) 0)
  have hm10 : (tw - (-15))^1 * (t - (-30))^0 ≤ 15^1 * 15^0 :=
    mul_le_mul (pow_le_pow_left₀ u0 uw 1) (pow_le_pow_left₀ s0 sw 0)
      (pow_nonneg s0 0) (pow_nonneg (by norm_num : (0:ℝ) ≤ 15) 1)
  have hm11 : (tw - (-15))^1 * (t - (-30))^1 ≤ 15^1 * 15^1 :=
    mul_le_mul (pow_le_pow_left₀ u0 uw 1) (pow_le_pow_left₀ s0 sw 1)
      (pow_nonneg s0 1) (pow_nonneg (by norm_num : (0:ℝ) ≤ 15) 1)
  have hm12 : (tw - (-15))^1 * (t - (-30))^2 ≤ 15^1 * 15^2 :=
    mul_le_mul (pow_le_pow_left₀ u0 uw 1) (pow_le_pow_left₀ s0 sw 2)
      (pow_nonneg s0 2) (pow_nonneg (by norm_num : (0:ℝ) ≤ 15) 1)
  have hm15 : (tw - (-15))^1 * (t - (-30))^5 ≤ 15^1 * 15^5 :=
    mul_le_mul (pow_le_pow_left₀ u0 uw 1) (pow_le_pow_left₀ s0 sw 5)
      (pow_nonneg s0 5) (pow_nonneg (by norm_num : (0:ℝ) ≤ 15) 1)
  have hm23 : (tw - (-15))^2 * (t - (-30))^3 ≤ 15^2 * 15^3 :=
    mul_le_mul (pow_le_pow_left₀ u0 uw 2) (pow_le_pow_left₀ s0 sw 3)
      (pow_nonneg s0 3) (pow_nonneg (by norm_num : (0:ℝ) ≤ 15) 2)
  have hm24 : (tw - (-15))^2 * (t - (-30))^4 ≤ 15^2 * 15^4 :=
    mul_le_mul (pow_le_pow_left₀ u0 uw 2) (pow_le_pow_left₀ s0 sw 4)
      (pow_nonneg s0 4) (pow_nonneg (by norm_num : (0:ℝ) ≤ 15) 2)
  have hm30 : (tw - (-15))^3 * (t - (-30))^0 ≤ 15^3 * 15^0 :=
    mul_le_mul (pow_le_pow_left₀ u0 uw 3) (pow_le_pow_left₀ s0 sw 0)
      (pow_nonneg s0 0) (pow_nonneg (by norm_num : (0:ℝ) ≤ 15) 3)
  have hm31 : (tw - (-15))^3 * (t - (-30))^1 ≤ 15^3 * 15^1 :=
    mul_le_mul (pow_le_pow_left₀ u0 uw 3) (pow_le_pow_left₀ s0 sw 1)
      (pow_nonneg s0 1) (pow_nonneg (by norm_num : (0:ℝ) ≤ 15) 3)
  have hm32 : (tw - (-15))^3 * (t - (-30))^2 ≤ 15^3 * 15^2 :=
    mul_le_mul (pow_le_pow_left₀ u0 uw 3) (pow_le_pow_left₀ s0 sw 2)
      (pow_nonneg s0 2) (pow_nonneg (by norm_num : (0:ℝ) ≤ 15) 3)
  have hm35 : (tw - (-15))^3 * (t - (-30))^5 ≤ 15^3 * 15^5 :=
    mul_le_mul (pow_le_pow_left₀ u0 uw 3) (pow_le_pow_left₀ s0 sw 5)
      (pow_nonneg s0 5) (pow_nonneg (by norm_num : (0:ℝ) ≤ 15) 3)
  have hm43 : (tw - (-15))^4 * (t - (-30))^3 ≤ 15^4 * 15^3 :=
    mul_le_mul (pow_le_pow_left₀ u0 uw 4) (pow_le_pow_left₀ s0 sw 3)
      (pow_nonneg s0 3) (pow_nonneg (by norm_num : (0:ℝ) ≤ 15) 4)
  have hm44 : (tw - (-15))^4 * (t - (-30))^4 ≤ 15^4 * 15^4 :=
    mul_le_mul (pow_le_pow_left₀ u0 uw 4) (pow_le_pow_left₀ s0 sw 4)
      (pow_nonneg s0 4) (pow_nonneg (by norm_num : (0:ℝ) ≤ 15) 4)
  have hp01 : (0:ℝ) ≤ (tw - (-15))^0 * (t - (-30))^1 :=
    mul_nonneg (pow_nonneg u0 0) (pow_nonneg s0 1)
  have hp02 : (0:ℝ) ≤ (tw - (-15))^0 * (t - (-30))^2 :=
    mul_nonneg (pow_nonneg u0 0) (pow_nonneg s0 2)
  have hp03 : (0:ℝ) ≤ (tw - (-15))^0 * (t - (-30))^3 :=
    mul_nonneg (pow_nonneg u0 0) (pow_nonneg s0 3)
  have hp05 : (0:ℝ) ≤ (tw - (-15))^0 * (t - (-30))^5 :=
    mul_nonneg (pow_nonneg u0 0) (pow_nonneg s0 5)
  have hp13 : (0:ℝ) ≤ (tw - (-15))^1 * (t - (-30))^3 :=
    mul_nonneg (pow_nonneg u0 1) (pow_nonneg s0 3)
  have hp14 : (0:ℝ) ≤ (tw - (-15))^1 * (t - (-30))^4 :=
    mul_nonneg (pow_nonneg u0 1) (pow_nonneg s0 4)
  have hp20 : (0:ℝ) ≤ (tw - (-15))^2 * (t - (-30))^0 :=
    mul_nonneg (pow_nonneg u0 2) (pow_nonneg s0 0)
  have hp21 : (0:ℝ) ≤ (tw - (-15))^2 * (t - (-30))^1 :=
    mul_nonneg (pow_nonneg u0 2) (pow_nonneg s0 1)
  have hp22 : (0:ℝ) ≤ (tw - (-15))^2 * (t - (-30))^2 :=
    mul_nonneg (pow_nonneg u0 2) (pow_nonneg s0 2)
  have hp25 : (0:ℝ) ≤ (tw - (-15))^2 * (t - (-30))^5 :=
    mul_nonneg (pow_nonneg u0 2) (pow_nonneg s0 5)
  have hp33 : (0:ℝ) ≤ (tw - (-15))^3 * (t - (-30))^3 :=
    mul_nonneg (pow_nonneg u0 3) (pow_nonneg s0 3)
  have hp34 : (0:ℝ) ≤ (tw - (-15))^3 * (t - (-30))^4 :=
    mul_nonneg (pow_nonneg u0 3) (pow_nonneg s0 4)
  have hp40 : (0:ℝ) ≤ (tw - (-15))^4 * (t - (-30))^0 :=
    mul_nonneg (pow_nonneg u0 4) (pow_nonneg s0 0)
  have hp41 : (0:ℝ) ≤ (tw - (-15))^4 * (t - (-30))^1 :=
    mul_nonneg (pow_nonneg u0 4) (pow_nonneg s0 1)
  have hp42 : (0:ℝ) ≤ (tw - (-15))^4 * (t - (-30))^2 :=
    mul_nonneg (pow_nonneg u0 4) (pow_nonneg s0 2)
  have hp45 : (0:ℝ) ≤ (tw - (-15))^4 * (t - (-30))^5 :=
    mul_nonneg (pow_nonneg u0 4) (pow_nonneg s0 5)
  simp only [dctp6, mac6_0, mac6_1, mac6_2, mac6_3, mac6_4, mac6_5]
  linarith [hm04, hm10, hm11, hm12, hm15, hm23, hm24, hm30, hm31, hm32, hm35, hm43, hm44, hp01, hp02, hp03, hp05, hp13, hp14, hp20, hp21, hp22, hp25, hp33, hp34, hp40, hp41, hp42, hp45]


lemma d6cell_17 (tw t : ℝ) (ha : 0 ≤ tw) (hb : tw ≤ 15)
    (hc : (-75) ≤ t) (hd : t ≤ (-60)) : 0 < dctp6 tw t := by
  have u0 : (0:ℝ) ≤ tw - 0 := by linarith
  have uw : tw - 0 ≤ 15 := by linarith
  have s0 : (0:ℝ) ≤ t - (-75) := by linarith
  have sw : t - (-75) ≤ 15 := by linarith
  have hm10 : (tw - 0)^1 * (t - (-75))^0 ≤ 15^1 * 15^0 :=
    mul_le_mul (pow_le_pow_left₀ u0 uw 1) (pow_le_pow_left₀ s0 sw 0)
      (pow_nonneg s0 0) (pow_nonneg (by norm_num : (0:ℝ) ≤ 15) 1)
  have hm11 : (tw - 0)^1 * (t - (-75))^1 ≤ 15^1 * 15^1 :=
    mul_le_mul (pow_le_pow_left₀ u0 uw 1) (pow_le_pow_left₀ s0 sw 1)
      (pow_nonneg s0 1) (pow_nonneg (by norm_num : (0:ℝ) ≤ 15) 1)
  have hm13 : (tw - 0)^1 * (t - (-75))^3 ≤ 15^1 * 15^3 :=
    mul_le_mul (pow_le_pow_left₀ u0 uw 1) (pow_le_pow_left₀ s0 sw 3)
      (pow_nonneg s0 3) (pow_nonneg (by norm_num : (0:ℝ) ≤ 15) 1)
  have hm20 : (tw - 0)^2 * (t - (-75))^0 ≤ 15^2 * 15^0 :=
    mul_le_mul (pow_le_pow_left₀ u0 uw 2) (pow_le_pow_left₀ s0 sw 0)
      (pow_nonneg s0 0) (pow_nonneg (by norm_num : (0:ℝ) ≤ 15) 2)
  have hm22 : (tw - 0)^2 * (t - (-75))^2 ≤ 15^2 * 15^2 :=
    mul_le_mul (pow_le_pow_left₀ u0 uw 2) (pow_le_pow_left₀ s0 sw 2)
      (pow_nonneg s0 2) (pow_nonneg (by norm_num : (0:ℝ) ≤ 15) 2)
  have hm24 : (tw - 0)^2 * (t - (-75))^4 ≤ 15^2 * 15^4 :=
    mul_le_mul (pow_le_pow_left₀ u0 uw 2) (pow_le_pow_left₀ s0 sw 4)
      (pow_nonneg s0 4) (pow_nonneg (by norm_num : (0:ℝ) ≤ 15) 2)
  have hm31 : (tw - 0)^3 * (t - (-75))^1 ≤ 15^3 * 15^1 :=
    mul_le_mul (pow_le_pow_left₀ u0 uw 3) (pow_le_pow_left₀ s0 sw 1)
      (pow_nonneg s0 1) (pow_nonneg (by norm_num : (0:ℝ) ≤ 15) 3)
  have hm33 : (tw - 0)^3 * (t - (-75))^3 ≤ 15^3 * 15^3 :=
    mul_le_mul (pow_le_pow_left₀ u0 uw 3) (pow_le_pow_left₀ s0 sw 3)
      (pow_nonneg s0 3) (pow_nonneg (by norm_num : (0:ℝ) ≤ 15) 3)
  have hm35 : (tw - 0)^3 * (t - (-75))^5 ≤ 15^3 * 15^5 :=
    mul_le_mul (pow_le_pow_left₀ u0 uw 3) (pow_le_pow_left₀ s0 sw 5)
      (pow_nonneg s0 5) (pow_nonneg (by norm_num : (0:ℝ) ≤ 15) 3)
  have hm40 : (tw - 0)^4 * (t - (-75))^0 ≤ 15^4 * 15^0 :=
    mul_le_mul (pow_le_pow_left₀ u0 uw 4) (pow_le_pow_left₀ s0 sw 0)
      (pow_nonneg s0 0) (pow_nonneg (by norm_num : (0:ℝ) ≤ 15) 4)
  have hm42 : (tw - 0)^4 * (t - (-75))^2 ≤ 15^4 * 15^2 :=
    mul_le_mul (pow_le_pow_left₀ u0 uw 4) (pow_le_pow_left₀ s0 sw 2)
      (pow_nonneg s0 2) (pow_nonneg (by norm_num : (0:ℝ) ≤ 15) 4)
  have hm44 : (tw - 0)^4 * (t - (-75))^4 ≤ 15^4 * 15^4 :=
    mul_le_mul (pow_le_pow_left₀ u0 uw 4) (pow_le_pow_left₀ s0 sw 4)
      (pow_nonneg s0 4) (pow_nonneg (by norm_num : (0:ℝ) ≤ 15) 4)
  have hp01 : (0:ℝ) ≤ (tw - 0)^0 * (t - (-75))^1 :=
    mul_nonneg (pow_nonneg u0 0) (pow_nonneg s0 1)
  have hp02 : (0:ℝ) ≤ (tw - 0)^0 * (t - (-75))^2 :=
    mul_nonneg (pow_nonneg u0 0) (pow_nonneg s0 2)
  have hp03 : (0:ℝ) ≤ (tw - 0)^0 * (t - (-75))^3 :=
    mul_nonneg (pow_nonneg u0 0) (pow_nonneg s0 3)
  have hp04 : (0:ℝ) ≤ (tw - 0)^0 * (t - (-75))^4 :=
    mul_nonneg (pow_nonneg u0 0) (pow_nonneg s0 4)
  have hp05 : (0:ℝ) ≤ (tw - 0)^0 * (t - (-75))^5 :=
    mul_nonneg (pow_nonneg u0 0) (pow_nonneg s0 5)
  have hp12 : (0:ℝ) ≤ (tw - 0)^1 * (t - (-75))^2 :=
    mul_nonneg (pow_nonneg u0 1) (pow_nonneg s0 2)
  have hp14 : (0:ℝ) ≤ (tw - 0)^1 * (t - (-75))^4 :=
    mul_nonneg (pow_nonneg u0 1) (pow_nonneg s0 4)
  have hp15 : (0:ℝ) ≤ (tw - 0)^1 * (t - (-75))^5 :=
    mul_nonneg (pow_nonneg u0 1) (pow_nonneg s0 5)
  have hp21 : (0:ℝ) ≤ (tw - 0)^2 * (t - (-75))^1 :=
    mul_nonneg (pow_nonneg u0 2) (pow_nonneg s0 1)
  have hp23 : (0:ℝ) ≤ (tw - 0)^2 * (t - (-75))^3 :=
    mul_nonneg (pow_nonneg u0 2) (pow_nonneg s0 3)
  have hp25 : (0:ℝ) ≤ (tw - 0)^2 * (t - (-75))^5 :=
    mul_nonneg (pow_nonneg u0 2) (pow_nonneg s0 5)
  have hp30 : (0:ℝ) ≤ (tw - 0)^3 * (t - (-75))^0 :=
    mul_nonneg (pow_nonneg u0 3) (pow_nonneg s0 0)
  have hp32 : (0:ℝ) ≤ (tw - 0)^3 * (t - (-75))^2 :=
    mul_nonneg (pow_nonneg u0 3) (pow_nonneg s0 2)
  have hp34 : (0:ℝ) ≤ (tw - 0)^3 * (t - (-75))^4 :=
    mul_nonneg (pow_nonneg u0 3) (pow_nonneg s0 4)
  have hp41 : (0:ℝ) ≤ (tw - 0)^4 * (t - (-75))^1 :=
    mul_nonneg (pow_nonneg u0 4) (pow_nonneg s0 1)
  have hp43 : (0:ℝ) ≤ (tw - 0)^4 * (t - (-75))^3 :=
    mul_nonneg (pow_nonneg u0 4) (pow_nonneg s0 3)
  have hp45 : (0:ℝ) ≤ (tw - 0)^4 * (t - (-75))^5 :=
    mul_nonneg (pow_nonneg u0 4) (pow_nonneg s0 5)
  simp only [dctp6, mac6_0, mac6_1, mac6_2, mac6_3, mac6_4, mac6_5]
  linarith [hm10, hm11, hm13, hm20, hm22, hm24, hm31, hm33, hm35, hm40, hm42, hm44, hp01, hp02, hp03, hp04, hp05, hp12, hp14, hp15, hp21, hp23, hp25, hp30, hp32, hp34, hp41, hp43, hp45]


lemma d6cell_18 (tw t : ℝ) (ha : 0 ≤ tw) (hb : tw ≤ 15)
    (hc : (-60) ≤ t) (hd : t ≤ (-45)) : 0 < dctp6 tw t := by
  have u0 : (0:ℝ) ≤ tw - 0 := by linarith
  have uw : tw - 0 ≤ 15 := by linarith
  have s0 : (0:ℝ) ≤ t - (-60) := by linarith
  have sw : t - (-60) ≤ 15 := by linarith
  have hm10 : (tw - 0)^1 * (t - (-60))^0 ≤ 15^1 * 15^0 :=
    mul_le_mul (pow_le_pow_left₀ u0 uw 1) (pow_le_pow_left₀ s0 sw 0)
      (pow_nonneg s0 0) (pow_nonneg (by norm_num : (0:ℝ) ≤ 15) 1)
  have hm11 : (tw - 0)^1 * (t - (-60))^1 ≤ 15^1 * 15^1 :=
    mul_le_mul (pow_le_pow_left₀ u0 uw 1) (pow_le_pow_left₀ s0 sw 1)
      (pow_nonneg s0 1) (pow_nonneg (by norm_num : (0:ℝ) ≤ 15) 1)
  have hm13 : (tw - 0)^1 * (t - (-60))^3 ≤ 15^1 * 15^3 :=
    mul_le_mul (pow_le_pow_left₀ u0 uw 1) (pow_le_pow_left₀ s0 sw 3)
      (pow_nonneg s0 3) (pow_nonneg (by norm_num : (0:ℝ) ≤ 15) 1)
  have hm20 : (tw - 0)^2 * (t - (-60))^0 ≤ 15^2 * 15^0 :=
    mul_le_mul (pow_le_pow_left₀ u0 uw 2) (pow_le_pow_left₀ s0 sw 0)
      (pow_nonneg s0 0) (pow_nonneg (by norm_num : (0:ℝ) ≤ 15) 2)
  have hm21 : (tw - 0)^2 * (t - (-60))^1 ≤ 15^2 * 15^1 :=
    mul_le_mul (pow_le_pow_left₀ u0 uw 2) (pow_le_pow_left₀ s0 sw 1)
      (pow_nonneg s0 1) (pow_nonneg (by norm_num : (0:ℝ) ≤ 15) 2)
  have hm22 : (tw - 0)^2 * (t - (-60))^2 ≤ 15^2 * 15^2 :=
    mul_le_mul (pow_le_pow_left₀ u0 uw 2) (pow_le_pow_left₀ s0 sw 2)
      (pow_nonneg s0 2) (pow_nonneg (by norm_num : (0:ℝ) ≤ 15) 2)
  have hm24 : (tw - 0)^2 * (t - (-60))^4 ≤ 15^2 * 15^4 :=
    mul_le_mul (pow_le_pow_left₀ u0 uw 2) (pow_le_pow_left₀ s0 sw 4)
      (pow_nonneg s0 4) (pow_nonneg (by norm_num : (0:ℝ) ≤ 15) 2)
  have hm30 : (tw - 0)^3 * (t - (-60))^0 ≤ 15^3 * 15^0 :=
    mul_le_mul (pow_le_pow_left₀ u0 uw 3) (pow_le_pow_left₀ s0 sw 0)
      (pow_nonneg s0 0) (pow_nonneg (by norm_num : (0:ℝ) ≤ 15) 3)
  have hm31 : (tw - 0)^3 * (t - (-60))^1 ≤ 15^3 * 15^1 :=
    mul_le_mul (pow_le_pow_left₀ u0 uw 3) (pow_le_pow_left₀ s0 sw 1)
      (pow_nonneg s0 1) (pow_nonneg (by norm_num : (0:ℝ) ≤ 15) 3)
  have hm33 : (tw - 0)^3 * (t - (-60))^3 ≤ 15^3 * 15^3 :=
    mul_le_mul (pow_le_pow_left₀ u0 uw 3) (pow_le_pow_left₀ s0 sw 3)
      (pow_nonneg s0 3) (pow_nonneg (by norm_num : (0:ℝ) ≤ 15) 3)
  have hm35 : (tw - 0)^3 * (t - (-60))^5 ≤ 15^3 * 15^5 :=
    mul_le_mul (pow_le_pow_left₀ u0 uw 3) (pow_le_pow_left₀ s0 sw 5)
      (pow_nonneg s0 5) (pow_nonneg (by norm_num : (0:ℝ) ≤ 15) 3)
  have hm42 : (tw - 0)^4 * (t - (-60))^2 ≤ 15^4 * 15^2 :=
    mul_le_mul (pow_le_pow_left₀ u0 uw 4) (pow_le_pow_left₀ s0 sw 2)
      (pow_nonneg s0 2) (pow_nonneg (by norm_num : (0:ℝ) ≤ 15) 4)
  have hm44 : (tw - 0)^4 * (t - (-60))^4 ≤ 15^4 * 15^4 :=
    mul_le_mul (pow_le_pow_left₀ u0 uw 4) (pow_le_pow_left₀ s0 sw 4)
      (pow_nonneg s0 4) (pow_nonneg (by norm_num : (0:ℝ) ≤ 15) 4)
  have hp01 : (0:ℝ) ≤ (tw - 0)^0 * (t - (-60))^1 :=
    mul_nonneg (pow_nonneg u0 0) (pow_nonneg s0 1)
  have hp02 : (0:ℝ) ≤ (tw - 0)^0 * (t - (-60))^2 :=
    mul_nonneg (pow_nonneg u0 0) (pow_nonneg s0 2)
  have hp03 : (0:ℝ) ≤ (tw - 0)^0 * (t - (-60))^3 :=
    mul_nonneg (pow_nonneg u0 0) (pow_nonneg s0 3)
  have hp04 : (0:ℝ) ≤ (tw - 0)^0 * (t - (-60))^4 :=
    mul_nonneg (pow_nonneg u0 0) (pow_nonneg s0 4)
  have hp05 : (0:ℝ) ≤ (tw - 0)^0 * (t - (-60))^5 :=
    mul_nonneg (pow_nonneg u0 0) (pow_nonneg s0 5)
  have hp12 : (0:ℝ) ≤ (tw - 0)^1 * (t - (-60))^2 :=
    mul_nonneg (pow_nonneg u0 1) (pow_nonneg s0 2)
  have hp14 : (0:ℝ) ≤ (tw - 0)^1 * (t - (-60))^4 :=
    mul_nonneg (pow_nonneg u0 1) (pow_nonneg s0 4)
  have hp15 : (0:ℝ) ≤ (tw - 0)^1 * (t - (-60))^5 :=
    mul_nonneg (pow_nonneg u0 1) (pow_nonneg s0 5)
  have hp23 : (0:ℝ) ≤ (tw - 0)^2 * (t - (-60))^3 :=
    mul_nonneg (pow_nonneg u0 2) (pow_nonneg s0 3)
  have hp25 : (0:ℝ) ≤ (tw - 0)^2 * (t - (-60))^5 :=
    mul_nonneg (pow_nonneg u0 2) (pow_nonneg s0 5)
  have hp32 : (0:ℝ) ≤ (tw - 0)^3 * (t - (-60))^2 :=
    mul_nonneg (pow_nonneg u0 3) (pow_nonneg s0 2)
  have hp34 : (0:ℝ) ≤ (tw - 0)^3 * (t - (-60))^4 :=
    mul_nonneg (pow_nonneg u0 3) (pow_nonneg s0 4)
  have hp40 : (0:ℝ) ≤ (tw - 0)^4 * (t - (-60))^0 :=
    mul_nonneg (pow_nonneg u0 4) (pow_nonneg s0 0)
  have hp41 : (0:ℝ) ≤ (tw - 0)^4 * (t - (-60))^1 :=
    mul_nonneg (pow_nonneg u0 4) (pow_nonneg s0 1)
  have hp43 : (0:ℝ) ≤ (tw - 0)^4 * (t - (-60))^3 :=
    mul_nonneg (pow_nonneg u0 4) (pow_nonneg s0 3)
  have hp45 : (0:ℝ) ≤ (tw - 0)^4 * (t - (-60))^5 :=
    mul_nonneg (pow_nonneg u0 4) (pow_nonneg s0 5)
  simp only [dctp6, mac6_0, mac6_1, mac6_2, mac6_3, mac6_4, mac6_5]
  linarith [hm10, hm11, hm13, hm20, hm21, hm22, hm24, hm30, hm31, hm33, hm35, hm42, hm44, hp01, hp02, hp03, hp04, hp05, hp12, hp14, hp15, hp23, hp25, hp32, hp34, hp40, hp41, hp43, hp45]


lemma d6cell_19 (tw t : ℝ) (ha : 15 ≤ tw) (hb : tw ≤ 30)
    (hc : (-75) ≤ t) (hd : t ≤ (-60)) : 0 < dctp6 tw t := by
  have u0 : (0:ℝ) ≤ tw - 15 := by linarith
  have uw : tw - 15 ≤ 15 := by linarith
  have s0 : (0:ℝ) ≤ t - (-75) := by linarith
  have sw : t - (-75) ≤ 15 := by linarith
  have hm10 : (tw - 15)^1 * (t - (-75))^0 ≤ 15^1 * 15^0 :=
    mul_le_mul (pow_le_pow_left₀ u0 uw 1) (pow_le_pow_left₀ s0 sw 0)
      (pow_nonneg s0 0) (pow_nonneg (by norm_num : (0:ℝ) ≤ 15) 1)
  have hm11 : (tw - 15)^1 * (t - (-75))^1 ≤ 15^1 * 15^1 :=
    mul_le_mul (pow_le_pow_left₀ u0 uw 1) (pow_le_pow_left₀ s0 sw 1)
      (pow_nonneg s0 1) (pow_nonneg (by norm_num : (0:ℝ) ≤ 15) 1)
  have hm12 : (tw - 15)^1 * (t - (-75))^2 ≤ 15^1 * 15^2 :=
    mul_le_mul (pow_le_pow_left₀ u0 uw 1) (pow_le_pow_left₀ s0 sw 2)
      (pow_nonneg s0 2) (pow_nonneg (by norm_num : (0:ℝ) ≤ 15) 1)
  have hm15 : (tw - 15)^1 * (t - (-75))^5 ≤ 15^1 * 15^5 :=
    mul_le_mul (pow_le_pow_left₀ u0 uw 1) (pow_le_pow_left₀ s0 sw 5)
      (pow_nonneg s0 5) (pow_nonneg (by norm_num : (0:ℝ) ≤ 15) 1)
  have hm21 : (tw - 15)^2 * (t - (-75))^1 ≤ 15^2 * 15^1 :=
    mul_le_mul (pow_le_pow_left₀ u0 uw 2) (pow_le_pow_left₀ s0 sw 1)
      (pow_nonneg s0 1) (pow_nonneg (by norm_num : (0:ℝ) ≤ 15) 2)
  have hm23 : (tw - 15)^2 * (t - (-75))^3 ≤ 15^2 * 15^3 :=
    mul_le_mul (pow_le_pow_left₀ u0 uw 2) (pow_le_pow_left₀ s0 sw 3)
      (pow_nonneg s0 3) (pow_nonneg (by norm_num : (0:ℝ) ≤ 15) 2)
  have hm25 : (tw - 15)^2 * (t - (-75))^5 ≤ 15^2 * 15^5 :=
    mul_le_mul (pow_le_pow_left₀ u0 uw 2) (pow_le_pow_left₀ s0 sw 5)
      (pow_nonneg s0 5) (pow_nonneg (by norm_num : (0:ℝ) ≤ 15) 2)
  have hm31 : (tw - 15)^3 * (t - (-75))^1 ≤ 15^3 * 15^1 :=
    mul_le_mul (pow_le_pow_left₀ u0 uw 3) (pow_le_pow_left₀ s0 sw 1)
      (pow_nonneg s0 1) (pow_nonneg (by norm_num : (0:ℝ) ≤ 15) 3)
  have hm33 : (tw - 15)^3 * (t - (-75))^3 ≤ 15^3 * 15^3 :=
    mul_le_mul (pow_le_pow_left₀ u0 uw 3) (pow_le_pow_left₀ s0 sw 3)
      (pow_nonneg s0 3) (pow_nonneg (by norm_num : (0:ℝ) ≤ 15) 3)
  have hm40 : (tw - 15)^4 * (t - (-75))^0 ≤ 15^4 * 15^0 :=
    mul_le_mul (pow_le_pow_left₀ u0 uw 4) (pow_le_pow_left₀ s0 sw 0)
      (pow_nonneg s0 0) (pow_nonneg (by norm_num : (0:ℝ) ≤ 15) 4)
  have hm42 : (tw - 15)^4 * (t - (-75))^2 ≤ 15^4 * 15^2 :=
    mul_le_mul (pow_le_pow_left₀ u0 uw 4) (pow_le_pow_left₀ s0 sw 2)
      (pow_nonneg s0 2) (pow_nonneg (by norm_num : (0:ℝ) ≤ 15) 4)
  have hm44 : (tw - 15)^4 * (t - (-75))^4 ≤ 15^4 * 15^4 :=
    mul_le_mul (pow_le_pow_left₀ u0 uw 4) (pow_le_pow_left₀ s0 sw 4)
      (pow_nonneg s0 4) (pow_nonneg (by norm_num : (0:ℝ) ≤ 15) 4)
  have hp01 : (0:ℝ) ≤ (tw - 15)^0 * (t - (-75))^1 :=
    mul_nonneg (pow_nonneg u0 0) (pow_nonneg s0 1)
  have hp02 : (0:ℝ) ≤ (tw - 15)^0 * (t - (-75))^2 :=
    mul_nonneg (pow_nonneg u0 0) (pow_nonneg s0 2)
  have hp03 : (0:ℝ) ≤ (tw - 15)^0 * (t - (-75))^3 :=
    mul_nonneg (pow_nonneg u0 0) (pow_nonneg s0 3)
  have hp04 : (0:ℝ) ≤ (tw - 15)^0 * (t - (-75))^4 :=
    mul_nonneg (pow_nonneg u0 0) (pow_nonneg s0 4)
  have hp05 : (0:ℝ) ≤ (tw - 15)^0 * (t - (-75))^5 :=
    mul_nonneg (pow_nonneg u0 0) (pow_nonneg s0 5)
  have hp13 : (0:ℝ) ≤ (tw - 15)^1 * (t - (-75))^3 :=
    mul_nonneg (pow_nonneg u0 1) (pow_nonneg s0 3)
  have hp14 : (0:ℝ) ≤ (tw - 15)^1 * (t - (-75))^4 :=
    mul_nonneg (pow_nonneg u0 1) (pow_nonneg s0 4)
  have hp20 : (0:ℝ) ≤ (tw - 15)^2 * (t - (-75))^0 :=
    mul_nonneg (pow_nonneg u0 2) (pow_nonneg s0 0)
  have hp22 : (0:ℝ) ≤ (tw - 15)^2 * (t - (-75))^2 :=
    mul_nonneg (pow_nonneg u0 2) (pow_nonneg s0 2)
  have hp24 : (0:ℝ) ≤ (tw - 15)^2 * (t - (-75))^4 :=
    mul_nonneg (pow_nonneg u0 2) (pow_nonneg s0 4)
  have hp30 : (0:ℝ) ≤ (tw - 15)^3 * (t - (-75))^0 :=
    mul_nonneg (pow_nonneg u0 3) (pow_nonneg s0 0)
  have hp32 : (0:ℝ) ≤ (tw - 15)^3 * (t - (-75))^2 :=
    mul_nonneg (pow_nonneg u0 3) (pow_nonneg s0 2)
  have hp34 : (0:ℝ) ≤ (tw - 15)^3 * (t - (-75))^4 :=
    mul_nonneg (pow_nonneg u0 3) (pow_nonneg s0 4)
  have hp35 : (0:ℝ) ≤ (tw - 15)^3 * (t - (-75))^5 :=
    mul_nonneg (pow_nonneg u0 3) (pow_nonneg s0 5)
  have hp41 : (0:ℝ) ≤ (tw - 15)^4 * (t - (-75))^1 :=
    mul_nonneg (pow_nonneg u0 4) (pow_nonneg s0 1)
  have hp43 : (0:ℝ) ≤ (tw - 15)^4 * (t - (-75))^3 :=
    mul_nonneg (pow_nonneg u0 4) (pow_nonneg s0 3)
  have hp45 : (0:ℝ) ≤ (tw - 15)^4 * (t - (-75))^5 :=
    mul_nonneg (pow_nonneg u0 4) (pow_nonneg s0 5)
  simp only [dctp6, mac6_0, mac6_1, mac6_2, mac6_3, mac6_4, mac6_5]
  linarith [hm10, hm11, hm12, hm15, hm21, hm23, hm25, hm31, hm33, hm40, hm42, hm44, hp01, hp02, hp03, hp04, hp05, hp13, hp14, hp20, hp22, hp24, hp30, hp32, hp34, hp35, hp41, hp43, hp45]


lemma d6cell_20 (tw t : ℝ) (ha : 15 ≤ tw) (hb : tw ≤ 30)
    (hc : (-60) ≤ t) (hd : t ≤ (-45)) : 0 < dctp6 tw t := by
  have u0 : (0:ℝ) ≤ tw - 15 := by linarith
  have uw : tw - 15 ≤ 15 := by linarith
  have s0 : (0:ℝ) ≤ t - (-60) := by linarith
  have sw : t - (-60) ≤ 15 := by linarith
  have hm10 : (tw - 15)^1 * (t - (-60))^0 ≤ 15^1 * 15^0 :=
    mul_le_mul (pow_le_pow_left₀ u0 uw 1) (pow_le_pow_left₀ s0 sw 0)
      (pow_nonneg s0 0) (pow_nonneg (by norm_num : (0:ℝ) ≤ 15) 1)
  have hm11 : (tw - 15)^1 * (t - (-60))^1 ≤ 15^1 * 15^1 :=
    mul_le_mul (pow_le_pow_left₀ u0 uw 1) (pow_le_pow_left₀ s0 sw 1)
      (pow_nonneg s0 1) (pow_nonneg (by norm_num : (0:ℝ) ≤ 15) 1)
  have hm12 : (tw - 15)^1 * (t - (-60))^2 ≤ 15^1 * 15^2 :=
    mul_le_mul (pow_le_pow_left₀ u0 uw 1) (pow_le_pow_left₀ s0 sw 2)
      (pow_nonneg s0 2) (pow_nonneg (by norm_num : (0:ℝ) ≤ 15) 1)
  have hm14 : (tw - 15)^1 * (t - (-60))^4 ≤ 15^1 * 15^4 :=
    mul_le_mul (pow_le_pow_left₀ u0 uw 1) (pow_le_pow_left₀ s0 sw 4)
      (pow_nonneg s0 4) (pow_nonneg (by norm_num : (0:ℝ) ≤ 15) 1)
  have hm15 : (tw - 15)^1 * (t - (-60))^5 ≤ 15^1 * 15^5 :=
    mul_le_mul (pow_le_pow_left₀ u0 uw 1) (pow_le_pow_left₀ s0 sw 5)
      (pow_nonneg s0 5) (pow_nonneg (by norm_num : (0:ℝ) ≤ 15) 1)
  have hm20 : (tw - 15)^2 * (t - (-60))^0 ≤ 15^2 * 15^0 :=
    mul_le_mul (pow_le_pow_left₀ u0 uw 2) (pow_le_pow_left₀ s0 sw 0)
      (pow_nonneg s0 0) (pow_nonneg (by norm_num : (0:ℝ) ≤ 15) 2)
  have hm21 : (tw - 15)^2 * (t - (-60))^1 ≤ 15^2 * 15^1 :=
    mul_le_mul (pow_le_pow_left₀ u0 uw 2) (pow_le_pow_left₀ s0 sw 1)
      (pow_nonneg s0 1) (pow_nonneg (by norm_num : (0:ℝ) ≤ 15) 2)
  have hm23 : (tw - 15)^2 * (t - (-60))^3 ≤ 15^2 * 15^3 :=
    mul_le_mul (pow_le_pow_left₀ u0 uw 2) (pow_le_pow_left₀ s0 sw 3)
      (pow_nonneg s0 3) (pow_nonneg (by norm_num : (0:ℝ) ≤ 15) 2)
  have hm25 : (tw - 15)^2 * (t - (-60))^5 ≤ 15^2 * 15^5 :=
    mul_le_mul (pow_le_pow_left₀ u0 uw 2) (pow_le_pow_left₀ s0 sw 5)
      (pow_nonneg s0 5) (pow_nonneg (by norm_num : (0:ℝ) ≤ 15) 2)
  have hm33 : (tw - 15)^3 * (t - (-60))^3 ≤ 15^3 * 15^3 :=
    mul_le_mul (pow_le_pow_left₀ u0 uw 3) (pow_le_pow_left₀ s0 sw 3)
      (pow_nonneg s0 3) (pow_nonneg (by norm_num : (0:ℝ) ≤ 15) 3)
  have hm42 : (tw - 15)^4 * (t - (-60))^2 ≤ 15^4 * 15^2 :=
    mul_le_mul (pow_le_pow_left₀ u0 uw 4) (pow_le_pow_left₀ s0 sw 2)
      (pow_nonneg s0 2) (pow_nonneg (by norm_num : (0:ℝ) ≤ 15) 4)
  have hm44 : (tw - 15)^4 * (t - (-60))^4 ≤ 15^4 * 15^4 :=
    mul_le_mul (pow_le_pow_left₀ u0 uw 4) (pow_le_pow_left₀ s0 sw 4)
      (pow_nonneg s0 4) (pow_nonneg (by norm_num : (0:ℝ) ≤ 15) 4)
  have hp01 : (0:ℝ) ≤ (tw - 15)^0 * (t - (-60))^1 :=
    mul_nonneg (pow_nonneg u0 0) (pow_nonneg s0 1)
  have hp02 : (0:ℝ) ≤ (tw - 15)^0 * (t - (-60))^2 :=
    mul_nonneg (pow_nonneg u0 0) (pow_nonneg s0 2)
  have hp03 : (0:ℝ) ≤ (tw - 15)^0 * (t - (-60))^3 :=
    mul_nonneg (pow_nonneg u0 0) (pow_nonneg s0 3)
  have hp04 : (0:ℝ) ≤ (tw - 15)^0 * (t - (-60))^4 :=
    mul_nonneg (pow_nonneg u0 0) (pow_nonneg s0 4)
  have hp05 : (0:ℝ) ≤ (tw - 15)^0 * (t - (-60))^5 :=
    mul_nonneg (pow_nonneg u0 0) (pow_nonneg s0 5)
  have hp13 : (0:ℝ) ≤ (tw - 15)^1 * (t - (-60))^3 :=
    mul_nonneg (pow_nonneg u0 1) (pow_nonneg s0 3)
  have hp22 : (0:ℝ) ≤ (tw - 15)^2 * (t - (-60))^2 :=
    mul_nonneg (pow_nonneg u0 2) (pow_nonneg s0 2)
  have hp24 : (0:ℝ) ≤ (tw - 15)^2 * (t - (-60))^4 :=
    mul_nonneg (pow_nonneg u0 2) (pow_nonneg s0 4)
  have hp30 : (0:ℝ) ≤ (tw - 15)^3 * (t - (-60))^0 :=
    mul_nonneg (pow_nonneg u0 3) (pow_nonneg s0 0)
  have hp31 : (0:ℝ) ≤ (tw - 15)^3 * (t - (-60))^1 :=
    mul_nonneg (pow_nonneg u0 3) (pow_nonneg s0 1)
  have hp32 : (0:ℝ) ≤ (tw - 15)^3 * (t - (-60))^2 :=
    mul_nonneg (pow_nonneg u0 3) (pow_nonneg s0 2)
  have hp34 : (0:ℝ) ≤ (tw - 15)^3 * (t - (-60))^4 :=
    mul_nonneg (pow_nonneg u0 3) (pow_nonneg s0 4)
  have hp35 : (0:ℝ) ≤ (tw - 15)^3 * (t - (-60))^5 :=
    mul_nonneg (pow_nonneg u0 3) (pow_nonneg s0 5)
  have hp40 : (0:ℝ) ≤ (tw - 15)^4 * (t - (-60))^0 :=
    mul_nonneg (pow_nonneg u0 4) (pow_nonneg s0 0)
  have hp41 : (0:ℝ) ≤ (tw - 15)^4 * (t - (-60))^1 :=
    mul_nonneg (pow_nonneg u0 4) (pow_nonneg s0 1)
  have hp43 : (0:ℝ) ≤ (tw - 15)^4 * (t - (-60))^3 :=
    mul_nonneg (pow_nonneg u0 4) (pow_nonneg s0 3)
  have hp45 : (0:ℝ) ≤ (tw - 15)^4 * (t - (-60))^5 :=
    mul_nonneg (pow_nonneg u0 4) (pow_nonneg s0 5)
  simp only [dctp6, mac6_0, mac6_1, mac6_2, mac6_3, mac6_4, mac6_5]
  linarith [hm10, hm11, hm12, hm14, hm15, hm20, hm21, hm23, hm25, hm33, hm42, hm44, hp01, hp02, hp03, hp04, hp05, hp13, hp22, hp24, hp30, hp31, hp32, hp34, hp35, hp40, hp41, hp43, hp45]


lemma d6cell_21 (tw t : ℝ) (ha : 0 ≤ tw) (hb : tw ≤ 15)
    (hc : (-45) ≤ t) (hd : t ≤ (-30)) : 0 < dctp6 tw t := by
  have u0 : (0:ℝ) ≤ tw - 0 := by linarith
  have uw : tw - 0 ≤ 15 := by linarith
  have s0 : (0:ℝ) ≤ t - (-45) := by linarith
  have sw : t - (-45) ≤ 15 := by linarith
  have hm10 : (tw - 0)^1 * (t - (-45))^0 ≤ 15^1 * 15^0 :=
    mul_le_mul (pow_le_pow_left₀ u0 uw 1) (pow_le_pow_left₀ s0 sw 0)
      (pow_nonneg s0 0) (pow_nonneg (by norm_num : (0:ℝ) ≤ 15) 1)
  have hm11 : (tw - 0)^1 * (t - (-45))^1 ≤ 15^1 * 15^1 :=
    mul_le_mul (pow_le_pow_left₀ u0 uw 1) (pow_le_pow_left₀ s0 sw 1)
      (pow_nonneg s0 1) (pow_nonneg (by norm_num : (0:ℝ) ≤ 15) 1)
  have hm12 : (tw - 0)^1 * (t - (-45))^2 ≤ 15^1 * 15^2 :=
    mul_le_mul (pow_le_pow_left₀ u0 uw 1) (pow_le_pow_left₀ s0 sw 2)
      (pow_nonneg s0 2) (pow_nonneg (by norm_num : (0:ℝ) ≤ 15) 1)
  have hm13 : (tw - 0)^1 * (t - (-45))^3 ≤ 15^1 * 15^3 :=
    mul_le_mul (pow_le_pow_left₀ u0 uw 1) (pow_le_pow_left₀ s0 sw 3)
      (pow_nonneg s0 3) (pow_nonneg (by norm_num : (0:ℝ) ≤ 15) 1)
  have hm20 : (tw - 0)^2 * (t - (-45))^0 ≤ 15^2 * 15^0 :=
    mul_le_mul (pow_le_pow_left₀ u0 uw 2) (pow_le_pow_left₀ s0 sw 0)
      (pow_nonneg s0 0) (pow_nonneg (by norm_num : (0:ℝ) ≤ 15) 2)
  have hm21 : (tw - 0)^2 * (t - (-45))^1 ≤ 15^2 * 15^1 :=
    mul_le_mul (pow_le_pow_left₀ u0 uw 2) (pow_le_pow_left₀ s0 sw 1)
      (pow_nonneg s0 1) (pow_nonneg (by norm_num : (0:ℝ) ≤ 15) 2)
  have hm24 : (tw - 0)^2 * (t - (-45))^4 ≤ 15^2 * 15^4 :=
    mul_le_mul (pow_le_pow_left₀ u0 uw 2) (pow_le_pow_left₀ s0 sw 4)
      (pow_nonneg s0 4) (pow_nonneg (by norm_num : (0:ℝ) ≤ 15) 2)
  have hm30 : (tw - 0)^3 * (t - (-45))^0 ≤ 15^3 * 15^0 :=
    mul_le_mul (pow_le_pow_left₀ u0 uw 3) (pow_le_pow_left₀ s0 sw 0)
      (pow_nonneg s0 0) (pow_nonneg (by norm_num : (0:ℝ) ≤ 15) 3)
  have hm32 : (tw - 0)^3 * (t - (-45))^2 ≤ 15^3 * 15^2 :=
    mul_le_mul (pow_le_pow_left₀ u0 uw 3) (pow_le_pow_left₀ s0 sw 2)
      (pow_nonneg s0 2) (pow_nonneg (by norm_num : (0:ℝ) ≤ 15) 3)
  have hm33 : (tw - 0)^3 * (t - (-45))^3 ≤ 15^3 * 15^3 :=
    mul_le_mul (pow_le_pow_left₀ u0 uw 3) (pow_le_pow_left₀ s0 sw 3)
      (pow_nonneg s0 3) (pow_nonneg (by norm_num : (0:ℝ) ≤ 15) 3)
  have hm35 : (tw - 0)^3 * (t - (-45))^5 ≤ 15^3 * 15^5 :=
    mul_le_mul (pow_le_pow_left₀ u0 uw 3) (pow_le_pow_left₀ s0 sw 5)
      (pow_nonneg s0 5) (pow_nonneg (by norm_num : (0:ℝ) ≤ 15) 3)
  have hm44 : (tw - 0)^4 * (t - (-45))^4 ≤ 15^4 * 15^4 :=
    mul_le_mul (pow_le_pow_left₀ u0 uw 4) (pow_le_pow_left₀ s0 sw 4)
      (pow_nonneg s0 4) (pow_nonneg (by norm_num : (0:ℝ) ≤ 15) 4)
  have hp01 : (0:ℝ) ≤ (tw - 0)^0 * (t - (-45))^1 :=
    mul_nonneg (pow_nonneg u0 0) (pow_nonneg s0 1)
  have hp02 : (0:ℝ) ≤ (tw - 0)^0 * (t - (-45))^2 :=
    mul_nonneg (pow_nonneg u0 0) (pow_nonneg s0 2)
  have hp03 : (0:ℝ) ≤ (tw - 0)^0 * (t - (-45))^3 :=
    mul_nonneg (pow_nonneg u0 0) (pow_nonneg s0 3)
  have hp04 : (0:ℝ) ≤ (tw - 0)^0 * (t - (-45))^4 :=
    mul_nonneg (pow_nonneg u0 0) (pow_nonneg s0 4)
  have hp05 : (0:ℝ) ≤ (tw - 0)^0 * (t - (-45))^5 :=
    mul_nonneg (pow_nonneg u0 0) (pow_nonneg s0 5)
  have hp14 : (0:ℝ) ≤ (tw - 0)^1 * (t - (-45))^4 :=
    mul_nonneg (pow_nonneg u0 1) (pow_nonneg s0 4)
  have hp15 : (0:ℝ) ≤ (tw - 0)^1 * (t - (-45))^5 :=
    mul_nonneg (pow_nonneg u0 1) (pow_nonneg s0 5)
  have hp22 : (0:ℝ) ≤ (tw - 0)^2 * (t - (-45))^2 :=
    mul_nonneg (pow_nonneg u0 2) (pow_nonneg s0 2)
  have hp23 : (0:ℝ) ≤ (tw - 0)^2 * (t - (-45))^3 :=
    mul_nonneg (pow_nonneg u0 2) (pow_nonneg s0 3)
  have hp25 : (0:ℝ) ≤ (tw - 0)^2 * (t - (-45))^5 :=
    mul_nonneg (pow_nonneg u0 2) (pow_nonneg s0 5)
  have hp31 : (0:ℝ) ≤ (tw - 0)^3 * (t - (-45))^1 :=
    mul_nonneg (pow_nonneg u0 3) (pow_nonneg s0 1)
  have hp34 : (0:ℝ) ≤ (tw - 0)^3 * (t - (-45))^4 :=
    mul_nonneg (pow_nonneg u0 3) (pow_nonneg s0 4)
  have hp40 : (0:ℝ) ≤ (tw - 0)^4 * (t - (-45))^0 :=
    mul_nonneg (pow_nonneg u0 4) (pow_nonneg s0 0)
  have hp41 : (0:ℝ) ≤ (tw - 0)^4 * (t - (-45))^1 :=
    mul_nonneg (pow_nonneg u0 4) (pow_nonneg s0 1)
  have hp42 : (0:ℝ) ≤ (tw - 0)^4 * (t - (-45))^2 :=
    mul_nonneg (pow_nonneg u0 4) (pow_nonneg s0 2)
  have hp43 : (0:ℝ) ≤ (tw - 0)^4 * (t - (-45))^3 :=
    mul_nonneg (pow_nonneg u0 4) (pow_nonneg s0 3)
  have hp45 : (0:ℝ) ≤ (tw - 0)^4 * (t - (-45))^5 :=
    mul_nonneg (pow_nonneg u0 4) (pow_nonneg s0 5)
  simp only [dctp6, mac6_0, mac6_1, mac6_2, mac6_3, mac6_4, mac6_5]
  linarith [hm10, hm11, hm12, hm13, hm20, hm21, hm24, hm30, hm32, hm33, hm35, hm44, hp01, hp02, hp03, hp04, hp05, hp14, hp15, hp22, hp23, hp25, hp31, hp34, hp40, hp41, hp42, hp43, hp45]


lemma d6cell_22 (tw t : ℝ) (ha : 0 ≤ tw) (hb : tw ≤ 15)
    (hc : (-30) ≤ t) (hd : t ≤ (-15)) : 0 < dctp6 tw t := by
  have u0 : (0:ℝ) ≤ tw - 0 := by linarith
  have uw : tw - 0 ≤ 15 := by linarith
  have s0 : (0:ℝ) ≤ t - (-30) := by linarith
  have sw : t - (-30) ≤ 15 := by linarith
  have hm10 : (tw - 0)^1 * (t - (-30))^0 ≤ 15^1 * 15^0 :=
    mul_le_mul (pow_le_pow_left₀ u0 uw 1) (pow_le_pow_left₀ s0 sw 0)
      (pow_nonneg s0 0) (pow_nonneg (by norm_num : (0:ℝ) ≤ 15) 1)
  have hm11 : (tw - 0)^1 * (t - (-30))^1 ≤ 15^1 * 15^1 :=
    mul_le_mul (pow_le_pow_left₀ u0 uw 1) (pow_le_pow_left₀ s0 sw 1)
      (pow_nonneg s0 1) (pow_nonneg (by norm_num : (0:ℝ) ≤ 15) 1)
  have hm12 : (tw - 0)^1 * (t - (-30))^2 ≤ 15^1 * 15^2 :=
    mul_le_mul (pow_le_pow_left₀ u0 uw 1) (pow_le_pow_left₀ s0 sw 2)
      (pow_nonneg s0 2) (pow_nonneg (by norm_num : (0:ℝ) ≤ 15) 1)
  have hm20 : (tw - 0)^2 * (t - (-30))^0 ≤ 15^2 * 15^0 :=
    mul_le_mul (pow_le_pow_left₀ u0 uw 2) (pow_le_pow_left₀ s0 sw 0)
      (pow_nonneg s0 0) (pow_nonneg (by norm_num : (0:ℝ) ≤ 15) 2)
  have hm23 : (tw - 0)^2 * (t - (-30))^3 ≤ 15^2 * 15^3 :=
    mul_le_mul (pow_le_pow_left₀ u0 uw 2) (pow_le_pow_left₀ s0 sw 3)
      (pow_nonneg s0 3) (pow_nonneg (by norm_num : (0:ℝ) ≤ 15) 2)
  have hm24 : (tw - 0)^2 * (t - (-30))^4 ≤ 15^2 * 15^4 :=
    mul_le_mul (pow_le_pow_left₀ u0 uw 2) (pow_le_pow_left₀ s0 sw 4)
      (pow_nonneg s0 4) (pow_nonneg (by norm_num : (0:ℝ) ≤ 15) 2)
  have hm30 : (tw - 0)^3 * (t - (-30))^0 ≤ 15^3 * 15^0 :=
    mul_le_mul (pow_le_pow_left₀ u0 uw 3) (pow_le_pow_left₀ s0 sw 0)
      (pow_nonneg s0 0) (pow_nonneg (by norm_num : (0:ℝ) ≤ 15) 3)
  have hm31 : (tw - 0)^3 * (t - (-30))^1 ≤ 15^3 * 15^1 :=
    mul_le_mul (pow_le_pow_left₀ u0 uw 3) (pow_le_pow_left₀ s0 sw 1)
      (pow_nonneg s0 1) (pow_nonneg (by norm_num : (0:ℝ) ≤ 15) 3)
  have hm32 : (tw - 0)^3 * (t - (-30))^2 ≤ 15^3 * 15^2 :=
    mul_le_mul (pow_le_pow_left₀ u0 uw 3) (pow_le_pow_left₀ s0 sw 2)
      (pow_nonneg s0 2) (pow_nonneg (by norm_num : (0:ℝ) ≤ 15) 3)
  have hm35 : (tw - 0)^3 * (t - (-30))^5 ≤ 15^3 * 15^5 :=
    mul_le_mul (pow_le_pow_left₀ u0 uw 3) (pow_le_pow_left₀ s0 sw 5)
      (pow_nonneg s0 5) (pow_nonneg (by norm_num : (0:ℝ) ≤ 15) 3)
  have hm43 : (tw - 0)^4 * (t - (-30))^3 ≤ 15^4 * 15^3 :=
    mul_le_mul (pow_le_pow_left₀ u0 uw 4) (pow_le_pow_left₀ s0 sw 3)
      (pow_nonneg s0 3) (pow_nonneg (by norm_num : (0:ℝ) ≤ 15) 4)
  have hm44 : (tw - 0)^4 * (t - (-30))^4 ≤ 15^4 * 15^4 :=
    mul_le_mul (pow_le_pow_left₀ u0 uw 4) (pow_le_pow_left₀ s0 sw 4)
      (pow_nonneg s0 4) (pow_nonneg (by norm_num : (0:ℝ) ≤ 15) 4)
  have hp01 : (0:ℝ) ≤ (tw - 0)^0 * (t - (-30))^1 :=
    mul_nonneg (pow_nonneg u0 0) (pow_nonneg s0 1)
  have hp02 : (0:ℝ) ≤ (tw - 0)^0 * (t - (-30))^2 :=
    mul_nonneg (pow_nonneg u0 0) (pow_nonneg s0 2)
  have hp03 : (0:ℝ) ≤ (tw - 0)^0 * (t - (-30))^3 :=
    mul_nonneg (pow_nonneg u0 0) (pow_nonneg s0 3)
  have hp04 : (0:ℝ) ≤ (tw - 0)^0 * (t - (-30))^4 :=
    mul_nonneg (pow_nonneg u0 0) (pow_nonneg s0 4)
  have hp05 : (0:ℝ) ≤ (tw - 0)^0 * (t - (-30))^5 :=
    mul_nonneg (pow_nonneg u0 0) (pow_nonneg s0 5)
  have hp13 : (0:ℝ) ≤ (tw - 0)^1 * (t - (-30))^3 :=
    mul_nonneg (pow_nonneg u0 1) (pow_nonneg s0 3)
  have hp14 : (0:ℝ) ≤ (tw - 0)^1 * (t - (-30))^4 :=
    mul_nonneg (pow_nonneg u0 1) (pow_nonneg s0 4)
  have hp15 : (0:ℝ) ≤ (tw - 0)^1 * (t - (-30))^5 :=
    mul_nonneg (pow_nonneg u0 1) (pow_nonneg s0 5)
  have hp21 : (0:ℝ) ≤ (tw - 0)^2 * (t - (-30))^1 :=
    mul_nonneg (pow_nonneg u0 2) (pow_nonneg s0 1)
  have hp22 : (0:ℝ) ≤ (tw - 0)^2 * (t - (-30))^2 :=
    mul_nonneg (pow_nonneg u0 2) (pow_nonneg s0 2)
  have hp25 : (0:ℝ) ≤ (tw - 0)^2 * (t - (-30))^5 :=
    mul_nonneg (pow_nonneg u0 2) (pow_nonneg s0 5)
  have hp33 : (0:ℝ) ≤ (tw - 0)^3 * (t - (-30))^3 :=
    mul_nonneg (pow_nonneg u0 3) (pow_nonneg s0 3)
  have hp34 : (0:ℝ) ≤ (tw - 0)^3 * (t - (-30))^4 :=
    mul_nonneg (pow_nonneg u0 3) (pow_nonneg s0 4)
  have hp40 : (0:ℝ) ≤ (tw - 0)^4 * (t - (-30))^0 :=
    mul_nonneg (pow_nonneg u0 4) (pow_nonneg s0 0)
  have hp41 : (0:ℝ) ≤ (tw - 0)^4 * (t - (-30))^1 :=
    mul_nonneg (pow_nonneg u0 4) (pow_nonneg s0 1)
  have hp42 : (0:ℝ) ≤ (tw - 0)^4 * (t - (-30))^2 :=
    mul_nonneg (pow_nonneg u0 4) (pow_nonneg s0 2)
  have hp45 : (0:ℝ) ≤ (tw - 0)^4 * (t - (-30))^5 :=
    mul_nonneg (pow_nonneg u0 4) (pow_nonneg s0 5)
  simp only [dctp6, mac6_0, mac6_1, mac6_2, mac6_3, mac6_4, mac6_5]
  linarith [hm10, hm11, hm12, hm20, hm23, hm24, hm30, hm31, hm32, hm35, hm43, hm44, hp01, hp02, hp03, hp04, hp05, hp13, hp14, hp15, hp21, hp22, hp25, hp33, hp34, hp40, hp41, hp42, hp45]


lemma d6cell_23 (tw t : ℝ) (ha : 15 ≤ tw) (hb : tw ≤ 30)
    (hc : (-45) ≤ t) (hd : t ≤ (-30)) : 0 < dctp6 tw t := by
  have u0 : (0:ℝ) ≤ tw - 15 := by linarith
  have uw : tw - 15 ≤ 15 := by linarith
  have s0 : (0:ℝ) ≤ t - (-45) := by linarith
  have sw : t - (-45) ≤ 15 := by linarith
  have hm10 : (tw - 15)^1 * (t - (-45))^0 ≤ 15^1 * 15^0 :=
    mul_le_mul (pow_le_pow_left₀ u0 uw 1) (pow_le_pow_left₀ s0 sw 0)
      (pow_nonneg s0 0) (pow_nonneg (by norm_num : (0:ℝ) ≤ 15) 1)
  have hm11 : (tw - 15)^1 * (t - (-45))^1 ≤ 15^1 * 15^1 :=
    mul_le_mul (pow_le_pow_left₀ u0 uw 1) (pow_le_pow_left₀ s0 sw 1)
      (pow_nonneg s0 1) (pow_nonneg (by norm_num : (0:ℝ) ≤ 15) 1)
  have hm12 : (tw - 15)^1 * (t - (-45))^2 ≤ 15^1 * 15^2 :=
    mul_le_mul (pow_le_pow_left₀ u0 uw 1) (pow_le_pow_left₀ s0 sw 2)
      (pow_nonneg s0 2) (pow_nonneg (by norm_num : (0:ℝ) ≤ 15) 1)
  have hm13 : (tw - 15)^1 * (t - (-45))^3 ≤ 15^1 * 15^3 :=
    mul_le_mul (pow_le_pow_left₀ u0 uw 1) (pow_le_pow_left₀ s0 sw 3)
      (pow_nonneg s0 3) (pow_nonneg (by norm_num : (0:ℝ) ≤ 15) 1)
  have hm14 : (tw - 15)^1 * (t - (-45))^4 ≤ 15^1 * 15^4 :=
    mul_le_mul (pow_le_pow_left₀ u0 uw 1) (pow_le_pow_left₀ s0 sw 4)
      (pow_nonneg s0 4) (pow_nonneg (by norm_num : (0:ℝ) ≤ 15) 1)
  have hm15 : (tw - 15)^1 * (t - (-45))^5 ≤ 15^1 * 15^5 :=
    mul_le_mul (pow_le_pow_left₀ u0 uw 1) (pow_le_pow_left₀ s0 sw 5)
      (pow_nonneg s0 5) (pow_nonneg (by norm_num : (0:ℝ) ≤ 15) 1)
  have hm20 : (tw - 15)^2 * (t - (-45))^0 ≤ 15^2 * 15^0 :=
    mul_le_mul (pow_le_pow_left₀ u0 uw 2) (pow_le_pow_left₀ s0 sw 0)
      (pow_nonneg s0 0) (pow_nonneg (by norm_num : (0:ℝ) ≤ 15) 2)
  have hm21 : (tw - 15)^2 * (t - (-45))^1 ≤ 15^2 * 15^1 :=
    mul_le_mul (pow_le_pow_left₀ u0 uw 2) (pow_le_pow_left₀ s0 sw 1)
      (pow_nonneg s0 1) (pow_nonneg (by norm_num : (0:ℝ) ≤ 15) 2)
  have hm22 : (tw - 15)^2 * (t - (-45))^2 ≤ 15^2 * 15^2 :=
    mul_le_mul (pow_le_pow_left₀ u0 uw 2) (pow_le_pow_left₀ s0 sw 2)
      (pow_nonneg s0 2) (pow_nonneg (by norm_num : (0:ℝ) ≤ 15) 2)
  have hm23 : (tw - 15)^2 * (t - (-45))^3 ≤ 15^2 * 15^3 :=
    mul_le_mul (pow_le_pow_left₀ u0 uw 2) (pow_le_pow_left₀ s0 sw 3)
      (pow_nonneg s0 3) (pow_nonneg (by norm_num : (0:ℝ) ≤ 15) 2)
  have hm25 : (tw - 15)^2 * (t - (-45))^5 ≤ 15^2 * 15^5 :=
    mul_le_mul (pow_le_pow_left₀ u0 uw 2) (pow_le_pow_left₀ s0 sw 5)
      (pow_nonneg s0 5) (pow_nonneg (by norm_num : (0:ℝ) ≤ 15) 2)
  have hm32 : (tw - 15)^3 * (t - (-45))^2 ≤ 15^3 * 15^2 :=
    mul_le_mul (pow_le_pow_left₀ u0 uw 3) (pow_le_pow_left₀ s0 sw 2)
      (pow_nonneg s0 2) (pow_nonneg (by norm_num : (0:ℝ) ≤ 15) 3)
  have hm33 : (tw - 15)^3 * (t - (-45))^3 ≤ 15^3 * 15^3 :=
    mul_le_mul (pow_le_pow_left₀ u0 uw 3) (pow_le_pow_left₀ s0 sw 3)
      (pow_nonneg s0 3) (pow_nonneg (by norm_num : (0:ℝ) ≤ 15) 3)
  have hm44 : (tw - 15)^4 * (t - (-45))^4 ≤ 15^4 * 15^4 :=
    mul_le_mul (pow_le_pow_left₀ u0 uw 4) (pow_le_pow_left₀ s0 sw 4)
      (pow_nonneg s0 4) (pow_nonneg (by norm_num : (0:ℝ) ≤ 15) 4)
  have hp01 : (0:ℝ) ≤ (tw - 15)^0 * (t - (-45))^1 :=
    mul_nonneg (pow_nonneg u0 0) (pow_nonneg s0 1)
  have hp02 : (0:ℝ) ≤ (tw - 15)^0 * (t - (-45))^2 :=
    mul_nonneg (pow_nonneg u0 0) (pow_nonneg s0 2)
  have hp03 : (0:ℝ) ≤ (tw - 15)^0 * (t - (-45))^3 :=
    mul_nonneg (pow_nonneg u0 0) (pow_nonneg s0 3)
  have hp04 : (0:ℝ) ≤ (tw - 15)^0 * (t - (-45))^4 :=
    mul_nonneg (pow_nonneg u0 0) (pow_nonneg s0 4)
  have hp05 : (0:ℝ) ≤ (tw - 15)^0 * (t - (-45))^5 :=
    mul_nonneg (pow_nonneg u0 0) (pow_nonneg s0 5)
  have hp24 : (0:ℝ) ≤ (tw - 15)^2 * (t - (-45))^4 :=
    mul_nonneg (pow_nonneg u0 2) (pow_nonneg s0 4)
  have hp30 : (0:ℝ) ≤ (tw - 15)^3 * (t - (-45))^0 :=
    mul_nonneg (pow_nonneg u0 3) (pow_nonneg s0 0)
  have hp31 : (0:ℝ) ≤ (tw - 15)^3 * (t - (-45))^1 :=
    mul_nonneg (pow_nonneg u0 3) (pow_nonneg s0 1)
  have hp34 : (0:ℝ) ≤ (tw - 15)^3 * (t - (-45))^4 :=
    mul_nonneg (pow_nonneg u0 3) (pow_nonneg s0 4)
  have hp35 : (0:ℝ) ≤ (tw - 15)^3 * (t - (-45))^5 :=
    mul_nonneg (pow_nonneg u0 3) (pow_nonneg s0 5)
  have hp40 : (0:ℝ) ≤ (tw - 15)^4 * (t - (-45))^0 :=
    mul_nonneg (pow_nonneg u0 4) (pow_nonneg s0 0)
  have hp41 : (0:ℝ) ≤ (tw - 15)^4 * (t - (-45))^1 :=
    mul_nonneg (pow_nonneg u0 4) (pow_nonneg s0 1)
  have hp42 : (0:ℝ) ≤ (tw - 15)^4 * (t - (-45))^2 :=
    mul_nonneg (pow_nonneg u0 4) (pow_nonneg s0 2)
  have hp43 : (0:ℝ) ≤ (tw - 15)^4 * (t - (-45))^3 :=
    mul_nonneg (pow_nonneg u0 4) (pow_nonneg s0 3)
  have hp45 : (0:ℝ) ≤ (tw - 15)^4 * (t - (-45))^5 :=
    mul_nonneg (pow_nonneg u0 4) (pow_nonneg s0 5)
  simp only [dctp6, mac6_0, mac6_1, mac6_2, mac6_3, mac6_4, mac6_5]
  linarith [hm10, hm11, hm12, hm13, hm14, hm15, hm20, hm21, hm22, hm23, hm25, hm32, hm33, hm44, hp01, hp02, hp03, hp04, hp05, hp24, hp30, hp31, hp34, hp35, hp40, hp41, hp42, hp43, hp45]


lemma d6cell_24 (tw t : ℝ) (ha : 15 ≤ tw) (hb : tw ≤ 30)
    (hc : (-30) ≤ t) (hd : t ≤ (-15)) : 0 < dctp6 tw t := by
  have u0 : (0:ℝ) ≤ tw - 15 := by linarith
  have uw : tw - 15 ≤ 15 := by linarith
  have s0 : (0:ℝ) ≤ t - (-30) := by linarith
  have sw : t - (-30) ≤ 15 := by linarith
  have hm10 : (tw - 15)^1 * (t - (-30))^0 ≤ 15^1 * 15^0 :=
    mul_le_mul (pow_le_pow_left₀ u0 uw 1) (pow_le_pow_left₀ s0 sw 0)
      (pow_nonneg s0 0) (pow_nonneg (by norm_num : (0:ℝ) ≤ 15) 1)
  have hm11 : (tw - 15)^1 * (t - (-30))^1 ≤ 15^1 * 15^1 :=
    mul_le_mul (pow_le_pow_left₀ u0 uw 1) (pow_le_pow_left₀ s0 sw 1)
      (pow_nonneg s0 1) (pow_nonneg (by norm_num : (0:ℝ) ≤ 15) 1)
  have hm12 : (tw - 15)^1 * (t - (-30))^2 ≤ 15^1 * 15^2 :=
    mul_le_mul (pow_le_pow_left₀ u0 uw 1) (pow_le_pow_left₀ s0 sw 2)
      (pow_nonneg s0 2) (pow_nonneg (by norm_num : (0:ℝ) ≤ 15) 1)
  have hm13 : (tw - 15)^1 * (t - (-30))^3 ≤ 15^1 * 15^3 :=
    mul_le_mul (pow_le_pow_left₀ u0 uw 1) (pow_le_pow_left₀ s0 sw 3)
      (pow_nonneg s0 3) (pow_nonneg (by norm_num : (0:ℝ) ≤ 15) 1)
  have hm14 : (tw - 15)^1 * (t - (-30))^4 ≤ 15^1 * 15^4 :=
    mul_le_mul (pow_le_pow_left₀ u0 uw 1) (pow_le_pow_left₀ s0 sw 4)
      (pow_nonneg s0 4) (pow_nonneg (by norm_num : (0:ℝ) ≤ 15) 1)
  have hm15 : (tw - 15)^1 * (t - (-30))^5 ≤ 15^1 * 15^5 :=
    mul_le_mul (pow_le_pow_left₀ u0 uw 1) (pow_le_pow_left₀ s0 sw 5)
      (pow_nonneg s0 5) (pow_nonneg (by norm_num : (0:ℝ) ≤ 15) 1)
  have hm20 : (tw - 15)^2 * (t - (-30))^0 ≤ 15^2 * 15^0 :=
    mul_le_mul (pow_le_pow_left₀ u0 uw 2) (pow_le_pow_left₀ s0 sw 0)
      (pow_nonneg s0 0) (pow_nonneg (by norm_num : (0:ℝ) ≤ 15) 2)
  have hm21 : (tw - 15)^2 * (t - (-30))^1 ≤ 15^2 * 15^1 :=
    mul_le_mul (pow_le_pow_left₀ u0 uw 2) (pow_le_pow_left₀ s0 sw 1)
      (pow_nonneg s0 1) (pow_nonneg (by norm_num : (0:ℝ) ≤ 15) 2)
  have hm22 : (tw - 15)^2 * (t - (-30))^2 ≤ 15^2 * 15^2 :=
    mul_le_mul (pow_le_pow_left₀ u0 uw 2) (pow_le_pow_left₀ s0 sw 2)
      (pow_nonneg s0 2) (pow_nonneg (by norm_num : (0:ℝ) ≤ 15) 2)
  have hm23 : (tw - 15)^2 * (t - (-30))^3 ≤ 15^2 * 15^3 :=
    mul_le_mul (pow_le_pow_left₀ u0 uw 2) (pow_le_pow_left₀ s0 sw 3)
      (pow_nonneg s0 3) (pow_nonneg (by norm_num : (0:ℝ) ≤ 15) 2)
  have hm24 : (tw - 15)^2 * (t - (-30))^4 ≤ 15^2 * 15^4 :=
    mul_le_mul (pow_le_pow_left₀ u0 uw 2) (pow_le_pow_left₀ s0 sw 4)
      (pow_nonneg s0 4) (pow_nonneg (by norm_num : (0:ℝ) ≤ 15) 2)
  have hm25 : (tw - 15)^2 * (t - (-30))^5 ≤ 15^2 * 15^5 :=
    mul_le_mul (pow_le_pow_left₀ u0 uw 2) (pow_le_pow_left₀ s0 sw 5)
      (pow_nonneg s0 5) (pow_nonneg (by norm_num : (0:ℝ) ≤ 15) 2)
  have hm31 : (tw - 15)^3 * (t - (-30))^1 ≤ 15^3 * 15^1 :=
    mul_le_mul (pow_le_pow_left₀ u0 uw 3) (pow_le_pow_left₀ s0 sw 1)
      (pow_nonneg s0 1) (pow_nonneg (by norm_num : (0:ℝ) ≤ 15) 3)
  have hm32 : (tw - 15)^3 * (t - (-30))^2 ≤ 15^3 * 15^2 :=
    mul_le_mul (pow_le_pow_left₀ u0 uw 3) (pow_le_pow_left₀ s0 sw 2)
      (pow_nonneg s0 2) (pow_nonneg (by norm_num : (0:ℝ) ≤ 15) 3)
  have hm43 : (tw - 15)^4 * (t - (-30))^3 ≤ 15^4 * 15^3 :=
    mul_le_mul (pow_le_pow_left₀ u0 uw 4) (pow_le_pow_left₀ s0 sw 3)
      (pow_nonneg s0 3) (pow_nonneg (by norm_num : (0:ℝ) ≤ 15) 4)
  have hm44 : (tw - 15)^4 * (t - (-30))^4 ≤ 15^4 * 15^4 :=
    mul_le_mul (pow_le_pow_left₀ u0 uw 4) (pow_le_pow_left₀ s0 sw 4)
      (pow_nonneg s0 4) (pow_nonneg (by norm_num : (0:ℝ) ≤ 15) 4)
  have hp01 : (0:ℝ) ≤ (tw - 15)^0 * (t - (-30))^1 :=
    mul_nonneg (pow_nonneg u0 0) (pow_nonneg s0 1)
  have hp02 : (0:ℝ) ≤ (tw - 15)^0 * (t - (-30))^2 :=
    mul_nonneg (pow_nonneg u0 0) (pow_nonneg s0 2)
  have hp03 : (0:ℝ) ≤ (tw - 15)^0 * (t - (-30))^3 :=
    mul_nonneg (pow_nonneg u0 0) (pow_nonneg s0 3)
  have hp04 : (0:ℝ) ≤ (tw - 15)^0 * (t - (-30))^4 :=
    mul_nonneg (pow_nonneg u0 0) (pow_nonneg s0 4)
  have hp05 : (0:ℝ) ≤ (tw - 15)^0 * (t - (-30))^5 :=
    mul_nonneg (pow_nonneg u0 0) (pow_nonneg s0 5)
  have hp30 : (0:ℝ) ≤ (tw - 15)^3 * (t - (-30))^0 :=
    mul_nonneg (pow_nonneg u0 3) (pow_nonneg s0 0)
  have hp33 : (0:ℝ) ≤ (tw - 15)^3 * (t - (-30))^3 :=
    mul_nonneg (pow_nonneg u0 3) (pow_nonneg s0 3)
  have hp34 : (0:ℝ) ≤ (tw - 15)^3 * (t - (-30))^4 :=
    mul_nonneg (pow_nonneg u0 3) (pow_nonneg s0 4)
  have hp35 : (0:ℝ) ≤ (tw - 15)^3 * (t - (-30))^5 :=
    mul_nonneg (pow_nonneg u0 3) (pow_nonneg s0 5)
  have hp40 : (0:ℝ) ≤ (tw - 15)^4 * (t - (-30))^0 :=
    mul_nonneg (pow_nonneg u0 4) (pow_nonneg s0 0)
  have hp41 : (0:ℝ) ≤ (tw - 15)^4 * (t - (-30))^1 :=
    mul_nonneg (pow_nonneg u0 4) (pow_nonneg s0 1)
  have hp42 : (0:ℝ) ≤ (tw - 15)^4 * (t - (-30))^2 :=
    mul_nonneg (pow_nonneg u0 4) (pow_nonneg s0 2)
  have hp45 : (0:ℝ) ≤ (tw - 15)^4 * (t - (-30))^5 :=
    mul_nonneg (pow_nonneg u0 4) (pow_nonneg s0 5)
  simp only [dctp6, mac6_0, mac6_1, mac6_2, mac6_3, mac6_4, mac6_5]
  linarith [hm10, hm11, hm12, hm13, hm14, hm15, hm20, hm21, hm22, hm23, hm24, hm25, hm31, hm32, hm43, hm44, hp01, hp02, hp03, hp04, hp05, hp30, hp33, hp34, hp35, hp40, hp41, hp42, hp45]


/-- Positivity of the bt-derivative of the 6th-degree moist-adiabat
polynomial on the validated box. -/
lemma dctp6_pos (tw t : ℝ) (h1 : (-30:ℝ) ≤ tw) (h2 : tw ≤ 30)
    (h3 : (-75:ℝ) ≤ t) (h4 : t ≤ -15) : 0 < dctp6 tw t := by
  rcases le_total tw 0 with htw1 | htw1
  · rcases le_total t (-45) with ht1 | ht1
    ·
      rcases le_total tw (-15) with htw3 | htw3
      · rcases le_total t (-60) with ht3 | ht3
        ·
          rcases le_total tw (-22.5) with htw5 | htw5
          · rcases le_total t (-67.5) with ht5 | ht5
            ·
              rcases le_total tw (-26.25) with htw7 | htw7
              · rcases le_total t (-71.25) with ht7 | ht7
                ·
                  exact d6cell_0 tw t (by linarith) (by linarith) (by linarith) (by linarith)
                ·
                  exact d6cell_1 tw t (by linarith) (by linarith) (by linarith) (by linarith)
              · rcases le_total t (-71.25) with ht7 | ht7
                ·
                  exact d6cell_2 tw t (by linarith) (by linarith) (by linarith) (by linarith)
                ·
                  exact d6cell_3 tw t (by linarith) (by linarith) (by linarith) (by linarith)
            ·
              exact d6cell_4 tw t (by linarith) (by linarith) (by linarith) (by linarith)
          · rcases le_total t (-67.5) with ht5 | ht5
            ·
              exact d6cell_5 tw t (by linarith) (by linarith) (by linarith) (by linarith)
            ·
              exact d6cell_6 tw t (by linarith) (by linarith) (by linarith) (by linarith)
        ·
          exact d6cell_7 tw t (by linarith) (by linarith) (by linarith) (by linarith)
      · rcases le_total t (-60) with ht3 | ht3
        ·
          rcases le_total tw (-7.5) with htw5 | htw5
          · rcases le_total t (-67.5) with ht5 | ht5
            ·
              exact d6cell_8 tw t (by linarith) (by linarith) (by linarith) (by linarith)
            ·
              exact d6cell_9 tw t (by linarith) (by linarith) (by linarith) (by linarith)
          · rcases le_total t (-67.5) with ht5 | ht5
            ·
              exact d6cell_10 tw t (by linarith) (by linarith) (by linarith) (by linarith)
            ·
              exact d6cell_11 tw t (by linarith) (by linarith) (by linarith) (by linarith)
        ·
          exact d6cell_12 tw t (by linarith) (by linarith) (by linarith) (by linarith)
    ·
      rcases le_total tw (-15) with htw3 | htw3
      · rcases le_total t (-30) with ht3 | ht3
        ·
          exact d6cell_13 tw t (by linarith) (by linarith) (by linarith) (by linarith)
        ·
          exact d6cell_14 tw t (by linarith) (by linarith) (by linarith) (by linarith)
      · rcases le_total t (-30) with ht3 | ht3
        ·
          exact d6cell_15 tw t (by linarith) (by linarith) (by linarith) (by linarith)
        ·
          exact d6cell_16 tw t (by linarith) (by linarith) (by linarith) (by linarith)
  · rcases le_total t (-45) with ht1 | ht1
    ·
      rcases le_total tw 15 with htw3 | htw3
      · rcases le_total t (-60) with ht3 | ht3
        ·
          exact d6cell_17 tw t (by linarith) (by linarith) (by linarith) (by linarith)
        ·
          exact d6cell_18 tw t (by linarith) (by linarith) (by linarith) (by linarith)
      · rcases le_total t (-60) with ht3 | ht3
        ·
          exact d6cell_19 tw t (by linarith) (by linarith) (by linarith) (by linarith)
        ·
          exact d6cell_20 tw t (by linarith) (by linarith) (by linarith) (by linarith)
    ·
      rcases le_total tw 15 with htw3 | htw3
      · rcases le_total t (-30) with ht3 | ht3
        ·
          exact d6cell_21 tw t (by linarith) (by linarith) (by linarith) (by linarith)
        ·
          exact d6cell_22 tw t (by linarith) (by linarith) (by linarith) (by linarith)
      · rcases le_total t (-30) with ht3 | ht3
        ·
          exact d6cell_23 tw t (by linarith) (by linarith) (by linarith) (by linarith)
        ·
          exact d6cell_24 tw t (by linarith) (by linarith) (by linarith) (by linarith)


lemma adiabat6_hasDerivAt (tw t : ℝ) :
    HasDerivAt (fun s => adiabat6 tw s) (dctp6 tw t) t := by
  have heq : (fun s => adiabat6 tw s) = fun s : ℝ =>
      mac6_0 tw * s^6 + mac6_1 tw * s^5 + mac6_2 tw * s^4 + mac6_3 tw * s^3 +
        mac6_4 tw * s^2 + mac6_5 tw * s + mac6_6 tw := by
    funext s
    simp only [adiabat6]
    ring
  rw [heq]
  have h := (((((((hasDerivAt_pow 6 t).const_mul (mac6_0 tw)).add
      ((hasDerivAt_pow 5 t).const_mul (mac6_1 tw))).add
      ((hasDerivAt_pow 4 t).const_mul (mac6_2 tw))).add
      ((hasDerivAt_pow 3 t).const_mul (mac6_3 tw))).add
      ((hasDerivAt_pow 2 t).const_mul (mac6_4 tw))).add
      ((hasDerivAt_id' t).const_mul (mac6_5 tw))).add_const (mac6_6 tw)
  convert h using 1
  unfold dctp6
  push_cast
  ring

/-- On the envelope tw in [-30, 30] the 6th-degree polynomial is strictly
increasing in brightness temperature over [-75, -15]. -/
lemma adiabat6_strictMonoOn (tw : ℝ) (h1 : (-30:ℝ) ≤ tw) (h2 : tw ≤ 30) :
    StrictMonoOn (fun s => adiabat6 tw s) (Set.Icc (-75 : ℝ) (-15)) := by
  apply strictMonoOn_of_deriv_pos (convex_Icc _ _)
  · intro s _
    exact (adiabat6_hasDerivAt tw s).continuousAt.continuousWithinAt
  · intro s hs
    rw [interior_Icc] at hs
    rw [(adiabat6_hasDerivAt tw s).deriv]
    exact dctp6_pos tw s h1 h2 hs.1.le hs.2.le

/-! ### Sign facts for the Davies-Jones rational approximation on the
theta_e windows of the two concrete parcels used below. -/

lemma davies_a_pos_low (x : ℝ) (h1 : 0.78034 ≤ x) (h2 : x ≤ 0.780357) :
    0 < 7.101574 - 20.68208 * x + 16.11182 * (x*x) + 2.574631 * (x*x*x) - 5.205688 * (x*x*x*x) := by
  have s0 : (0:ℝ) ≤ x - 0.78034 := by linarith
  have sw : x - 0.78034 ≤ 0.000017 := by linarith
  have hb2 : (x - 0.78034)^2 ≤ 0.000017^2 := pow_le_pow_left₀ s0 sw 2
  have hn2 : (0:ℝ) ≤ (x - 0.78034)^2 := pow_nonneg s0 2
  have hb3 : (x - 0.78034)^3 ≤ 0.000017^3 := pow_le_pow_left₀ s0 sw 3
  have hn3 : (0:ℝ) ≤ (x - 0.78034)^3 := pow_nonneg s0 3
  have hb4 : (x - 0.78034)^4 ≤ 0.000017^4 := pow_le_pow_left₀ s0 sw 4
  have hn4 : (0:ℝ) ≤ (x - 0.78034)^4 := pow_nonneg s0 4
  nlinarith [s0, sw, hb2, hn2, hb3, hn3, hb4, hn4]

lemma davies_b_neg_low (x : ℝ) (h1 : 0.78034 ≤ x) (h2 : x ≤ 0.780357) :
    1 - 3.552497 * x + 3.781782 * (x*x) - 0.6899655 * (x*x*x) - 0.5929340 * (x*x*x*x) < 0 := by
  have s0 : (0:ℝ) ≤ x - 0.78034 := by linarith
  have sw : x - 0.78034 ≤ 0.000017 := by linarith
  have hb2 : (x - 0.78034)^2 ≤ 0.000017^2 := pow_le_pow_left₀ s0 sw 2
  have hn2 : (0:ℝ) ≤ (x - 0.78034)^2 := pow_nonneg s0 2
  have hb3 : (x - 0.78034)^3 ≤ 0.000017^3 := pow_le_pow_left₀ s0 sw 3
  have hn3 : (0:ℝ) ≤ (x - 0.78034)^3 := pow_nonneg s0 3
  have hb4 : (x - 0.78034)^4 ≤ 0.000017^4 := pow_le_pow_left₀ s0 sw 4
  have hn4 : (0:ℝ) ≤ (x - 0.78034)^4 := pow_nonneg s0 4
  nlinarith [s0, sw, hb2, hn2, hb3, hn3, hb4, hn4]

lemma davies_a_neg_mid (x : ℝ) (h1 : 0.92678 ≤ x) (h2 : x ≤ 0.926803) :
    7.101574 - 20.68208 * x + 16.11182 * (x*x) + 2.574631 * (x*x*x) - 5.205688 * (x*x*x*x) < 0 := by
  have s0 : (0:ℝ) ≤ x - 0.92678 := by linarith
  have sw : x - 0.92678 ≤ 0.000023 := by linarith
  have hb2 : (x - 0.92678)^2 ≤ 0.000023^2 := pow_le_pow_left₀ s0 sw 2
  have hn2 : (0:ℝ) ≤ (x - 0.92678)^2 := pow_nonneg s0 2
  have hb3 : (x - 0.92678)^3 ≤ 0.000023^3 := pow_le_pow_left₀ s0 sw 3
  have hn3 : (0:ℝ) ≤ (x - 0.92678)^3 := pow_nonneg s0 3
  have hb4 : (x - 0.92678)^4 ≤ 0.000023^4 := pow_le_pow_left₀ s0 sw 4
  have hn4 : (0:ℝ) ≤ (x - 0.92678)^4 := pow_nonneg s0 4
  nlinarith [s0, sw, hb2, hn2, hb3, hn3, hb4, hn4]

lemma davies_b_neg_mid (x : ℝ) (h1 : 0.92678 ≤ x) (h2 : x ≤ 0.926803) :
    1 - 3.552497 * x + 3.781782 * (x*x) - 0.6899655 * (x*x*x) - 0.5929340 * (x*x*x*x) < 0 := by
  have s0 : (0:ℝ) ≤ x - 0.92678 := by linarith
  have sw : x - 0.92678 ≤ 0.000023 := by linarith
  have hb2 : (x - 0.92678)^2 ≤ 0.000023^2 := pow_le_pow_left₀ s0 sw 2
  have hn2 : (0:ℝ) ≤ (x - 0.92678)^2 := pow_nonneg s0 2
  have hb3 : (x - 0.92678)^3 ≤ 0.000023^3 := pow_le_pow_left₀ s0 sw 3
  have hn3 : (0:ℝ) ≤ (x - 0.92678)^3 := pow_nonneg s0 3
  have hb4 : (x - 0.92678)^4 ≤ 0.000023^4 := pow_le_pow_left₀ s0 sw 4
  have hn4 : (0:ℝ) ≤ (x - 0.92678)^4 := pow_nonneg s0 4
  nlinarith [s0, sw, hb2, hn2, hb3, hn3, hb4, hn4]

lemma davies_ab_ratio_mid (x : ℝ) (h1 : 0.92678 ≤ x) (h2 : x ≤ 0.926803) :
    0 ≤ (7.101574 - 20.68208 * x + 16.11182 * (x*x) + 2.574631 * (x*x*x) - 5.205688 * (x*x*x*x)) - 1.6 * (1 - 3.552497 * x + 3.781782 * (x*x) - 0.6899655 * (x*x*x) - 0.5929340 * (x*x*x*x)) := by
  have s0 : (0:ℝ) ≤ x - 0.92678 := by linarith
  have sw : x - 0.92678 ≤ 0.000023 := by linarith
  have hb2 : (x - 0.92678)^2 ≤ 0.000023^2 := pow_le_pow_left₀ s0 sw 2
  have hn2 : (0:ℝ) ≤ (x - 0.92678)^2 := pow_nonneg s0 2
  have hb3 : (x - 0.92678)^3 ≤ 0.000023^3 := pow_le_pow_left₀ s0 sw 3
  have hn3 : (0:ℝ) ≤ (x - 0.92678)^3 := pow_nonneg s0 3
  have hb4 : (x - 0.92678)^4 ≤ 0.000023^4 := pow_le_pow_left₀ s0 sw 4
  have hn4 : (0:ℝ) ≤ (x - 0.92678)^4 := pow_nonneg s0 4
  nlinarith [s0, sw, hb2, hn2, hb3, hn3, hb4, hn4]

lemma adiabat6_violation (tw : ℝ) (h1 : (-61:ℝ) ≤ tw) (h2 : tw ≤ -59.99) :
    adiabat6 tw (-72.5) < adiabat6 tw (-75) := by
  have s0 : (0:ℝ) ≤ tw - (-61) := by linarith
  have sw : tw - (-61) ≤ 1.01 := by linarith
  have hb2 : (tw - (-61))^2 ≤ 1.01^2 := pow_le_pow_left₀ s0 sw 2
  have hn2 : (0:ℝ) ≤ (tw - (-61))^2 := pow_nonneg s0 2
  have hb3 : (tw - (-61))^3 ≤ 1.01^3 := pow_le_pow_left₀ s0 sw 3
  have hn3 : (0:ℝ) ≤ (tw - (-61))^3 := pow_nonneg s0 3
  have hb4 : (tw - (-61))^4 ≤ 1.01^4 := pow_le_pow_left₀ s0 sw 4
  have hn4 : (0:ℝ) ≤ (tw - (-61))^4 := pow_nonneg s0 4
  simp only [adiabat6, mac6_0, mac6_1, mac6_2, mac6_3, mac6_4, mac6_5, mac6_6]
  nlinarith [s0, sw, hb2, hn2, hb3, hn3, hb4, hn4]


/-! ### theta_e and theta_w bounds for two concrete dry parcels

For parcels with Td = -100 degC the saturation mixing ratio is astronomically
small, so theta_e is the parcel temperature in Kelvin up to a factor below
1.000021; this gives tight windows for theta_w through the Davies-Jones
conversion. -/

noncomputable section

/-- The lifting-condensation-temperature subterm of theta_e (a verification
shorthand for the corresponding let-binding of the source). -/
def tl (t td : ℝ) : ℝ :=
  56 + 1 / (1 / ((td + ZERO_C_K) - 56) + Real.log ((t + ZERO_C_K) / (td + ZERO_C_K)) / 800)

end

lemma theta_e_unfold (t td p : ℝ) :
    theta_e t td p =
      (potential_temperature (p - e_sat td / 100) t + ZERO_C_K) *
        ((t + ZERO_C_K) / tl t td) ^ (0.28 * saturation_mixing_ratio p td) *
        Real.exp (saturation_mixing_ratio p td *
          (1 + 0.448 * saturation_mixing_ratio p td) * (3036 / tl t td - 1.78)) := rfl

lemma exp_le_one_add_two_mul (y : ℝ) (h0 : 0 ≤ y) (h1 : y ≤ 1/2) :
    Real.exp y ≤ 1 + 2 * y := by
  have h2 : 1 - y ≤ Real.exp (-y) := by
    have := Real.add_one_le_exp (-y)
    linarith
  have h3 : Real.exp y * Real.exp (-y) = 1 := by
    rw [← Real.exp_add]; simp
  have h4 : Real.exp y * (1 - y) ≤ 1 := by
    have h5 := mul_le_mul_of_nonneg_left h2 (Real.exp_pos y).le
    rw [h3] at h5
    exact h5
  nlinarith [Real.exp_pos y, h4]

lemma exp_onesix_le_five : Real.exp 1.6 ≤ 5 := by
  have h4 : Real.exp (1.6:ℝ) = Real.exp 0.4 ^ 4 := by
    rw [← Real.exp_nat_mul]; norm_num
  rw [h4]
  calc Real.exp (0.4:ℝ) ^ 4 ≤ (expP 0.4 + 0.4 ^ 12 * 13 / 5748019200) ^ 4 :=
        pow_le_pow_left₀ (Real.exp_pos _).le
          (exp_le_expP_tail _ (by norm_num) (by norm_num)) 4
  _ ≤ 5 := by unfold expP; norm_num

lemma e_sat_neg100_bounds : 0 < e_sat (-100) ∧ e_sat (-100) ≤ 0.07 := by
  constructor
  · unfold e_sat; positivity
  · unfold e_sat
    have harg : 17.67 * (-100 : ℝ) / (-100 + 243.5) = -(16 * ((1767:ℝ)/2296)) := by
      norm_num
    rw [harg, Real.exp_neg]
    have h16 : Real.exp (16 * ((1767:ℝ)/2296)) = Real.exp ((1767:ℝ)/2296) ^ 16 :=
      Real.exp_nat_mul _ 16
    have hlb : ((1767:ℝ)/2296 + 1) ^ 16 ≤ Real.exp ((1767:ℝ)/2296) ^ 16 :=
      pow_le_pow_left₀ (by positivity) (Real.add_one_le_exp _) 16
    have h9000 : (9000:ℝ) ≤ Real.exp (16 * ((1767:ℝ)/2296)) := by
      rw [h16]
      calc (9000:ℝ) ≤ ((1767:ℝ)/2296 + 1) ^ 16 := by norm_num
      _ ≤ _ := hlb
    rw [← one_div]
    have hinv : (1:ℝ) / Real.exp (16 * ((1767:ℝ)/2296)) ≤ 1/9000 :=
      one_div_le_one_div_of_le (by norm_num) h9000
    linarith only [hinv]

lemma r_s_dry_bounds :
    0 < saturation_mixing_ratio 1000 (-100) ∧
      saturation_mixing_ratio 1000 (-100) ≤ 5e-7 := by
  obtain ⟨hE1, hE2⟩ := e_sat_neg100_bounds
  unfold saturation_mixing_ratio mixing_ratio epsilon
  constructor
  · apply div_pos
    · linarith only [hE1]
    · linarith only [hE2]
  · rw [div_le_iff (by linarith only [hE2] : (0:ℝ) < 1000 * 100 - e_sat (-100))]
    linarith only [hE1, hE2]

set_option maxHeartbeats 1000000 in
lemma theta_e_dry_bounds (t : ℝ) (ht1 : -60 ≤ t) (ht2 : t ≤ -20) :
    t + 273.15 ≤ theta_e t (-100) 1000 ∧
      theta_e t (-100) 1000 ≤ (t + 273.15) * 1.000021 := by
  obtain ⟨hE1, hE2⟩ := e_sat_neg100_bounds
  obtain ⟨hrs1, hrs2⟩ := r_s_dry_bounds
  rw [theta_e_unfold]
  simp only [ZERO_C_K]
  have htK1 : (213.15:ℝ) ≤ t + 273.15 := by linarith only [ht1]
  have htK2 : t + 273.15 ≤ 253.15 := by linarith only [ht2]
  have htK0 : (0:ℝ) < t + 273.15 := by linarith only [ht1]
  have hθeq : potential_temperature (1000 - e_sat (-100) / 100) t + 273.15 =
      (t + 273.15) * ((1000 / (1000 - e_sat (-100) / 100)) ^ Rd_Cpd) := by
    unfold potential_temperature ZERO_C_K
    ring
  have hpress0 : (0:ℝ) < 1000 - e_sat (-100) / 100 := by linarith only [hE2]
  have hρ1 : (1:ℝ) ≤ 1000 / (1000 - e_sat (-100) / 100) := by
    rw [le_div_iff hpress0]
    linarith only [hE1]
  have hρ2 : 1000 / (1000 - e_sat (-100) / 100) ≤ 1.0000008 := by
    rw [div_le_iff hpress0]
    linarith only [hE2]
  have hκ0 : (0:ℝ) ≤ Rd_Cpd := by unfold Rd_Cpd; norm_num
  have hκ1 : Rd_Cpd ≤ 1 := by unfold Rd_Cpd; norm_num
  have hr1 : (1:ℝ) ≤ (1000 / (1000 - e_sat (-100) / 100)) ^ Rd_Cpd :=
    Real.one_le_rpow hρ1 hκ0
  have hr2 : (1000 / (1000 - e_sat (-100) / 100)) ^ Rd_Cpd ≤ 1.0000008 := by
    calc (1000 / (1000 - e_sat (-100) / 100)) ^ Rd_Cpd
        ≤ (1000 / (1000 - e_sat (-100) / 100)) ^ (1:ℝ) :=
          Real.rpow_le_rpow_of_exponent_le hρ1 hκ1
    _ = 1000 / (1000 - e_sat (-100) / 100) := Real.rpow_one _
    _ ≤ 1.0000008 := hρ2
  have hθ1 : t + 273.15 ≤ potential_temperature (1000 - e_sat (-100) / 100) t + 273.15 := by
    rw [hθeq]
    have hstep := mul_le_mul_of_nonneg_left hr1 htK0.le
    linarith only [hstep]
  have hθ2 : potential_temperature (1000 - e_sat (-100) / 100) t + 273.15 ≤
      (t + 273.15) * 1.0000008 := by
    rw [hθeq]
    have hstep := mul_le_mul_of_nonneg_left hr2 htK0.le
    linarith only [hstep]
  have hθ0 : (0:ℝ) < potential_temperature (1000 - e_sat (-100) / 100) t + 273.15 :=
    lt_of_lt_of_le htK0 hθ1
  have htdK : (-100:ℝ) + 273.15 = 173.15 := by norm_num
  have hratpos : (0:ℝ) < (t + 273.15) / ((-100:ℝ) + 273.15) := by
    rw [htdK]
    exact div_pos htK0 (by norm_num)
  have hL1 : (0.2:ℝ) ≤ Real.log ((t + 273.15) / ((-100:ℝ) + 273.15)) := by
    rw [Real.le_log_iff_exp_le hratpos]
    have hexp : Real.exp (0.2:ℝ) ≤ 1.2215 := by
      calc Real.exp (0.2:ℝ) ≤ expP 0.2 + 0.2 ^ 12 * 13 / 5748019200 :=
            exp_le_expP_tail _ (by norm_num) (by norm_num)
      _ ≤ 1.2215 := by unfold expP; norm_num
    rw [htdK, le_div_iff (by norm_num : (0:ℝ) < 173.15)]
    linarith only [hexp, htK1]
  have hL2 : Real.log ((t + 273.15) / ((-100:ℝ) + 273.15)) ≤ 0.39 := by
    rw [Real.log_le_iff_le_exp hratpos]
    have hexp : (1.4625:ℝ) ≤ Real.exp 0.39 := by
      calc (1.4625:ℝ) ≤ expP 0.39 := by unfold expP; norm_num
      _ ≤ Real.exp 0.39 := expP_le_exp _ (by norm_num)
    rw [htdK, div_le_iff (by norm_num : (0:ℝ) < 173.15)]
    linarith only [hexp, htK2]
  have hSdef : (0.008786:ℝ) ≤ 1 / (((-100:ℝ) + 273.15) - 56) +
      Real.log ((t + 273.15) / ((-100:ℝ) + 273.15)) / 800 := by
    rw [htdK]
    have h117 : (0.008536:ℝ) ≤ 1 / (173.15 - 56 : ℝ) := by norm_num
    linarith only [h117, hL1, htdK.symm ▸ hL1]
  have hShi : 1 / (((-100:ℝ) + 273.15) - 56) +
      Real.log ((t + 273.15) / ((-100:ℝ) + 273.15)) / 800 ≤ 0.009025 := by
    rw [htdK]
    have h117 : (1:ℝ) / (173.15 - 56 : ℝ) ≤ 0.0085361 := by norm_num
    linarith only [h117, htdK.symm ▸ hL2]
  have hSpos : (0:ℝ) < 1 / (((-100:ℝ) + 273.15) - 56) +
      Real.log ((t + 273.15) / ((-100:ℝ) + 273.15)) / 800 := by
    linarith only [hSdef]
  have htlval : tl t (-100) = 56 + 1 / (1 / (((-100:ℝ) + 273.15) - 56) +
      Real.log ((t + 273.15) / ((-100:ℝ) + 273.15)) / 800) := by
    unfold tl ZERO_C_K
    rfl
  have htl1 : (166:ℝ) ≤ tl t (-100) := by
    rw [htlval]
    have hinv := one_div_le_one_div_of_le hSpos hShi
    have h110 : (110.8:ℝ) ≤ 1 / (0.009025:ℝ) := by norm_num
    linarith only [hinv, h110]
  have htl2 : tl t (-100) ≤ 170 := by
    rw [htlval]
    have hinv := one_div_le_one_div_of_le (by norm_num : (0:ℝ) < 0.008786) hSdef
    have h113 : (1:ℝ) / (0.008786:ℝ) ≤ 113.82 := by norm_num
    linarith only [hinv, h113]
  have htlpos : (0:ℝ) < tl t (-100) := by linarith only [htl1]
  have hq1 : (0:ℝ) ≤ 3036 / tl t (-100) - 1.78 := by
    have h17 : (17.85:ℝ) ≤ 3036 / tl t (-100) := by
      rw [le_div_iff htlpos]
      linarith only [htl2]
    linarith only [h17]
  have hq2 : 3036 / tl t (-100) - 1.78 ≤ 17 := by
    have h18 : 3036 / tl t (-100) ≤ 18.3 := by
      rw [div_le_iff htlpos]
      linarith only [htl1]
    linarith only [h18]
  have hrsq : saturation_mixing_ratio 1000 (-100) * (3036 / tl t (-100) - 1.78) ≤ 5e-7 * 17 :=
    mul_le_mul hrs2 hq2 hq1 (by norm_num)
  have hrs_sq : saturation_mixing_ratio 1000 (-100) * saturation_mixing_ratio 1000 (-100) ≤ 2.5e-13 := by
    have hh := mul_nonneg (sub_nonneg.mpr hrs2) hrs1.le
    linarith only [hh, hrs2]
  have hrssq_q : saturation_mixing_ratio 1000 (-100) * saturation_mixing_ratio 1000 (-100) *
      (3036 / tl t (-100) - 1.78) ≤ 2.5e-13 * 17 :=
    mul_le_mul hrs_sq hq2 hq1 (by positivity)
  have hy2a : (0:ℝ) ≤ saturation_mixing_ratio 1000 (-100) *
      (1 + 0.448 * saturation_mixing_ratio 1000 (-100)) * (3036 / tl t (-100) - 1.78) :=
    mul_nonneg (mul_nonneg hrs1.le (by linarith only [hrs1])) hq1
  have hy2b : saturation_mixing_ratio 1000 (-100) *
      (1 + 0.448 * saturation_mixing_ratio 1000 (-100)) * (3036 / tl t (-100) - 1.78) ≤ 9e-6 := by
    nlinarith [hrsq, hrssq_q]
  have hf2a : (1:ℝ) ≤ Real.exp (saturation_mixing_ratio 1000 (-100) *
      (1 + 0.448 * saturation_mixing_ratio 1000 (-100)) * (3036 / tl t (-100) - 1.78)) := by
    have hh := Real.add_one_le_exp (saturation_mixing_ratio 1000 (-100) *
      (1 + 0.448 * saturation_mixing_ratio 1000 (-100)) * (3036 / tl t (-100) - 1.78))
    linarith only [hh, hy2a]
  have hf2b : Real.exp (saturation_mixing_ratio 1000 (-100) *
      (1 + 0.448 * saturation_mixing_ratio 1000 (-100)) * (3036 / tl t (-100) - 1.78)) ≤ 1.000018 := by
    have hh := exp_le_one_add_two_mul _ hy2a (by linarith only [hy2b])
    linarith only [hh, hy2b]
  have hβpos : (0:ℝ) < (t + 273.15) / tl t (-100) := div_pos htK0 htlpos
  have hβ1 : (1:ℝ) ≤ (t + 273.15) / tl t (-100) := by
    rw [le_div_iff htlpos]
    linarith only [htl2, htK1]
  have hβ2 : (t + 273.15) / tl t (-100) ≤ 1.53 := by
    rw [div_le_iff htlpos]
    linarith only [htl1, htK2]
  have hlnβ1 : (0:ℝ) ≤ Real.log ((t + 273.15) / tl t (-100)) := Real.log_nonneg hβ1
  have hlnβ2 : Real.log ((t + 273.15) / tl t (-100)) ≤ 0.43 := by
    rw [Real.log_le_iff_le_exp hβpos]
    have h153 : (1.53:ℝ) ≤ expP 0.43 := by unfold expP; norm_num
    have h43 := expP_le_exp (0.43:ℝ) (by norm_num)
    linarith only [h153, h43, hβ2]
  have hf1eq : ((t + 273.15) / tl t (-100)) ^ (0.28 * saturation_mixing_ratio 1000 (-100)) =
      Real.exp (Real.log ((t + 273.15) / tl t (-100)) * (0.28 * saturation_mixing_ratio 1000 (-100))) :=
    Real.rpow_def_of_pos hβpos _
  have hy1a : (0:ℝ) ≤ Real.log ((t + 273.15) / tl t (-100)) * (0.28 * saturation_mixing_ratio 1000 (-100)) :=
    mul_nonneg hlnβ1 (by linarith only [hrs1])
  have hy1b : Real.log ((t + 273.15) / tl t (-100)) * (0.28 * saturation_mixing_ratio 1000 (-100)) ≤ 1e-7 := by
    have hprod : Real.log ((t + 273.15) / tl t (-100)) * saturation_mixing_ratio 1000 (-100) ≤ 0.43 * 5e-7 :=
      mul_le_mul hlnβ2 hrs2 hrs1.le (by norm_num)
    nlinarith [hprod]
  have hf1a : (1:ℝ) ≤ ((t + 273.15) / tl t (-100)) ^ (0.28 * saturation_mixing_ratio 1000 (-100)) := by
    rw [hf1eq]
    have hh := Real.add_one_le_exp (Real.log ((t + 273.15) / tl t (-100)) *
      (0.28 * saturation_mixing_ratio 1000 (-100)))
    linarith only [hh, hy1a]
  have hf1b : ((t + 273.15) / tl t (-100)) ^ (0.28 * saturation_mixing_ratio 1000 (-100)) ≤ 1.0000002 := by
    rw [hf1eq]
    have hh := exp_le_one_add_two_mul _ hy1a (by linarith only [hy1b])
    linarith only [hh, hy1b]
  constructor
  · have s1 : (t + 273.15) * 1 ≤
        (potential_temperature (1000 - e_sat (-100) / 100) t + 273.15) *
          ((t + 273.15) / tl t (-100)) ^ (0.28 * saturation_mixing_ratio 1000 (-100)) :=
      mul_le_mul hθ1 hf1a (by norm_num) hθ0.le
    have s2 : (t + 273.15) * 1 * 1 ≤
        (potential_temperature (1000 - e_sat (-100) / 100) t + 273.15) *
          ((t + 273.15) / tl t (-100)) ^ (0.28 * saturation_mixing_ratio 1000 (-100)) *
          Real.exp (saturation_mixing_ratio 1000 (-100) *
            (1 + 0.448 * saturation_mixing_ratio 1000 (-100)) * (3036 / tl t (-100) - 1.78)) :=
      mul_le_mul s1 hf2a (by norm_num)
        (mul_nonneg hθ0.le (le_trans zero_le_one hf1a))
    linarith only [s2]
  · have hmid0 : (0:ℝ) ≤ ((t + 273.15) / tl t (-100)) ^ (0.28 * saturation_mixing_ratio 1000 (-100)) :=
      le_trans zero_le_one hf1a
    have s1 : (potential_temperature (1000 - e_sat (-100) / 100) t + 273.15) *
          ((t + 273.15) / tl t (-100)) ^ (0.28 * saturation_mixing_ratio 1000 (-100)) ≤
        ((t + 273.15) * 1.0000008) * 1.0000002 :=
      mul_le_mul hθ2 hf1b hmid0 (mul_nonneg htK0.le (by norm_num))
    have s2 : (potential_temperature (1000 - e_sat (-100) / 100) t + 273.15) *
          ((t + 273.15) / tl t (-100)) ^ (0.28 * saturation_mixing_ratio 1000 (-100)) *
          Real.exp (saturation_mixing_ratio 1000 (-100) *
            (1 + 0.448 * saturation_mixing_ratio 1000 (-100)) * (3036 / tl t (-100) - 1.78)) ≤
        ((t + 273.15) * 1.0000008) * 1.0000002 * 1.000018 :=
      mul_le_mul s1 hf2b (le_trans zero_le_one hf2a)
        (mul_nonneg (mul_nonneg htK0.le (by norm_num)) (by norm_num))
    linarith only [s2, htK0]

set_option maxHeartbeats 1000000 in
lemma theta_w_A_window :
    -61 ≤ theta_w (-60) (-100) 1000 - 273.15 ∧
      theta_w (-60) (-100) 1000 - 273.15 ≤ -59.99 := by
  obtain ⟨he1, he2⟩ := theta_e_dry_bounds (-60) (by norm_num) (by norm_num)
  have hθe1 : (213.15:ℝ) ≤ theta_e (-60) (-100) 1000 := by linarith only [he1]
  have hθe2 : theta_e (-60) (-100) 1000 ≤ 213.1545 := by linarith only [he2]
  have hgt : ¬ theta_e (-60) (-100) 1000 ≤ 173.15 := by linarith only [hθe1]
  have hx1 : (0.78034:ℝ) ≤ theta_e (-60) (-100) 1000 / 273.15 := by
    rw [le_div_iff (by norm_num : (0:ℝ) < 273.15)]
    linarith only [hθe1]
  have hx2 : theta_e (-60) (-100) 1000 / 273.15 ≤ 0.780357 := by
    rw [div_le_iff (by norm_num : (0:ℝ) < 273.15)]
    linarith only [hθe2]
  unfold theta_w theta_w_from_theta_e
  rw [if_neg hgt]
  set x := theta_e (-60) (-100) 1000 / 273.15 with hxdef
  have ha := davies_a_pos_low x hx1 hx2
  have hb := davies_b_neg_low x hx1 hx2
  set A := 7.101574 - 20.68208 * x + 16.11182 * (x * x) + 2.574631 * (x * x * x) -
    5.205688 * (x * x * x * x) with hAdef
  set B := 1 - 3.552497 * x + 3.781782 * (x * x) - 0.6899655 * (x * x * x) -
    0.5929340 * (x * x * x * x) with hBdef
  have hdiv : A / B ≤ 0 := div_nonpos_iff.mpr (Or.inl ⟨ha.le, hb.le⟩)
  have hexp1 : Real.exp (A / B) ≤ 1 := by
    calc Real.exp (A / B) ≤ Real.exp 0 := Real.exp_le_exp.mpr hdiv
    _ = 1 := Real.exp_zero
  have hexp0 : (0:ℝ) < Real.exp (A / B) := Real.exp_pos _
  constructor
  · linarith only [hθe1, hexp1]
  · linarith only [hθe2, hexp0]

set_option maxHeartbeats 1000000 in
lemma theta_w_B_window :
    -30 ≤ theta_w (-20) (-100) 1000 - 273.15 ∧
      theta_w (-20) (-100) 1000 - 273.15 ≤ 30 := by
  obtain ⟨he1, he2⟩ := theta_e_dry_bounds (-20) (by norm_num) (by norm_num)
  have hθe1 : (253.15:ℝ) ≤ theta_e (-20) (-100) 1000 := by linarith only [he1]
  have hθe2 : theta_e (-20) (-100) 1000 ≤ 253.156 := by linarith only [he2]
  have hgt : ¬ theta_e (-20) (-100) 1000 ≤ 173.15 := by linarith only [hθe1]
  have hx1 : (0.92678:ℝ) ≤ theta_e (-20) (-100) 1000 / 273.15 := by
    rw [le_div_iff (by norm_num : (0:ℝ) < 273.15)]
    linarith only [hθe1]
  have hx2 : theta_e (-20) (-100) 1000 / 273.15 ≤ 0.926803 := by
    rw [div_le_iff (by norm_num : (0:ℝ) < 273.15)]
    linarith only [hθe2]
  unfold theta_w theta_w_from_theta_e
  rw [if_neg hgt]
  set x := theta_e (-20) (-100) 1000 / 273.15 with hxdef
  have ha := davies_a_neg_mid x hx1 hx2
  have hb := davies_b_neg_mid x hx1 hx2
  have hab := davies_ab_ratio_mid x hx1 hx2
  set A := 7.101574 - 20.68208 * x + 16.11182 * (x * x) + 2.574631 * (x * x * x) -
    5.205688 * (x * x * x * x) with hAdef
  set B := 1 - 3.552497 * x + 3.781782 * (x * x) - 0.6899655 * (x * x * x) -
    0.5929340 * (x * x * x * x) with hBdef
  have hdiv0 : (0:ℝ) ≤ A / B := by
    rw [le_div_iff_of_neg hb]
    linarith only [ha]
  have hdiv16 : A / B ≤ 1.6 := by
    rw [div_le_iff_of_neg hb]
    linarith only [hab]
  have hexp1 : (1:ℝ) ≤ Real.exp (A / B) := by
    have hh := Real.add_one_le_exp (A / B)
    linarith only [hh, hdiv0]
  have hexp5 : Real.exp (A / B) ≤ 5 := by
    calc Real.exp (A / B) ≤ Real.exp 1.6 := Real.exp_le_exp.mpr hdiv16
    _ ≤ 5 := exp_onesix_le_five
  constructor
  · linarith only [hθe1, hexp5]
  · linarith only [hθe2, hexp1]

/-! ## Claim C5: monotonicity of ctp in brightness temperature -/

/-- C5 counterexample: the parcel T = -60 degC, Td = -100 degC, p = 1000 hPa
has theta_w about 213 K (theta_w - 273.15 near -60), outside the fit range of
the 6th-degree moist-adiabat table; for it bt1 = -75 < bt2 = -72.5, both
inside the stated envelope [-75, -15], give ctp(bt1) > ctp(bt2), refuting
strict monotonicity over all valid parcels. -/
theorem c5_counterexample :
    (-75:ℝ) ∈ Set.Icc (-75:ℝ) (-15) ∧ (-72.5:ℝ) ∈ Set.Icc (-75:ℝ) (-15) ∧
      (-75:ℝ) < -72.5 ∧
      ctp (-60) (-100) 1000 (-72.5) < ctp (-60) (-100) 1000 (-75) := by
  refine ⟨by rw [Set.mem_Icc]; constructor <;> norm_num,
    by rw [Set.mem_Icc]; constructor <;> norm_num, by norm_num, ?_⟩
  obtain ⟨h1, h2⟩ := theta_w_A_window
  unfold ctp ZERO_C_K
  exact adiabat6_violation _ (by linarith) (by linarith)

/-- C5 (amended): strict monotonicity of ctp in bt over the envelope
bt in [-75, -15] holds for every parcel whose wet-bulb potential temperature
satisfies -30 <= theta_w - 273.15 <= 30 degC (the range the polynomial table
was fitted on); it fails for colder parcels such as the counterexample. -/
theorem c5_monotonic_in_envelope (t td p bt1 bt2 : ℝ)
    (hw1 : -30 ≤ theta_w t td p - 273.15) (hw2 : theta_w t td p - 273.15 ≤ 30)
    (hb1 : -75 ≤ bt1) (hlt : bt1 < bt2) (hb2 : bt2 ≤ -15) :
    ctp t td p bt1 < ctp t td p bt2 := by
  unfold ctp ZERO_C_K
  have hmono := adiabat6_strictMonoOn (theta_w t td p - 273.15)
    (by linarith) (by linarith)
  exact hmono (Set.mem_Icc.mpr ⟨hb1, by linarith⟩)
    (Set.mem_Icc.mpr ⟨by linarith, hb2⟩) hlt

/-- C5 witness: the parcel T = -20 degC, Td = -100 degC, p = 1000 hPa has
theta_w - 273.15 inside [-30, 30], and for it ctp is strictly increasing from
bt = -70 to bt = -60. -/
theorem c5_monotonic_in_envelope_witness :
    ctp (-20) (-100) 1000 (-70) < ctp (-20) (-100) 1000 (-60) :=
  c5_monotonic_in_envelope (-20) (-100) 1000 (-70) (-60)
    theta_w_B_window.1 theta_w_B_window.2 (by norm_num) (by norm_num)
    (by norm_num)

end CTH
